import Mathlib

/-!
# Multiclass cell transmission link (`src/minami/multiclass.cpp`)

A shallow embedding of `MNM_Dlink_Ctm_Multiclass` and of its cell type
`Ctm_Cell_Multiclass`, followed by theorems about them.

Conventions of the embedding.

* `TFlt` is embedded as `ℚ` (exact arithmetic: no rounding error, no NaN, no
  infinity) and `TInt` as `ℤ` (no overflow).  In `ℚ` a quotient by zero is `0`,
  whereas the program would produce an infinity or a NaN; the predicate
  `update_perceived_density_divides_by_zero` records, branch by branch, when
  the program divides by zero (`space_fraction_divides_by_zero` does so for
  the part that ends with the two space fractions), and every general theorem
  whose conclusion depends on the value of such a quotient assumes that it
  does not happen.  In `get_link_tt` the divisor `m_ffs` is zero on every link
  that the constructor builds; there the comparison with the quotient and the
  maximum that uses it have the outcome that they have in the program
  (`link_tt_rho_le_rhok`, `link_tt_congested_spd`).
* `std::deque<MNM_Veh*>` is embedded as `List MNM_Veh`, front of the queue
  first.
* `exit(-1)` is embedded as an explicit failure value.
* Where the source text names an identifier that is declared nowhere in the
  file and there is exactly one declared identifier with the same stem
  (`_space_fraction_car` for `m_space_fraction_car`, `_space_fraction_truck`
  for `m_space_fraction_truck`, the block-local `_tmp` of
  `get_perceived_supply`), the embedding reads it as that identifier.  The
  names `m_veh_queue`, `m_volume` and `_num_veh_tomove`, which have two
  candidates, are kept as they are written: the first two as cell members of
  their own, the third as an argument.
-/

namespace MINAMI

/-! ## Vehicles and queues -/

/-- Modelled from the spec: `MNM_Veh` is declared outside the sources; the spec
describes it as a reference with a "has next link" capability. -/
structure MNM_Veh where
  m_veh_ID : ℤ
  m_has_next_link : Bool
deriving DecidableEq, Repr

/-- The `has_next_link()` query of a vehicle. -/
def MNM_Veh.has_next_link (v : MNM_Veh) : Bool := v.m_has_next_link

/-! ## Cells -/

/-- The members of `Ctm_Cell_Multiclass` that the source file reads or writes.
`m_veh_queue` and `m_volume` are written by `clear_incoming_array` and read by
`move_last_cell`; the cell constructor does not mention them. -/
structure Ctm_Cell_Multiclass where
  m_cell_length : ℚ
  m_unit_time : ℚ
  m_flow_scalar : ℚ
  m_hold_cap_car : ℚ
  m_hold_cap_truck : ℚ
  m_critical_density_car : ℚ
  m_critical_density_truck : ℚ
  m_rho_1_N : ℚ
  m_flow_cap_car : ℚ
  m_flow_cap_truck : ℚ
  m_ffs_car : ℚ
  m_ffs_truck : ℚ
  m_wave_speed_car : ℚ
  m_wave_speed_truck : ℚ
  m_volume_car : ℤ
  m_volume_truck : ℤ
  m_out_veh_car : ℤ
  m_out_veh_truck : ℤ
  m_veh_queue_car : List MNM_Veh
  m_veh_queue_truck : List MNM_Veh
  m_space_fraction_car : ℚ
  m_space_fraction_truck : ℚ
  m_perceived_density_car : ℚ
  m_perceived_density_truck : ℚ
  m_veh_queue : List MNM_Veh
  m_volume : ℤ
deriving DecidableEq

/-- The constructor `Ctm_Cell_Multiclass::Ctm_Cell_Multiclass`.  The members it
does not assign (space fractions, perceived densities, `m_veh_queue`,
`m_volume`) are given the value `0` or the empty queue. -/
def Ctm_Cell_Multiclass.init (cell_length unit_time hold_cap_car hold_cap_truck
    critical_density_car critical_density_truck rho_1_N flow_cap_car flow_cap_truck
    ffs_car ffs_truck wave_speed_car wave_speed_truck flow_scalar : ℚ) :
    Ctm_Cell_Multiclass :=
  { m_cell_length := cell_length
    m_unit_time := unit_time
    m_flow_scalar := flow_scalar
    m_hold_cap_car := hold_cap_car
    m_hold_cap_truck := hold_cap_truck
    m_critical_density_car := critical_density_car
    m_critical_density_truck := critical_density_truck
    m_rho_1_N := rho_1_N
    m_flow_cap_car := flow_cap_car
    m_flow_cap_truck := flow_cap_truck
    m_ffs_car := ffs_car
    m_ffs_truck := ffs_truck
    m_wave_speed_car := wave_speed_car
    m_wave_speed_truck := wave_speed_truck
    m_volume_car := 0
    m_volume_truck := 0
    m_out_veh_car := 0
    m_out_veh_truck := 0
    m_veh_queue_car := []
    m_veh_queue_truck := []
    m_space_fraction_car := 0
    m_space_fraction_truck := 0
    m_perceived_density_car := 0
    m_perceived_density_truck := 0
    m_veh_queue := []
    m_volume := 0 }

namespace Ctm_Cell_Multiclass

/-- The local `_density_car` of `update_perceived_density`:
`TFlt(m_volume_car) / m_flow_scalar / m_cell_length`. -/
def density_car (c : Ctm_Cell_Multiclass) : ℚ :=
  (c.m_volume_car : ℚ) / c.m_flow_scalar / c.m_cell_length

/-- The local `_density_truck` of `update_perceived_density`. -/
def density_truck (c : Ctm_Cell_Multiclass) : ℚ :=
  (c.m_volume_truck : ℚ) / c.m_flow_scalar / c.m_cell_length

/-- The guard of the first branch of `update_perceived_density`. -/
def free_flow_cond (c : Ctm_Cell_Multiclass) : Prop :=
  c.density_car / c.m_critical_density_car
    + c.density_truck / c.m_critical_density_truck ≤ 1

/-- The guard of the second branch of `update_perceived_density`. -/
def semi_congested_cond (c : Ctm_Cell_Multiclass) : Prop :=
  c.density_car / (1 - c.density_truck / c.m_critical_density_truck) ≤ c.m_rho_1_N

instance (c : Ctm_Cell_Multiclass) : Decidable c.free_flow_cond := by
  unfold free_flow_cond; infer_instance

instance (c : Ctm_Cell_Multiclass) : Decidable c.semi_congested_cond := by
  unfold semi_congested_cond; infer_instance

/-- The three branches of `update_perceived_density`. -/
inductive Regime where
  | free_flow
  | semi_congested
  | fully_congested
deriving DecidableEq, Repr

/-- The branch that `update_perceived_density` takes on a cell. -/
def regime (c : Ctm_Cell_Multiclass) : Regime :=
  if c.free_flow_cond then Regime.free_flow
  else if c.semi_congested_cond then Regime.semi_congested
  else Regime.fully_congested

/-- The local `_tmp_car` of the third branch. -/
def tmp_car (c : Ctm_Cell_Multiclass) : ℚ :=
  c.m_hold_cap_car * c.m_wave_speed_car / c.density_car

/-- The local `_tmp_truck` of the third branch. -/
def tmp_truck (c : Ctm_Cell_Multiclass) : ℚ :=
  c.m_hold_cap_truck * c.m_wave_speed_truck / c.density_truck

/-- The method `Ctm_Cell_Multiclass::update_perceived_density`. -/
def update_perceived_density (c : Ctm_Cell_Multiclass) : Ctm_Cell_Multiclass :=
  if c.free_flow_cond then
    let sf_car := c.density_car / c.m_critical_density_car
    let sf_truck := c.density_truck / c.m_critical_density_truck
    { c with
      m_space_fraction_car := sf_car
      m_space_fraction_truck := sf_truck
      m_perceived_density_car := c.density_car + c.m_critical_density_car * sf_truck
      m_perceived_density_truck := c.density_truck + c.m_critical_density_truck * sf_car }
  else if c.semi_congested_cond then
    let sf_truck := c.density_truck / c.m_critical_density_truck
    let sf_car := 1 - sf_truck
    { c with
      m_space_fraction_truck := sf_truck
      m_space_fraction_car := sf_car
      m_perceived_density_car := c.density_car / sf_car
      m_perceived_density_truck := c.density_truck / sf_truck }
  else
    let sf_car := (c.m_wave_speed_car - c.m_wave_speed_truck + c.tmp_truck)
      / (c.tmp_car + c.tmp_truck)
    let sf_truck := (c.m_wave_speed_truck - c.m_wave_speed_car + c.tmp_car)
      / (c.tmp_car + c.tmp_truck)
    { c with
      m_space_fraction_car := sf_car
      m_space_fraction_truck := sf_truck
      m_perceived_density_car := c.density_car / sf_car
      m_perceived_density_truck := c.density_truck / sf_truck }

/-- Whether `update_perceived_density` has divided by zero by the time it has
stored the two space fractions: the divisors of the locals, of the guards that
are evaluated, and of the space fractions of the branch that is taken. -/
def space_fraction_divides_by_zero (c : Ctm_Cell_Multiclass) : Prop :=
  c.m_flow_scalar = 0 ∨ c.m_cell_length = 0
    ∨ c.m_critical_density_car = 0 ∨ c.m_critical_density_truck = 0
    ∨ (¬ c.free_flow_cond ∧
        (1 - c.density_truck / c.m_critical_density_truck = 0
          ∨ (¬ c.semi_congested_cond ∧
              (c.density_car = 0 ∨ c.density_truck = 0
                ∨ c.tmp_car + c.tmp_truck = 0))))

/-- Whether `update_perceived_density` divides by zero on this cell: as above,
or one of the two perceived densities of the second or third branch is a
quotient by a space fraction that is zero. -/
def update_perceived_density_divides_by_zero (c : Ctm_Cell_Multiclass) : Prop :=
  c.space_fraction_divides_by_zero
    ∨ (¬ c.free_flow_cond ∧
        (c.update_perceived_density.m_space_fraction_car = 0
          ∨ c.update_perceived_density.m_space_fraction_truck = 0))

instance (c : Ctm_Cell_Multiclass) : Decidable c.space_fraction_divides_by_zero := by
  unfold space_fraction_divides_by_zero; infer_instance

instance (c : Ctm_Cell_Multiclass) :
    Decidable c.update_perceived_density_divides_by_zero := by
  unfold update_perceived_density_divides_by_zero; infer_instance

/-- All calibration members of the cell are positive. -/
def positive_parameters (c : Ctm_Cell_Multiclass) : Prop :=
  0 < c.m_cell_length ∧ 0 < c.m_unit_time ∧ 0 < c.m_flow_scalar
    ∧ 0 < c.m_hold_cap_car ∧ 0 < c.m_hold_cap_truck
    ∧ 0 < c.m_critical_density_car ∧ 0 < c.m_critical_density_truck
    ∧ 0 < c.m_rho_1_N
    ∧ 0 < c.m_flow_cap_car ∧ 0 < c.m_flow_cap_truck
    ∧ 0 < c.m_ffs_car ∧ 0 < c.m_ffs_truck
    ∧ 0 < c.m_wave_speed_car ∧ 0 < c.m_wave_speed_truck

instance (c : Ctm_Cell_Multiclass) : Decidable c.positive_parameters := by
  unfold positive_parameters; infer_instance

/-- The two cells have the same calibration members (everything that the cell
constructor receives); their volumes, queues, scheduled outflows, space
fractions and perceived densities may differ. -/
def same_calibration (c d : Ctm_Cell_Multiclass) : Prop :=
  c.m_cell_length = d.m_cell_length ∧ c.m_unit_time = d.m_unit_time
    ∧ c.m_flow_scalar = d.m_flow_scalar
    ∧ c.m_hold_cap_car = d.m_hold_cap_car ∧ c.m_hold_cap_truck = d.m_hold_cap_truck
    ∧ c.m_critical_density_car = d.m_critical_density_car
    ∧ c.m_critical_density_truck = d.m_critical_density_truck
    ∧ c.m_rho_1_N = d.m_rho_1_N
    ∧ c.m_flow_cap_car = d.m_flow_cap_car ∧ c.m_flow_cap_truck = d.m_flow_cap_truck
    ∧ c.m_ffs_car = d.m_ffs_car ∧ c.m_ffs_truck = d.m_ffs_truck
    ∧ c.m_wave_speed_car = d.m_wave_speed_car
    ∧ c.m_wave_speed_truck = d.m_wave_speed_truck

instance (c d : Ctm_Cell_Multiclass) : Decidable (c.same_calibration d) := by
  unfold same_calibration; infer_instance

/-- The method `Ctm_Cell_Multiclass::get_perceived_demand`. -/
def get_perceived_demand (c : Ctm_Cell_Multiclass) (veh_type : ℤ) : ℚ :=
  if veh_type = 1 then
    min c.m_flow_cap_car (c.m_ffs_car * c.m_perceived_density_car)
  else
    min c.m_flow_cap_truck (c.m_ffs_truck * c.m_perceived_density_truck)

/-- The method `Ctm_Cell_Multiclass::get_perceived_supply`. -/
def get_perceived_supply (c : Ctm_Cell_Multiclass) (veh_type : ℤ) : ℚ :=
  let tmp :=
    if veh_type = 1 then
      min c.m_flow_cap_car
        (c.m_wave_speed_car * (c.m_hold_cap_car - c.m_perceived_density_car))
    else
      min c.m_flow_cap_truck
        (c.m_wave_speed_truck * (c.m_hold_cap_truck - c.m_perceived_density_truck))
  max 0 tmp

end Ctm_Cell_Multiclass

/-! ## Links -/

/-- The members of `MNM_Dlink_Ctm_Multiclass` (its own and those it inherits from
`MNM_Dlink`) that the source file reads or writes. -/
structure MNM_Dlink_Ctm_Multiclass where
  m_link_ID : ℤ
  m_number_of_lane : ℤ
  m_length : ℚ
  m_ffs : ℚ
  m_incoming_array : List MNM_Veh
  m_finished_array : List MNM_Veh
  m_lane_flow_cap_car : ℚ
  m_lane_flow_cap_truck : ℚ
  m_lane_hold_cap_car : ℚ
  m_lane_hold_cap_truck : ℚ
  m_ffs_car : ℚ
  m_ffs_truck : ℚ
  m_flow_scalar : ℚ
  m_cell_array : List Ctm_Cell_Multiclass
  m_num_cells : ℤ
  m_lane_critical_density_car : ℚ
  m_lane_critical_density_truck : ℚ
  m_wave_speed_car : ℚ
  m_wave_speed_truck : ℚ
  m_lane_rho_1_N : ℚ
  m_unit_time : ℚ
  m_lane_hold_cap : ℚ
  m_lane_flow_cap : ℚ
deriving DecidableEq

/-- The values of the link members that `update_out_veh` and `get_link_tt` read
but that no statement of the constructor assigns. -/
structure Unassigned where
  m_unit_time : ℚ
  m_lane_hold_cap : ℚ
  m_lane_flow_cap : ℚ

/-- The arguments of the constructor `MNM_Dlink_Ctm_Multiclass`, in source
order. -/
structure Args where
  ID : ℤ
  number_of_lane : ℤ
  length : ℚ
  lane_hold_cap_car : ℚ
  lane_hold_cap_truck : ℚ
  lane_flow_cap_car : ℚ
  lane_flow_cap_truck : ℚ
  ffs_car : ℚ
  ffs_truck : ℚ
  unit_time : ℚ
  flow_scalar : ℚ

/-- The result of a call that may end in `exit(-1)`: either the value it
produces, or the cell array as it stands when the process exits. -/
inductive Outcome (α : Type) where
  | ok (a : α)
  | fatal (cells : List Ctm_Cell_Multiclass)

/-- Whether a call ended in `exit(-1)`. -/
def Outcome.is_fatal {α : Type} : Outcome α → Bool
  | Outcome.ok _ => false
  | Outcome.fatal _ => true

/-- The cells that exist when the call ends: those carried by the result. -/
def Outcome.cells_built : Outcome MNM_Dlink_Ctm_Multiclass → List Ctm_Cell_Multiclass
  | Outcome.ok l => l.m_cell_array
  | Outcome.fatal cells => cells

namespace MNM_Dlink_Ctm_Multiclass

/-- The value of `lane_hold_cap_car` after lines 38-42. -/
def clamped_hold_cap_car (a : Args) : ℚ :=
  if a.lane_hold_cap_car > (300 : ℚ) / 1600 then (300 : ℚ) / 1600
  else a.lane_hold_cap_car

/-- The value of `lane_hold_cap_truck` after lines 43-47. -/
def clamped_hold_cap_truck (a : Args) : ℚ :=
  if a.lane_hold_cap_truck > (300 : ℚ) / 1600 then (300 : ℚ) / 1600
  else a.lane_hold_cap_truck

/-- The value of `lane_flow_cap_car` after lines 54-63: both conditionals test
and assign `lane_flow_cap_car`. -/
def clamped_flow_cap_car (a : Args) : ℚ :=
  let c1 := if a.lane_flow_cap_car > (3500 : ℚ) / 3600 then (3500 : ℚ) / 3600
    else a.lane_flow_cap_car
  if c1 > (3500 : ℚ) / 3600 then (3500 : ℚ) / 3600 else c1

/-- The value of `lane_flow_cap_truck` after lines 54-63: no statement assigns
it. -/
def clamped_flow_cap_truck (a : Args) : ℚ := a.lane_flow_cap_truck

/-- The local `_std_cell_length` of the constructor. -/
def std_cell_length (a : Args) : ℚ := a.ffs_car * a.unit_time

/-- The value of `m_num_cells` after lines 77-80. -/
def num_cells (a : Args) : ℤ :=
  let n : ℤ := ⌊a.length / std_cell_length a⌋
  if n = 0 then 1 else n

/-- The local `_last_cell_length` of the constructor. -/
def last_cell_length (a : Args) : ℚ :=
  a.length - ((num_cells a - 1 : ℤ) : ℚ) * std_cell_length a

/-- The call `new Ctm_Cell_Multiclass(...)` of `init_cell_array`, which the two
call sites make with the same arguments but for the cell length: the lane
members of the link are multiplied by the number of lanes. -/
def new_cell (l : MNM_Dlink_Ctm_Multiclass) (cell_length unit_time : ℚ) :
    Ctm_Cell_Multiclass :=
  Ctm_Cell_Multiclass.init cell_length unit_time
    ((l.m_number_of_lane : ℚ) * l.m_lane_hold_cap_car)
    ((l.m_number_of_lane : ℚ) * l.m_lane_hold_cap_truck)
    ((l.m_number_of_lane : ℚ) * l.m_lane_critical_density_car)
    ((l.m_number_of_lane : ℚ) * l.m_lane_critical_density_truck)
    ((l.m_number_of_lane : ℚ) * l.m_lane_rho_1_N)
    ((l.m_number_of_lane : ℚ) * l.m_lane_flow_cap_car)
    ((l.m_number_of_lane : ℚ) * l.m_lane_flow_cap_truck)
    l.m_ffs_car l.m_ffs_truck l.m_wave_speed_car l.m_wave_speed_truck
    l.m_flow_scalar

/-- The method `init_cell_array`: `m_num_cells - 1` cells of the standard length,
then one cell of the last length when the link length is positive.  (`new`
does not return `NULL`, so the two null checks never exit.) -/
def init_cell_array (l : MNM_Dlink_Ctm_Multiclass)
    (unit_time std_cell_length last_cell_length : ℚ) : MNM_Dlink_Ctm_Multiclass :=
  let previous :=
    List.replicate (l.m_num_cells - 1).toNat (new_cell l std_cell_length unit_time)
  let last := if l.m_length > 0 then [new_cell l last_cell_length unit_time] else []
  { l with m_cell_array := l.m_cell_array ++ previous ++ last }

/-- The link after lines 65-89 of the constructor, before `init_cell_array` is
called.  The base constructor `MNM_Dlink(ID, number_of_lane, length, 0.0)` stores
its four arguments and leaves the incoming and finished queues empty. -/
def members (a : Args) (u : Unassigned) : MNM_Dlink_Ctm_Multiclass :=
  let flow_cap_car := clamped_flow_cap_car a
  let flow_cap_truck := clamped_flow_cap_truck a
  let hold_cap_car := clamped_hold_cap_car a
  let hold_cap_truck := clamped_hold_cap_truck a
  let critical_density_car := flow_cap_car / a.ffs_car
  let critical_density_truck := flow_cap_truck / a.ffs_truck
  let wave_speed_car := flow_cap_car / (hold_cap_car - critical_density_car)
  let wave_speed_truck := flow_cap_truck / (hold_cap_truck - critical_density_truck)
  { m_link_ID := a.ID
    m_number_of_lane := a.number_of_lane
    m_length := a.length
    m_ffs := 0
    m_incoming_array := []
    m_finished_array := []
    m_lane_flow_cap_car := flow_cap_car
    m_lane_flow_cap_truck := flow_cap_truck
    m_lane_hold_cap_car := hold_cap_car
    m_lane_hold_cap_truck := hold_cap_truck
    m_ffs_car := a.ffs_car
    m_ffs_truck := a.ffs_truck
    m_flow_scalar := a.flow_scalar
    m_cell_array := []
    m_num_cells := num_cells a
    m_lane_critical_density_car := critical_density_car
    m_lane_critical_density_truck := critical_density_truck
    m_wave_speed_car := wave_speed_car
    m_wave_speed_truck := wave_speed_truck
    m_lane_rho_1_N := hold_cap_car * (wave_speed_car / (a.ffs_truck + wave_speed_car))
    m_unit_time := u.m_unit_time
    m_lane_hold_cap := u.m_lane_hold_cap
    m_lane_flow_cap := u.m_lane_flow_cap }

/-- The constructor `MNM_Dlink_Ctm_Multiclass::MNM_Dlink_Ctm_Multiclass`: the two
checks that exit (lines 33-37 and 49-53, before any cell exists), then the
members, then `init_cell_array`. -/
def construct (a : Args) (u : Unassigned) : Outcome MNM_Dlink_Ctm_Multiclass :=
  if a.lane_hold_cap_car < 0 ∨ a.lane_hold_cap_truck < 0 then Outcome.fatal []
  else if a.lane_flow_cap_car < 0 ∨ a.lane_flow_cap_truck < 0 then Outcome.fatal []
  else
    Outcome.ok
      (init_cell_array (members a u) a.unit_time (std_cell_length a) (last_cell_length a))

end MNM_Dlink_Ctm_Multiclass

/-! ### One time step -/

/-- The result of a call on an existing link: the value it produces, `exit(-1)`,
or behaviour that the language leaves undefined (an index outside the cell
array, `front()` of an empty queue). -/
inductive Step (α : Type) where
  | ok (a : α)
  | exit
  | undefined
deriving DecidableEq

/-- Sequencing of calls: the first failure ends the computation. -/
def Step.bind {α β : Type} (x : Step α) (f : α → Step β) : Step β :=
  match x with
  | Step.ok a => f a
  | Step.exit => Step.exit
  | Step.undefined => Step.undefined

/-- The loop `for (int i = start; i < start + count; ++i) body`. -/
def for_loop {σ : Type} (body : ℤ → σ → Step σ) : ℕ → ℤ → σ → Step σ
  | 0, _, s => Step.ok s
  | k + 1, i, s => (body i s).bind (for_loop body k (i + 1))

/-- Modelled from the spec: `MNM_Dlink::move_veh_queue` is defined outside the
sources.  The spec: dequeue exactly the requested number of vehicles from the
front of the first queue and enqueue them at the back of the second, keeping
their order; moving fewer than requested is not permitted. -/
def move_veh_queue (from_queue to_queue : List MNM_Veh) (number_tomove : ℤ) :
    Step (List MNM_Veh × List MNM_Veh) :=
  if number_tomove.toNat ≤ from_queue.length then
    Step.ok (from_queue.drop number_tomove.toNat,
      to_queue ++ from_queue.take number_tomove.toNat)
  else Step.undefined

/-- The element `m_cell_array[i]`. -/
def cell_at (cells : List Ctm_Cell_Multiclass) (i : ℤ) : Step Ctm_Cell_Multiclass :=
  if i < 0 then Step.undefined
  else
    match cells.get? i.toNat with
    | some c => Step.ok c
    | none => Step.undefined

/-- The assignment to the element `m_cell_array[i]`, which `cell_at` has found. -/
def set_cell (cells : List Ctm_Cell_Multiclass) (i : ℤ) (c : Ctm_Cell_Multiclass) :
    List Ctm_Cell_Multiclass :=
  cells.set i.toNat c

/-- The two assignments of the loop body of `update_out_veh` for the cell `c`
whose next cell is `n`.  `round` stands for `MNM_Ults::round`, which is defined
outside the sources, and `min` for `MNM_Ults::min`. -/
def schedule_out_veh (round : ℚ → ℤ) (unit_time flow_scalar : ℚ)
    (c n : Ctm_Cell_Multiclass) : Ctm_Cell_Multiclass :=
  let demand_car := c.get_perceived_demand 1
  let supply_car := n.get_perceived_supply 1
  let temp_out_flux_car := c.m_space_fraction_car * min demand_car supply_car
  let demand_truck := c.get_perceived_demand 2
  let supply_truck := n.get_perceived_supply 2
  let temp_out_flux_truck := c.m_space_fraction_truck * min demand_truck supply_truck
  { c with
    m_out_veh_car := round (temp_out_flux_car * unit_time * flow_scalar)
    m_out_veh_truck := round (temp_out_flux_truck * unit_time * flow_scalar) }

/-- The body of the loop of `update_out_veh`: cells `i` and `i + 1` are read and
cell `i` receives its two scheduled outflows. -/
def update_out_veh_body (round : ℚ → ℤ) (unit_time flow_scalar : ℚ) (i : ℤ)
    (cells : List Ctm_Cell_Multiclass) : Step (List Ctm_Cell_Multiclass) :=
  (cell_at cells i).bind fun c =>
  (cell_at cells (i + 1)).bind fun n =>
    Step.ok (set_cell cells i (schedule_out_veh round unit_time flow_scalar c n))

namespace MNM_Dlink_Ctm_Multiclass

/-- The method `update_out_veh`. -/
def update_out_veh (round : ℚ → ℤ) (l : MNM_Dlink_Ctm_Multiclass) :
    Step MNM_Dlink_Ctm_Multiclass :=
  (if l.m_num_cells > 1 then
    for_loop (update_out_veh_body round l.m_unit_time l.m_flow_scalar)
      (l.m_num_cells - 1).toNat 0 l.m_cell_array
   else Step.ok l.m_cell_array).bind fun cells =>
  (cell_at cells (l.m_num_cells - 1)).bind fun last =>
    Step.ok { l with
      m_cell_array := set_cell cells (l.m_num_cells - 1)
        { last with
          m_out_veh_car := (last.m_veh_queue_car.length : ℤ)
          m_out_veh_truck := (last.m_veh_queue_truck.length : ℤ) } }

end MNM_Dlink_Ctm_Multiclass

/-- The body of the first loop of `evolve`: the scheduled cars and trucks of cell
`i` go to the back of the queues of cell `i + 1`. -/
def move_body (i : ℤ) (cells : List Ctm_Cell_Multiclass) :
    Step (List Ctm_Cell_Multiclass) :=
  (cell_at cells i).bind fun c =>
  (cell_at cells (i + 1)).bind fun n =>
  (move_veh_queue c.m_veh_queue_car n.m_veh_queue_car c.m_out_veh_car).bind fun qc =>
  (move_veh_queue c.m_veh_queue_truck n.m_veh_queue_truck c.m_out_veh_truck).bind fun qt =>
    Step.ok (set_cell
      (set_cell cells i { c with m_veh_queue_car := qc.1, m_veh_queue_truck := qt.1 })
      (i + 1) { n with m_veh_queue_car := qc.2, m_veh_queue_truck := qt.2 })

/-- The loop of `move_last_cell` on the queue it names and the finished array:
each vehicle taken from the front must have a next link. -/
def move_last_cell_loop : ℕ → List MNM_Veh → List MNM_Veh →
    Step (List MNM_Veh × List MNM_Veh)
  | 0, queue, finished => Step.ok (queue, finished)
  | _ + 1, [], _ => Step.undefined
  | k + 1, veh :: queue, finished =>
    if veh.has_next_link then move_last_cell_loop k queue (finished ++ [veh])
    else Step.exit

/-- The body of the second loop of `evolve`: the volumes of cell `i` become the
lengths of its queues and its perceived densities are recomputed. -/
def update_volume_body (i : ℤ) (cells : List Ctm_Cell_Multiclass) :
    Step (List Ctm_Cell_Multiclass) :=
  (cell_at cells i).bind fun c =>
    Step.ok (set_cell cells i
      ({ c with
          m_volume_car := (c.m_veh_queue_car.length : ℤ)
          m_volume_truck := (c.m_veh_queue_truck.length : ℤ) }
        ).update_perceived_density)

namespace MNM_Dlink_Ctm_Multiclass

/-- The method `move_last_cell`.  Its loop bound `_num_veh_tomove` is declared
nowhere and is an argument here; its queue is the member `m_veh_queue` of the
last cell. -/
def move_last_cell (num_veh_tomove : ℤ) (l : MNM_Dlink_Ctm_Multiclass) :
    Step MNM_Dlink_Ctm_Multiclass :=
  (cell_at l.m_cell_array (l.m_num_cells - 1)).bind fun last =>
  (move_last_cell_loop num_veh_tomove.toNat last.m_veh_queue l.m_finished_array).bind
    fun r =>
    Step.ok { l with
      m_cell_array := set_cell l.m_cell_array (l.m_num_cells - 1)
        { last with m_veh_queue := r.1 }
      m_finished_array := r.2 }

/-- The method `evolve`.  The two statements that assign the volumes of the last
cell end in the token `???`, which is read as contributing nothing. -/
def evolve (round : ℚ → ℤ) (num_veh_tomove : ℤ) (l : MNM_Dlink_Ctm_Multiclass) :
    Step MNM_Dlink_Ctm_Multiclass :=
  (update_out_veh round l).bind fun l1 =>
  (if l1.m_num_cells > 1 then
    for_loop move_body (l1.m_num_cells - 1).toNat 0 l1.m_cell_array
   else Step.ok l1.m_cell_array).bind fun cells2 =>
  (move_last_cell num_veh_tomove { l1 with m_cell_array := cells2 }).bind fun l3 =>
  (if l3.m_num_cells > 1 then
    for_loop update_volume_body (l3.m_num_cells - 1).toNat 0 l3.m_cell_array
   else Step.ok l3.m_cell_array).bind fun cells4 =>
  (cell_at cells4 (l3.m_num_cells - 1)).bind fun last =>
    Step.ok { l3 with
      m_cell_array := set_cell cells4 (l3.m_num_cells - 1)
        ({ last with
            m_volume_car :=
              (last.m_veh_queue_car.length : ℤ) + (l3.m_finished_array.length : ℤ)
            m_volume_truck :=
              (last.m_veh_queue_truck.length : ℤ) + (l3.m_finished_array.length : ℤ) }
          ).update_perceived_density }

/-- The method `get_link_supply`: it names the first cell and returns `0`. -/
def get_link_supply (_l : MNM_Dlink_Ctm_Multiclass) : ℚ := 0

/-- The method `clear_incoming_array`. -/
def clear_incoming_array (l : MNM_Dlink_Ctm_Multiclass) : Step MNM_Dlink_Ctm_Multiclass :=
  if l.get_link_supply * l.m_flow_scalar < (l.m_incoming_array.length : ℚ) then Step.exit
  else
    (cell_at l.m_cell_array 0).bind fun c0 =>
    (move_veh_queue l.m_incoming_array c0.m_veh_queue
        (l.m_incoming_array.length : ℤ)).bind fun q =>
      Step.ok { l with
        m_incoming_array := q.1
        m_cell_array := set_cell l.m_cell_array 0
          { c0 with m_veh_queue := q.2, m_volume := (q.2.length : ℤ) } }

/-- The sum over the cell array of `m_volume_car + m_volume_truck`, the local
`_total_volume` of `get_link_flow` when the array holds `m_num_cells` cells. -/
def total_volume (l : MNM_Dlink_Ctm_Multiclass) : ℤ :=
  (l.m_cell_array.map fun c => c.m_volume_car + c.m_volume_truck).sum

/-- The method `get_link_flow`. -/
def get_link_flow (l : MNM_Dlink_Ctm_Multiclass) : ℚ :=
  (l.total_volume : ℚ) / l.m_flow_scalar

/-- The quantity of the flow-conservation property: all per-class cell volumes
plus the number of finished vehicles, minus the number of vehicles taken from
the incoming queue so far. -/
def conserved_quantity (l : MNM_Dlink_Ctm_Multiclass) (taken : ℤ) : ℤ :=
  l.total_volume + (l.m_finished_array.length : ℤ) - taken

end MNM_Dlink_Ctm_Multiclass

/-- The number of vehicles in the three queues of a cell. -/
def Ctm_Cell_Multiclass.queued (c : Ctm_Cell_Multiclass) : ℤ :=
  (c.m_veh_queue_car.length : ℤ) + (c.m_veh_queue_truck.length : ℤ)
    + (c.m_veh_queue.length : ℤ)

/-- The number of vehicles that the link holds in its cells and in its finished
array. -/
def MNM_Dlink_Ctm_Multiclass.vehicles_held (l : MNM_Dlink_Ctm_Multiclass) : ℤ :=
  (l.m_cell_array.map Ctm_Cell_Multiclass.queued).sum + (l.m_finished_array.length : ℤ)

/-- A call on a link: `clear_incoming_array()`, or `evolve(timestamp)` together
with the value that the undeclared `_num_veh_tomove` has in it. -/
inductive Call where
  | clear_incoming_array
  | evolve (num_veh_tomove : ℤ)

/-- A sequence of calls on a link, stopping at the first one that fails. -/
def run (round : ℚ → ℤ) : List Call → MNM_Dlink_Ctm_Multiclass →
    Step MNM_Dlink_Ctm_Multiclass
  | [], l => Step.ok l
  | Call.clear_incoming_array :: calls, l =>
    l.clear_incoming_array.bind (run round calls)
  | Call.evolve num_veh_tomove :: calls, l =>
    (l.evolve round num_veh_tomove).bind (run round calls)


/-! ## The branches of `update_perceived_density`, and the travel time -/

namespace Ctm_Cell_Multiclass

/-- The four assignments of the first (free-flow) branch of
`update_perceived_density`. -/
def free_flow_branch (c : Ctm_Cell_Multiclass) : Ctm_Cell_Multiclass :=
  let sf_car := c.density_car / c.m_critical_density_car
  let sf_truck := c.density_truck / c.m_critical_density_truck
  { c with
    m_space_fraction_car := sf_car
    m_space_fraction_truck := sf_truck
    m_perceived_density_car := c.density_car + c.m_critical_density_car * sf_truck
    m_perceived_density_truck := c.density_truck + c.m_critical_density_truck * sf_car }

/-- The four assignments of the second (semi-congested) branch of
`update_perceived_density`. -/
def semi_congested_branch (c : Ctm_Cell_Multiclass) : Ctm_Cell_Multiclass :=
  let sf_truck := c.density_truck / c.m_critical_density_truck
  let sf_car := 1 - sf_truck
  { c with
    m_space_fraction_truck := sf_truck
    m_space_fraction_car := sf_car
    m_perceived_density_car := c.density_car / sf_car
    m_perceived_density_truck := c.density_truck / sf_truck }

/-- The assignments of the third (fully-congested) branch of
`update_perceived_density`. -/
def fully_congested_branch (c : Ctm_Cell_Multiclass) : Ctm_Cell_Multiclass :=
  let sf_car := (c.m_wave_speed_car - c.m_wave_speed_truck + c.tmp_truck)
    / (c.tmp_car + c.tmp_truck)
  let sf_truck := (c.m_wave_speed_truck - c.m_wave_speed_car + c.tmp_car)
    / (c.tmp_car + c.tmp_truck)
  { c with
    m_space_fraction_car := sf_car
    m_space_fraction_truck := sf_truck
    m_perceived_density_car := c.density_car / sf_car
    m_perceived_density_truck := c.density_truck / sf_truck }

end Ctm_Cell_Multiclass

namespace MNM_Dlink_Ctm_Multiclass

/-- The local `_rho` of `get_link_tt`. -/
def link_tt_rho (l : MNM_Dlink_Ctm_Multiclass) : ℚ :=
  l.get_link_flow / (l.m_number_of_lane : ℚ) / l.m_length

/-- The local `_rhoj` of `get_link_tt`. -/
def link_tt_rhoj (l : MNM_Dlink_Ctm_Multiclass) : ℚ := l.m_lane_hold_cap

/-- The local `_rhok` of `get_link_tt`, the quotient `m_lane_flow_cap / m_ffs`, for
a member `m_ffs` that is not zero.  For `m_ffs = 0`, the value that the
constructor passes to the base class, the quotient of the program is an
infinity or not a number, and the definitions below treat that case apart. -/
def link_tt_rhok (l : MNM_Dlink_Ctm_Multiclass) : ℚ := l.m_lane_flow_cap / l.m_ffs

/-- The comparison `_rho <= _rhok` of `get_link_tt`.  When `m_ffs` is zero, `_rhok`
is plus infinity for a positive `m_lane_flow_cap`, and the comparison holds; it
is minus infinity for a negative `m_lane_flow_cap` and not a number for
`m_lane_flow_cap = 0`, and the comparison fails. -/
def link_tt_rho_le_rhok (l : MNM_Dlink_Ctm_Multiclass) : Prop :=
  if l.m_ffs = 0 then 0 < l.m_lane_flow_cap else l.link_tt_rho ≤ l.link_tt_rhok

instance (l : MNM_Dlink_Ctm_Multiclass) : Decidable l.link_tt_rho_le_rhok := by
  unfold link_tt_rho_le_rhok; infer_instance

/-- The second argument of `MNM_Ults::max` in `get_link_tt`,
`m_lane_flow_cap * (_rhoj - _rho) / (_rhoj - _rhok) / _rho`.  When `m_ffs` is
zero and the comparison `_rho <= _rhok` has failed, `_rhok` is minus infinity
and the quotient by `_rhoj - _rhok` is a zero (it is not a number when
`m_lane_flow_cap` or `_rho` is zero, and the embedding has `0` then as well). -/
def link_tt_congested_spd (l : MNM_Dlink_Ctm_Multiclass) : ℚ :=
  if l.m_ffs = 0 then 0
  else
    l.m_lane_flow_cap * (l.link_tt_rhoj - l.link_tt_rho)
      / (l.link_tt_rhoj - l.link_tt_rhok) / l.link_tt_rho

/-- The local `_spd` of `get_link_tt`, which is assigned when `_rho < _rhoj`.
`max` stands for `MNM_Ults::max`. -/
def link_tt_spd (l : MNM_Dlink_Ctm_Multiclass) : ℚ :=
  if l.link_tt_rho_le_rhok then l.m_ffs
  else max ((1 : ℚ) / 1000 * l.m_ffs) l.link_tt_congested_spd

/-- The method `get_link_tt`.  `max_link_cost` stands for the value of
`MNM_Ults::max_link_cost()`, which is defined outside the sources. -/
def get_link_tt (max_link_cost : ℚ) (l : MNM_Dlink_Ctm_Multiclass) : ℚ :=
  if l.link_tt_rho ≥ l.link_tt_rhoj then max_link_cost
  else l.m_length / l.link_tt_spd

end MNM_Dlink_Ctm_Multiclass

/-- The scheduled outflows of a cell do not exceed the lengths of its queues. -/
def Ctm_Cell_Multiclass.out_veh_within_queue (c : Ctm_Cell_Multiclass) : Prop :=
  c.m_out_veh_car ≤ (c.m_veh_queue_car.length : ℤ)
    ∧ c.m_out_veh_truck ≤ (c.m_veh_queue_truck.length : ℤ)

instance (c : Ctm_Cell_Multiclass) : Decidable c.out_veh_within_queue := by
  unfold Ctm_Cell_Multiclass.out_veh_within_queue; infer_instance

/-- The outflows that `update_out_veh` schedules on the link do not exceed the
queue lengths in any cell but the last. -/
def scheduled_within_queues (round : ℚ → ℤ) (l : MNM_Dlink_Ctm_Multiclass) : Prop :=
  match l.update_out_veh round with
  | Step.ok l1 =>
    ∀ c ∈ l1.m_cell_array.take (l1.m_num_cells - 1).toNat, c.out_veh_within_queue
  | Step.exit => False
  | Step.undefined => False

instance (round : ℚ → ℤ) (l : MNM_Dlink_Ctm_Multiclass) :
    Decidable (scheduled_within_queues round l) := by
  unfold scheduled_within_queues; split <;> infer_instance

/-- The volume members of every cell are the lengths of its car queue and of its
truck queue. -/
def MNM_Dlink_Ctm_Multiclass.volumes_agree (l : MNM_Dlink_Ctm_Multiclass) : Prop :=
  ∀ c ∈ l.m_cell_array,
    c.m_volume_car = (c.m_veh_queue_car.length : ℤ)
      ∧ c.m_volume_truck = (c.m_veh_queue_truck.length : ℤ)

instance (l : MNM_Dlink_Ctm_Multiclass) : Decidable l.volumes_agree := by
  unfold MNM_Dlink_Ctm_Multiclass.volumes_agree; infer_instance

/-! ## Examples used below -/

/-- A two-lane link of 35 m whose car jam density is above the ceiling. -/
def example_args : Args :=
  { ID := 7
    number_of_lane := 2
    length := 35
    lane_hold_cap_car := 1
    lane_hold_cap_truck := 1 / 8
    lane_flow_cap_car := 1 / 2
    lane_flow_cap_truck := 1 / 4
    ffs_car := 10
    ffs_truck := 8
    unit_time := 1
    flow_scalar := 10 }

/-- Values for the members that the constructor leaves unassigned. -/
def example_unassigned : Unassigned :=
  { m_unit_time := 1, m_lane_hold_cap := 0, m_lane_flow_cap := 0 }

/-- The link that the constructor builds from `example_args`. -/
def example_link : MNM_Dlink_Ctm_Multiclass :=
  MNM_Dlink_Ctm_Multiclass.init_cell_array
    (MNM_Dlink_Ctm_Multiclass.members example_args example_unassigned)
    example_args.unit_time
    (MNM_Dlink_Ctm_Multiclass.std_cell_length example_args)
    (MNM_Dlink_Ctm_Multiclass.last_cell_length example_args)

/-- A standard cell of `example_link` (10 m long, two lanes, ten volume units per
vehicle) that holds the given volumes. -/
def example_cell (volume_car volume_truck : ℤ) : Ctm_Cell_Multiclass :=
  { MNM_Dlink_Ctm_Multiclass.new_cell
      (MNM_Dlink_Ctm_Multiclass.members example_args example_unassigned)
      (MNM_Dlink_Ctm_Multiclass.std_cell_length example_args) example_args.unit_time with
    m_volume_car := volume_car
    m_volume_truck := volume_truck }

/-- The arguments of `example_args` with both flow capacities at 2 vehicles per
second, above the ceiling of 3500 vehicles per hour. -/
def flow_cap_args : Args :=
  { example_args with lane_flow_cap_car := 2, lane_flow_cap_truck := 2 }

/-- The link that the constructor builds from `flow_cap_args`. -/
def flow_cap_link : MNM_Dlink_Ctm_Multiclass :=
  MNM_Dlink_Ctm_Multiclass.init_cell_array
    (MNM_Dlink_Ctm_Multiclass.members flow_cap_args example_unassigned)
    flow_cap_args.unit_time
    (MNM_Dlink_Ctm_Multiclass.std_cell_length flow_cap_args)
    (MNM_Dlink_Ctm_Multiclass.last_cell_length flow_cap_args)

/-- Modelled from the spec: `MNM_Ults::round` is defined outside the sources and
the spec only says that the flux is rounded; this instance rounds to the nearest
integer, halves upwards. -/
def round_half_up (x : ℚ) : ℤ := ⌊x + 1 / 2⌋

/-- A Step result as an option: the value of a call that succeeded. -/
def Step.toOption {α : Type} : Step α → Option α
  | Step.ok a => some a
  | Step.exit => none
  | Step.undefined => none

/-- The arguments of `example_args` with a length of one standard cell. -/
def single_cell_args : Args := { example_args with length := 10 }

/-- The one-cell link that the constructor builds from `single_cell_args`. -/
def single_cell_link : MNM_Dlink_Ctm_Multiclass :=
  MNM_Dlink_Ctm_Multiclass.init_cell_array
    (MNM_Dlink_Ctm_Multiclass.members single_cell_args example_unassigned)
    single_cell_args.unit_time
    (MNM_Dlink_Ctm_Multiclass.std_cell_length single_cell_args)
    (MNM_Dlink_Ctm_Multiclass.last_cell_length single_cell_args)

/-- The link `single_cell_link` with one vehicle in its finished array, waiting
to be collected, and nothing in its cell. -/
def finished_state : MNM_Dlink_Ctm_Multiclass :=
  { single_cell_link with
    m_finished_array := [{ m_veh_ID := 1, m_has_next_link := true }] }

/-- The number of vehicles in the car and truck queues of all cells plus the
number of finished vehicles. -/
def MNM_Dlink_Ctm_Multiclass.per_class_held (l : MNM_Dlink_Ctm_Multiclass) : ℤ :=
  (l.m_cell_array.map fun c =>
      (c.m_veh_queue_car.length : ℤ) + (c.m_veh_queue_truck.length : ℤ)).sum
    + (l.m_finished_array.length : ℤ)

/-- The link `single_cell_link` with all queues empty and one car, which has a
next link, placed in its incoming queue. -/
def incoming_state : MNM_Dlink_Ctm_Multiclass :=
  { single_cell_link with
    m_incoming_array := [{ m_veh_ID := 1, m_has_next_link := true }] }

/-- The link `single_cell_link` with the vehicle `veh` in the car queue of its only
(terminal) cell, counted in the car volume. -/
def terminal_car_state (veh : MNM_Veh) : MNM_Dlink_Ctm_Multiclass :=
  { single_cell_link with
    m_cell_array := [{ example_cell 1 0 with m_veh_queue_car := [veh] }] }

/-- Values for the unassigned members with a positive `m_lane_hold_cap`. -/
def tt_unassigned : Unassigned :=
  { m_unit_time := 1, m_lane_hold_cap := 3 / 16, m_lane_flow_cap := 1 / 2 }

/-- The link that the constructor builds from `example_args` when the unassigned
members hold `tt_unassigned`; all its cells are empty. -/
def tt_link : MNM_Dlink_Ctm_Multiclass :=
  MNM_Dlink_Ctm_Multiclass.init_cell_array
    (MNM_Dlink_Ctm_Multiclass.members example_args tt_unassigned)
    example_args.unit_time
    (MNM_Dlink_Ctm_Multiclass.std_cell_length example_args)
    (MNM_Dlink_Ctm_Multiclass.last_cell_length example_args)

/-- The vehicles that the cells hold in one of their queues, as one sequence:
downstream cells first, each queue from its front. -/
def queue_line (queue : Ctm_Cell_Multiclass → List MNM_Veh) :
    List Ctm_Cell_Multiclass → List MNM_Veh
  | [] => []
  | c :: cells => queue_line queue cells ++ queue c

/-- The arguments of `example_args` with a length of two standard cells. -/
def two_cell_args : Args := { example_args with length := 20 }

/-- The two-cell link that the constructor builds from `two_cell_args`. -/
def two_cell_link : MNM_Dlink_Ctm_Multiclass :=
  MNM_Dlink_Ctm_Multiclass.init_cell_array
    (MNM_Dlink_Ctm_Multiclass.members two_cell_args example_unassigned)
    two_cell_args.unit_time
    (MNM_Dlink_Ctm_Multiclass.std_cell_length two_cell_args)
    (MNM_Dlink_Ctm_Multiclass.last_cell_length two_cell_args)

/-- The link `two_cell_link` with three cars and three trucks, which have a next
link, queued in its first cell and counted in the volumes of that cell, and an
empty second cell; the perceived densities of both cells are up to date. -/
def moving_state : MNM_Dlink_Ctm_Multiclass :=
  { two_cell_link with
    m_cell_array :=
      [({ example_cell 3 3 with
            m_veh_queue_car :=
              [{ m_veh_ID := 1, m_has_next_link := true },
               { m_veh_ID := 2, m_has_next_link := true },
               { m_veh_ID := 3, m_has_next_link := true }]
            m_veh_queue_truck :=
              [{ m_veh_ID := 4, m_has_next_link := true },
               { m_veh_ID := 5, m_has_next_link := true },
               { m_veh_ID := 6, m_has_next_link := true }] }).update_perceived_density,
       (example_cell 0 0).update_perceived_density] }

/-- The link `moving_state` after one call of `evolve`: the first two cars and the
first two trucks have moved to the second cell. -/
def moving_state_evolved : MNM_Dlink_Ctm_Multiclass :=
  { two_cell_link with
    m_cell_array :=
      [({ example_cell 1 1 with
            m_out_veh_car := 2
            m_out_veh_truck := 2
            m_veh_queue_car := [{ m_veh_ID := 3, m_has_next_link := true }]
            m_veh_queue_truck :=
              [{ m_veh_ID := 6, m_has_next_link := true }] }).update_perceived_density,
       ({ example_cell 2 2 with
            m_veh_queue_car :=
              [{ m_veh_ID := 1, m_has_next_link := true },
               { m_veh_ID := 2, m_has_next_link := true }]
            m_veh_queue_truck :=
              [{ m_veh_ID := 4, m_has_next_link := true },
               { m_veh_ID := 5, m_has_next_link := true }] }).update_perceived_density] }

/-- The link `single_cell_link` with one vehicle, which has a next link, in the
member `m_veh_queue` of its only cell, and empty car and truck queues. -/
def terminal_queue_state : MNM_Dlink_Ctm_Multiclass :=
  { single_cell_link with
    m_cell_array :=
      [{ example_cell 0 0 with
          m_veh_queue := [{ m_veh_ID := 1, m_has_next_link := true }] }] }

/-- The link `single_cell_link` with one car in the car queue of its only cell that
the car volume of the cell does not count. -/
def uncounted_car_state : MNM_Dlink_Ctm_Multiclass :=
  { single_cell_link with
    m_cell_array :=
      [{ example_cell 0 0 with
          m_veh_queue_car := [{ m_veh_ID := 1, m_has_next_link := true }] }] }

/-! ## Theorems -/

section Theorems

open MNM_Dlink_Ctm_Multiclass Ctm_Cell_Multiclass

/-! ### The constructor -/

theorem construct_eq_ok {a : Args} {u : Unassigned} {l : MNM_Dlink_Ctm_Multiclass}
    (h : construct a u = Outcome.ok l) :
    l = init_cell_array (members a u) a.unit_time (std_cell_length a) (last_cell_length a) := by
  unfold construct at h
  split_ifs at h
  injection h with h
  exact h.symm

theorem construct_of_nonneg {a : Args} (u : Unassigned)
    (h1 : 0 ≤ a.lane_hold_cap_car) (h2 : 0 ≤ a.lane_hold_cap_truck)
    (h3 : 0 ≤ a.lane_flow_cap_car) (h4 : 0 ≤ a.lane_flow_cap_truck) :
    construct a u = Outcome.ok
      (init_cell_array (members a u) a.unit_time (std_cell_length a) (last_cell_length a)) := by
  unfold construct
  rw [if_neg (by push_neg; exact ⟨h1, h2⟩), if_neg (by push_neg; exact ⟨h3, h4⟩)]

theorem num_cells_pos {a : Args} (hlen : 0 < a.length) (hstd : 0 < std_cell_length a) :
    1 ≤ num_cells a := by
  have hq : 0 ≤ a.length / std_cell_length a := le_of_lt (div_pos hlen hstd)
  have hf : (0 : ℤ) ≤ ⌊a.length / std_cell_length a⌋ := Int.floor_nonneg.mpr hq
  unfold num_cells
  simp only
  split_ifs with h0
  · exact le_refl 1
  · omega

theorem num_cells_eq_max {a : Args} (hlen : 0 < a.length) (hstd : 0 < std_cell_length a) :
    num_cells a = max 1 ⌊a.length / std_cell_length a⌋ := by
  have hq : 0 ≤ a.length / std_cell_length a := le_of_lt (div_pos hlen hstd)
  have hf : (0 : ℤ) ≤ ⌊a.length / std_cell_length a⌋ := Int.floor_nonneg.mpr hq
  unfold num_cells
  simp only
  split_ifs with h0
  · rw [h0]; rfl
  · rw [max_eq_right (by omega)]

theorem cell_array_eq (a : Args) (u : Unassigned) :
    (init_cell_array (members a u) a.unit_time (std_cell_length a)
        (last_cell_length a)).m_cell_array.map (fun c => c.m_cell_length)
      = List.replicate (num_cells a - 1).toNat (std_cell_length a)
        ++ (if a.length > 0 then [last_cell_length a] else []) := by
  simp only [init_cell_array, new_cell, members, List.nil_append, List.map_append,
    List.map_replicate, Ctm_Cell_Multiclass.init]
  split_ifs <;> simp

theorem last_cell_length_bounds {a : Args} (hstd : 0 < std_cell_length a)
    (h2 : 2 ≤ num_cells a) :
    std_cell_length a ≤ last_cell_length a ∧ last_cell_length a < 2 * std_cell_length a := by
  have hn : num_cells a = ⌊a.length / std_cell_length a⌋ := by
    unfold num_cells
    simp only
    split_ifs with h0
    · exfalso
      have : num_cells a = 1 := by unfold num_cells; simp only; rw [if_pos h0]
      omega
    · rfl
  have hlo : ((num_cells a : ℤ) : ℚ) ≤ a.length / std_cell_length a := by
    rw [hn]; exact Int.floor_le _
  have hhi : a.length / std_cell_length a < ((num_cells a : ℤ) : ℚ) + 1 := by
    rw [hn]; exact Int.lt_floor_add_one _
  rw [le_div_iff₀ hstd] at hlo
  rw [div_lt_iff₀ hstd] at hhi
  unfold last_cell_length
  push_cast
  constructor <;> nlinarith


theorem last_cell_of_construct {a : Args} {u : Unassigned} {l : MNM_Dlink_Ctm_Multiclass}
    (h : construct a u = Outcome.ok l) (hlen : 0 < a.length) :
    ∃ last, l.m_cell_array.getLast? = some last ∧ last.m_cell_length = last_cell_length a := by
  have hl := construct_eq_ok h
  have hmap := cell_array_eq a u
  rw [← hl, if_pos hlen] at hmap
  have hlast : (l.m_cell_array.map fun c => c.m_cell_length).getLast?
      = some (last_cell_length a) := by
    rw [hmap]; simp
  rw [List.getLast?_map] at hlast
  cases hgl : l.m_cell_array.getLast? with
  | none => rw [hgl] at hlast; simp at hlast
  | some last =>
    rw [hgl] at hlast
    simp only [Option.map_some', Option.some.injEq] at hlast
    exact ⟨last, rfl, hlast⟩

theorem example_construct :
    construct example_args example_unassigned = Outcome.ok example_link := by
  norm_num [construct, example_args, example_link]

/-- Claim C5: a link constructed with positive length and positive standard cell
length `ffs_car * unit_time` has at least one cell, its cell array holds exactly
`m_num_cells` cells, every cell but the last has the standard length, the link
length is `(m_num_cells - 1)` standard lengths plus the length of the last cell,
and the cell lengths sum to the link length. -/
theorem cell_array_covers_link (a : Args) (u : Unassigned) (l : MNM_Dlink_Ctm_Multiclass)
    (h : construct a u = Outcome.ok l) (hlen : 0 < a.length)
    (hstd : 0 < a.ffs_car * a.unit_time) :
    1 ≤ l.m_num_cells
    ∧ (l.m_cell_array.length : ℤ) = l.m_num_cells
    ∧ (∀ (i : ℕ) (hi : i < l.m_cell_array.length), (i : ℤ) < l.m_num_cells - 1 →
        (l.m_cell_array.get ⟨i, hi⟩).m_cell_length = a.ffs_car * a.unit_time)
    ∧ (∃ last, l.m_cell_array.getLast? = some last
        ∧ a.length = ((l.m_num_cells - 1 : ℤ) : ℚ) * (a.ffs_car * a.unit_time)
            + last.m_cell_length)
    ∧ (l.m_cell_array.map fun c => c.m_cell_length).sum = a.length := by
  have hstd' : 0 < std_cell_length a := hstd
  have hpos := num_cells_pos hlen hstd'
  have hl := construct_eq_ok h
  have hnum : l.m_num_cells = num_cells a := by rw [hl]; rfl
  have hmap := cell_array_eq a u
  rw [← hl, if_pos hlen] at hmap
  have hlenl : l.m_cell_array.length = (num_cells a - 1).toNat + 1 := by
    have := congrArg List.length hmap
    simpa using this
  have hcast : (((num_cells a - 1).toNat : ℤ)) = num_cells a - 1 := Int.toNat_of_nonneg (by omega)
  refine ⟨hnum ▸ hpos, ?_, ?_, ?_, ?_⟩
  · rw [hlenl, hnum]; push_cast; rw [hcast]; ring
  · intro i hi hlt
    have hi' : i < (num_cells a - 1).toNat := by rw [hnum] at hlt; omega
    have hget : (l.m_cell_array.map fun c => c.m_cell_length)[i]? = some (std_cell_length a) := by
      rw [hmap, List.getElem?_append_left (by rw [List.length_replicate]; exact hi')]
      rw [List.getElem?_replicate, if_pos hi']
    rw [List.getElem?_map] at hget
    rw [List.getElem?_eq_getElem hi] at hget
    simpa using hget
  · have hlast : (l.m_cell_array.map fun c => c.m_cell_length).getLast?
        = some (last_cell_length a) := by
      rw [hmap]; simp
    rw [List.getLast?_map] at hlast
    cases hgl : l.m_cell_array.getLast? with
    | none => rw [hgl] at hlast; simp at hlast
    | some last =>
      rw [hgl] at hlast
      simp only [Option.map_some', Option.some.injEq] at hlast
      refine ⟨last, rfl, ?_⟩
      rw [hlast, hnum]
      unfold last_cell_length std_cell_length
      ring
  · rw [hmap]
    simp only [List.sum_append, List.sum_replicate, List.sum_cons, List.sum_nil, smul_eq_mul,
      add_zero]
    unfold last_cell_length
    have hq : (((num_cells a - 1).toNat : ℤ) : ℚ) = ((num_cells a - 1 : ℤ) : ℚ) := by rw [hcast]
    rw [Int.cast_natCast] at hq
    rw [nsmul_eq_mul, hq]
    ring

theorem cell_array_covers_link_witness :
    1 ≤ example_link.m_num_cells
    ∧ (example_link.m_cell_array.length : ℤ) = example_link.m_num_cells
    ∧ (∀ (i : ℕ) (hi : i < example_link.m_cell_array.length),
        (i : ℤ) < example_link.m_num_cells - 1 →
        (example_link.m_cell_array.get ⟨i, hi⟩).m_cell_length
          = example_args.ffs_car * example_args.unit_time)
    ∧ (∃ last, example_link.m_cell_array.getLast? = some last
        ∧ example_args.length
          = ((example_link.m_num_cells - 1 : ℤ) : ℚ)
              * (example_args.ffs_car * example_args.unit_time)
            + last.m_cell_length)
    ∧ (example_link.m_cell_array.map fun c => c.m_cell_length).sum = example_args.length :=
  cell_array_covers_link example_args example_unassigned example_link
    (by norm_num [construct, example_args, example_link])
    (by norm_num [example_args]) (by norm_num [example_args])

/-- Claim C6: for a link with positive length and positive standard cell length,
the cell count is `max 1 ⌊length / standard_length⌋`, the last cell length is
`length - (count - 1) * standard_length`, it lies in
`[standard_length, 2 * standard_length)` when the count is at least 2 and is the
whole link length when the count is 1; the last cell of the constructed link has
that length. -/
theorem last_cell_remainder_bounds (a : Args) (hlen : 0 < a.length)
    (hstd : 0 < a.ffs_car * a.unit_time) :
    num_cells a = max 1 ⌊a.length / (a.ffs_car * a.unit_time)⌋
    ∧ last_cell_length a
        = a.length - ((num_cells a - 1 : ℤ) : ℚ) * (a.ffs_car * a.unit_time)
    ∧ (2 ≤ num_cells a →
        a.ffs_car * a.unit_time ≤ last_cell_length a
          ∧ last_cell_length a < 2 * (a.ffs_car * a.unit_time))
    ∧ (num_cells a = 1 → last_cell_length a = a.length)
    ∧ (∀ u l, construct a u = Outcome.ok l →
        l.m_num_cells = num_cells a
          ∧ ∃ last, l.m_cell_array.getLast? = some last
              ∧ last.m_cell_length = last_cell_length a) := by
  have hstd' : 0 < std_cell_length a := hstd
  refine ⟨num_cells_eq_max hlen hstd', rfl, fun h2 => last_cell_length_bounds hstd' h2, ?_, ?_⟩
  · intro h1
    unfold last_cell_length
    rw [h1]
    simp
  · intro u l h
    refine ⟨?_, last_cell_of_construct h hlen⟩
    rw [construct_eq_ok h]
    rfl

theorem last_cell_remainder_bounds_witness :
    num_cells example_args = 3 ∧ last_cell_length example_args = 15
    ∧ (2 ≤ num_cells example_args →
        example_args.ffs_car * example_args.unit_time ≤ last_cell_length example_args
          ∧ last_cell_length example_args
              < 2 * (example_args.ffs_car * example_args.unit_time)) := by
  have h := last_cell_remainder_bounds example_args (by norm_num [example_args])
    (by norm_num [example_args])
  have hn : num_cells example_args = 3 := by
    rw [h.1]
    norm_num [example_args]
  refine ⟨hn, ?_, h.2.2.1⟩
  rw [h.2.1, hn]
  norm_num [example_args]

/-- Claim C7: construction ends in `exit(-1)` exactly when one of the two jam
densities or one of the two flow capacities is negative, no cell has been built
when it does, and a truck flow capacity of `-1` is rejected. -/
theorem construct_fatal_iff_negative (a : Args) (u : Unassigned) :
    ((construct a u).is_fatal = true ↔
        (a.lane_hold_cap_car < 0 ∨ a.lane_hold_cap_truck < 0
          ∨ a.lane_flow_cap_car < 0 ∨ a.lane_flow_cap_truck < 0))
    ∧ ((construct a u).is_fatal = true → (construct a u).cells_built = [])
    ∧ (construct { a with lane_flow_cap_truck := -1 } u).is_fatal = true := by
  refine ⟨?_, ?_, ?_⟩
  · unfold construct
    split_ifs with h1 h2
    · simp only [Outcome.is_fatal, true_iff]
      rcases h1 with h | h
      · exact Or.inl h
      · exact Or.inr (Or.inl h)
    · simp only [Outcome.is_fatal, true_iff]
      rcases h2 with h | h
      · exact Or.inr (Or.inr (Or.inl h))
      · exact Or.inr (Or.inr (Or.inr h))
    · simp only [Outcome.is_fatal, Bool.false_eq_true, false_iff]
      push_neg at h1 h2 ⊢
      exact ⟨h1.1, h1.2, h2.1, h2.2⟩
  · unfold construct
    split_ifs with h1 h2
    · intro _; rfl
    · intro _; rfl
    · intro h; simp [Outcome.is_fatal] at h
  · unfold construct
    split_ifs with h1 h2
    · rfl
    · rfl
    · exfalso
      apply h2
      right
      show (-1 : ℚ) < 0
      norm_num

/-- Claim C8, evaluated at `flow_cap_args` (both flow capacities 2 vehicles per
second): construction succeeds, the stored car flow capacity is the ceiling
`3500/3600`, and the stored truck flow capacity is still `2`, which is not
`min 2 (3500/3600)`. -/
theorem flow_cap_truck_not_clamped :
    construct flow_cap_args example_unassigned = Outcome.ok flow_cap_link
    ∧ flow_cap_link.m_lane_flow_cap_car = (3500 : ℚ) / 3600
    ∧ flow_cap_link.m_lane_flow_cap_truck = 2
    ∧ flow_cap_link.m_lane_flow_cap_truck
        ≠ min flow_cap_args.lane_flow_cap_truck ((3500 : ℚ) / 3600) := by
  refine ⟨?_, ?_, ?_, ?_⟩
  · norm_num [construct, flow_cap_args, example_args, flow_cap_link]
  · norm_num [flow_cap_link, init_cell_array, members, clamped_flow_cap_car, flow_cap_args]
  · norm_num [flow_cap_link, init_cell_array, members, clamped_flow_cap_truck, flow_cap_args]
  · norm_num [flow_cap_link, init_cell_array, members, clamped_flow_cap_truck, flow_cap_args]

/-- Claim C9: on a constructed link each stored per-lane jam density is
`min input (300/1600)` and lies in `[0, 300/1600]`; with `lane_hold_cap_car = 1`
the stored car jam density is exactly `300/1600`. -/
theorem hold_cap_clamped (a : Args) (u : Unassigned) (l : MNM_Dlink_Ctm_Multiclass)
    (h : construct a u = Outcome.ok l) :
    l.m_lane_hold_cap_car = min a.lane_hold_cap_car ((300 : ℚ) / 1600)
    ∧ l.m_lane_hold_cap_truck = min a.lane_hold_cap_truck ((300 : ℚ) / 1600)
    ∧ 0 ≤ l.m_lane_hold_cap_car ∧ l.m_lane_hold_cap_car ≤ (300 : ℚ) / 1600
    ∧ 0 ≤ l.m_lane_hold_cap_truck ∧ l.m_lane_hold_cap_truck ≤ (300 : ℚ) / 1600
    ∧ (a.lane_hold_cap_car = 1 → l.m_lane_hold_cap_car = (300 : ℚ) / 1600) := by
  have hnn : 0 ≤ a.lane_hold_cap_car ∧ 0 ≤ a.lane_hold_cap_truck := by
    unfold construct at h
    split_ifs at h with h1 h2
    push_neg at h1
    exact h1
  have hl := construct_eq_ok h
  have hc : l.m_lane_hold_cap_car = min a.lane_hold_cap_car ((300 : ℚ) / 1600) := by
    rw [hl]
    show clamped_hold_cap_car a = _
    unfold clamped_hold_cap_car
    split_ifs with hgt
    · rw [min_eq_right (le_of_lt hgt)]
    · rw [min_eq_left (not_lt.mp hgt)]
  have ht : l.m_lane_hold_cap_truck = min a.lane_hold_cap_truck ((300 : ℚ) / 1600) := by
    rw [hl]
    show clamped_hold_cap_truck a = _
    unfold clamped_hold_cap_truck
    split_ifs with hgt
    · rw [min_eq_right (le_of_lt hgt)]
    · rw [min_eq_left (not_lt.mp hgt)]
  refine ⟨hc, ht, ?_, ?_, ?_, ?_, ?_⟩
  · rw [hc]; exact le_min hnn.1 (by norm_num)
  · rw [hc]; exact min_le_right _ _
  · rw [ht]; exact le_min hnn.2 (by norm_num)
  · rw [ht]; exact min_le_right _ _
  · intro h1
    rw [hc, h1]
    norm_num

theorem hold_cap_clamped_witness :
    example_args.lane_hold_cap_car = 1
    ∧ construct example_args example_unassigned = Outcome.ok example_link
    ∧ example_link.m_lane_hold_cap_car = (300 : ℚ) / 1600 :=
  ⟨rfl, by norm_num [construct, example_args, example_link],
    (hold_cap_clamped example_args example_unassigned example_link
      (by norm_num [construct, example_args, example_link])).2.2.2.2.2.2 rfl⟩

/-! ### Space fractions and perceived densities -/

theorem regime_free_flow_iff (c : Ctm_Cell_Multiclass) :
    c.regime = Regime.free_flow ↔ c.free_flow_cond := by
  unfold regime
  split_ifs <;> simp [*]

theorem regime_semi_congested_iff (c : Ctm_Cell_Multiclass) :
    c.regime = Regime.semi_congested ↔ ¬ c.free_flow_cond ∧ c.semi_congested_cond := by
  unfold regime
  split_ifs <;> simp [*]

theorem regime_fully_congested_iff (c : Ctm_Cell_Multiclass) :
    c.regime = Regime.fully_congested ↔ ¬ c.free_flow_cond ∧ ¬ c.semi_congested_cond := by
  unfold regime
  split_ifs <;> simp [*]

theorem update_free_flow {c : Ctm_Cell_Multiclass} (h : c.free_flow_cond) :
    c.update_perceived_density.m_space_fraction_car
        = c.density_car / c.m_critical_density_car
    ∧ c.update_perceived_density.m_space_fraction_truck
        = c.density_truck / c.m_critical_density_truck
    ∧ c.update_perceived_density.m_perceived_density_car
        = c.density_car
          + c.m_critical_density_car * (c.density_truck / c.m_critical_density_truck)
    ∧ c.update_perceived_density.m_perceived_density_truck
        = c.density_truck
          + c.m_critical_density_truck * (c.density_car / c.m_critical_density_car) := by
  simp [update_perceived_density, h]

theorem update_semi_congested {c : Ctm_Cell_Multiclass} (h1 : ¬ c.free_flow_cond)
    (h2 : c.semi_congested_cond) :
    c.update_perceived_density.m_space_fraction_car
        = 1 - c.density_truck / c.m_critical_density_truck
    ∧ c.update_perceived_density.m_space_fraction_truck
        = c.density_truck / c.m_critical_density_truck
    ∧ c.update_perceived_density.m_perceived_density_car
        = c.density_car / (1 - c.density_truck / c.m_critical_density_truck)
    ∧ c.update_perceived_density.m_perceived_density_truck
        = c.density_truck / (c.density_truck / c.m_critical_density_truck) := by
  simp [update_perceived_density, h1, h2]

theorem update_fully_congested {c : Ctm_Cell_Multiclass} (h1 : ¬ c.free_flow_cond)
    (h2 : ¬ c.semi_congested_cond) :
    c.update_perceived_density.m_space_fraction_car
        = (c.m_wave_speed_car - c.m_wave_speed_truck + c.tmp_truck)
            / (c.tmp_car + c.tmp_truck)
    ∧ c.update_perceived_density.m_space_fraction_truck
        = (c.m_wave_speed_truck - c.m_wave_speed_car + c.tmp_car)
            / (c.tmp_car + c.tmp_truck)
    ∧ c.update_perceived_density.m_perceived_density_car
        = c.density_car / ((c.m_wave_speed_car - c.m_wave_speed_truck + c.tmp_truck)
            / (c.tmp_car + c.tmp_truck))
    ∧ c.update_perceived_density.m_perceived_density_truck
        = c.density_truck / ((c.m_wave_speed_truck - c.m_wave_speed_car + c.tmp_car)
            / (c.tmp_car + c.tmp_truck)) := by
  simp [update_perceived_density, h1, h2]

/-- The calibration members are untouched by `update_perceived_density`. -/
theorem update_same_calibration (c : Ctm_Cell_Multiclass) :
    c.update_perceived_density.same_calibration c := by
  unfold update_perceived_density same_calibration
  split_ifs <;> simp

theorem update_volume (c : Ctm_Cell_Multiclass) :
    c.update_perceived_density.m_volume_car = c.m_volume_car
    ∧ c.update_perceived_density.m_volume_truck = c.m_volume_truck := by
  unfold update_perceived_density
  split_ifs <;> simp

/-- Claim C3, amended: after `update_perceived_density`, when no quotient up to
the space fractions has a zero divisor, the two space fractions sum to `1` in
the semi-congested and in the fully-congested regime; in the free-flow regime
their sum is the sum of the two density ratios, which is at most `1`. -/
theorem space_fraction_sum (c : Ctm_Cell_Multiclass)
    (h0 : ¬ c.space_fraction_divides_by_zero) :
    (c.regime = Regime.free_flow →
      c.update_perceived_density.m_space_fraction_car
          + c.update_perceived_density.m_space_fraction_truck
        = c.density_car / c.m_critical_density_car
          + c.density_truck / c.m_critical_density_truck
      ∧ c.update_perceived_density.m_space_fraction_car
          + c.update_perceived_density.m_space_fraction_truck ≤ 1)
    ∧ (c.regime = Regime.semi_congested →
      c.update_perceived_density.m_space_fraction_car
          + c.update_perceived_density.m_space_fraction_truck = 1)
    ∧ (c.regime = Regime.fully_congested →
      c.update_perceived_density.m_space_fraction_car
          + c.update_perceived_density.m_space_fraction_truck = 1) := by
  refine ⟨?_, ?_, ?_⟩
  · intro hr
    have h := (regime_free_flow_iff c).mp hr
    obtain ⟨e1, e2, -, -⟩ := update_free_flow h
    rw [e1, e2]
    exact ⟨rfl, h⟩
  · intro hr
    obtain ⟨h1, h2⟩ := (regime_semi_congested_iff c).mp hr
    obtain ⟨e1, e2, -, -⟩ := update_semi_congested h1 h2
    rw [e1, e2]
    ring
  · intro hr
    obtain ⟨h1, h2⟩ := (regime_fully_congested_iff c).mp hr
    obtain ⟨e1, e2, -, -⟩ := update_fully_congested h1 h2
    have hne : c.tmp_car + c.tmp_truck ≠ 0 := by
      intro hz
      apply h0
      unfold space_fraction_divides_by_zero
      exact Or.inr (Or.inr (Or.inr (Or.inr ⟨h1, Or.inr ⟨h2, Or.inr (Or.inr hz)⟩⟩)))
    rw [e1, e2, ← add_div]
    rw [div_eq_one_iff_eq hne]
    ring

/-- The members of `example_cell`, evaluated. -/
theorem example_cell_values (vc vt : ℤ) :
    example_cell vc vt =
      { Ctm_Cell_Multiclass.init 10 1 (3 / 8) (1 / 4) (1 / 10) (1 / 16) (15 / 128) 1 (1 / 2)
          10 8 (40 / 11) (8 / 3) 10 with
        m_volume_car := vc, m_volume_truck := vt } := by
  norm_num [example_cell, new_cell, members, example_args, std_cell_length,
    clamped_hold_cap_car, clamped_hold_cap_truck, clamped_flow_cap_car,
    clamped_flow_cap_truck, Ctm_Cell_Multiclass.init]

/-- The empty `example_cell` is a cell of the link built from `example_args`. -/
theorem example_cell_mem : example_cell 0 0 ∈ example_link.m_cell_array := by
  have h : example_link.m_cell_array.head? = some (example_cell 0 0) := by
    norm_num [example_link, init_cell_array, members, num_cells, std_cell_length,
      example_args, List.replicate, example_cell, new_cell, Ctm_Cell_Multiclass.init]
  exact List.mem_of_mem_head? h

/-- Claim C3 fails as stated: on the empty `example_cell`, whose regime is free
flow and on which nothing is divided by zero, the two space fractions are both
`0`, so their sum is not `1`. -/
theorem space_fraction_sum_counterexample :
    (example_cell 0 0).regime = Regime.free_flow
    ∧ ¬ (example_cell 0 0).update_perceived_density_divides_by_zero
    ∧ (example_cell 0 0).update_perceived_density.m_space_fraction_car
        + (example_cell 0 0).update_perceived_density.m_space_fraction_truck ≠ 1 := by
  rw [example_cell_values]
  norm_num [regime, update_perceived_density_divides_by_zero,
    space_fraction_divides_by_zero, update_perceived_density, free_flow_cond,
    semi_congested_cond, density_car, density_truck, Ctm_Cell_Multiclass.init]

theorem space_fraction_sum_witness :
    ((example_cell 7 2).regime = Regime.semi_congested
      ∧ (example_cell 7 2).update_perceived_density.m_space_fraction_car
          + (example_cell 7 2).update_perceived_density.m_space_fraction_truck = 1)
    ∧ ((example_cell 9 2).regime = Regime.fully_congested
      ∧ (example_cell 9 2).update_perceived_density.m_space_fraction_car
          + (example_cell 9 2).update_perceived_density.m_space_fraction_truck = 1) := by
  have h7 : (example_cell 7 2).regime = Regime.semi_congested := by
    rw [example_cell_values]
    norm_num [regime, free_flow_cond, semi_congested_cond, density_car, density_truck,
      Ctm_Cell_Multiclass.init]
  have h9 : (example_cell 9 2).regime = Regime.fully_congested := by
    rw [example_cell_values]
    norm_num [regime, free_flow_cond, semi_congested_cond, density_car, density_truck,
      Ctm_Cell_Multiclass.init]
  have z7 : ¬ (example_cell 7 2).space_fraction_divides_by_zero := by
    rw [example_cell_values]
    norm_num [space_fraction_divides_by_zero, free_flow_cond, semi_congested_cond,
      density_car, density_truck, tmp_car, tmp_truck, Ctm_Cell_Multiclass.init]
  have z9 : ¬ (example_cell 9 2).space_fraction_divides_by_zero := by
    rw [example_cell_values]
    norm_num [space_fraction_divides_by_zero, free_flow_cond, semi_congested_cond,
      density_car, density_truck, tmp_car, tmp_truck, Ctm_Cell_Multiclass.init]
  exact ⟨⟨h7, (space_fraction_sum (example_cell 7 2) z7).2.1 h7⟩,
    ⟨h9, (space_fraction_sum (example_cell 9 2) z9).2.2 h9⟩⟩

theorem density_car_nonneg {c : Ctm_Cell_Multiclass} (hp : c.positive_parameters)
    (hv : 0 ≤ c.m_volume_car) : 0 ≤ c.density_car := by
  obtain ⟨hL, -, hfs, -⟩ := hp
  unfold density_car
  have : (0 : ℚ) ≤ (c.m_volume_car : ℚ) := by exact_mod_cast hv
  positivity

theorem density_truck_nonneg {c : Ctm_Cell_Multiclass} (hp : c.positive_parameters)
    (hv : 0 ≤ c.m_volume_truck) : 0 ≤ c.density_truck := by
  obtain ⟨hL, -, hfs, -⟩ := hp
  unfold density_truck
  have : (0 : ℚ) ≤ (c.m_volume_truck : ℚ) := by exact_mod_cast hv
  positivity

/-- In the free-flow branch both space fractions lie in the unit interval. -/
theorem free_flow_fractions {c : Ctm_Cell_Multiclass} (hp : c.positive_parameters)
    (hvc : 0 ≤ c.m_volume_car) (hvt : 0 ≤ c.m_volume_truck) (h : c.free_flow_cond) :
    (0 ≤ c.update_perceived_density.m_space_fraction_car
      ∧ c.update_perceived_density.m_space_fraction_car ≤ 1)
    ∧ (0 ≤ c.update_perceived_density.m_space_fraction_truck
      ∧ c.update_perceived_density.m_space_fraction_truck ≤ 1) := by
  obtain ⟨e1, e2, -, -⟩ := update_free_flow h
  have hdc := density_car_nonneg hp hvc
  have hdt := density_truck_nonneg hp hvt
  have hc : 0 < c.m_critical_density_car := hp.2.2.2.2.2.1
  have ht : 0 < c.m_critical_density_truck := hp.2.2.2.2.2.2.1
  have a1 : 0 ≤ c.density_car / c.m_critical_density_car := div_nonneg hdc (le_of_lt hc)
  have a2 : 0 ≤ c.density_truck / c.m_critical_density_truck := div_nonneg hdt (le_of_lt ht)
  unfold free_flow_cond at h
  rw [e1, e2]
  exact ⟨⟨a1, by linarith⟩, ⟨a2, by linarith⟩⟩

/-- In the semi-congested branch both space fractions lie in the unit interval
when the truck density is at most the truck critical density. -/
theorem semi_congested_fractions {c : Ctm_Cell_Multiclass} (hp : c.positive_parameters)
    (hvt : 0 ≤ c.m_volume_truck) (h1 : ¬ c.free_flow_cond) (h2 : c.semi_congested_cond)
    (hle : c.density_truck ≤ c.m_critical_density_truck) :
    (0 ≤ c.update_perceived_density.m_space_fraction_car
      ∧ c.update_perceived_density.m_space_fraction_car ≤ 1)
    ∧ (0 ≤ c.update_perceived_density.m_space_fraction_truck
      ∧ c.update_perceived_density.m_space_fraction_truck ≤ 1) := by
  obtain ⟨e1, e2, -, -⟩ := update_semi_congested h1 h2
  have hdt := density_truck_nonneg hp hvt
  have ht : 0 < c.m_critical_density_truck := hp.2.2.2.2.2.2.1
  have a2 : 0 ≤ c.density_truck / c.m_critical_density_truck := div_nonneg hdt (le_of_lt ht)
  have a3 : c.density_truck / c.m_critical_density_truck ≤ 1 := (div_le_one ht).mpr hle
  rw [e1, e2]
  exact ⟨⟨by linarith, by linarith⟩, ⟨a2, a3⟩⟩

/-- When the third branch is taken on a cell with positive parameters and a
non-negative car volume, the truck density is below the truck critical
density. -/
theorem fully_congested_truck_below_critical {c : Ctm_Cell_Multiclass}
    (hp : c.positive_parameters) (hvc : 0 ≤ c.m_volume_car)
    (h2 : ¬ c.semi_congested_cond) :
    c.density_truck < c.m_critical_density_truck := by
  have hdc := density_car_nonneg hp hvc
  have ht : 0 < c.m_critical_density_truck := hp.2.2.2.2.2.2.1
  have hrho : 0 < c.m_rho_1_N := hp.2.2.2.2.2.2.2.1
  unfold semi_congested_cond at h2
  push_neg at h2
  by_contra hge
  push_neg at hge
  have : 1 ≤ c.density_truck / c.m_critical_density_truck := (one_le_div ht).mpr hge
  have hden : 1 - c.density_truck / c.m_critical_density_truck ≤ 0 := by linarith
  have : c.density_car / (1 - c.density_truck / c.m_critical_density_truck) ≤ 0 :=
    div_nonpos_of_nonneg_of_nonpos hdc hden
  linarith

/-- In the fully-congested branch both space fractions lie in the unit interval
when no divisor up to the space fractions is zero, the car density is at most
the car jam density and the truck critical density is at most the truck jam
density. -/
theorem fully_congested_fractions {c : Ctm_Cell_Multiclass} (hp : c.positive_parameters)
    (hvc : 0 ≤ c.m_volume_car) (hvt : 0 ≤ c.m_volume_truck)
    (h0 : ¬ c.space_fraction_divides_by_zero)
    (h1 : ¬ c.free_flow_cond) (h2 : ¬ c.semi_congested_cond)
    (hjam : c.density_car ≤ c.m_hold_cap_car)
    (hcrit : c.m_critical_density_truck ≤ c.m_hold_cap_truck) :
    (0 < c.update_perceived_density.m_space_fraction_car
      ∧ c.update_perceived_density.m_space_fraction_car ≤ 1)
    ∧ (0 < c.update_perceived_density.m_space_fraction_truck
      ∧ c.update_perceived_density.m_space_fraction_truck ≤ 1) := by
  obtain ⟨e1, e2, -, -⟩ := update_fully_congested h1 h2
  have hdc := density_car_nonneg hp hvc
  have hdt := density_truck_nonneg hp hvt
  have hlt := fully_congested_truck_below_critical hp hvc h2
  obtain ⟨-, -, -, hhc, hht, -, -, -, -, -, -, -, hwc, hwt⟩ := hp
  have hdc0 : c.density_car ≠ 0 := by
    intro hz; apply h0
    exact Or.inr (Or.inr (Or.inr (Or.inr ⟨h1, Or.inr ⟨h2, Or.inl hz⟩⟩)))
  have hdt0 : c.density_truck ≠ 0 := by
    intro hz; apply h0
    exact Or.inr (Or.inr (Or.inr (Or.inr ⟨h1, Or.inr ⟨h2, Or.inr (Or.inl hz)⟩⟩)))
  have hdcp : 0 < c.density_car := lt_of_le_of_ne hdc (Ne.symm hdc0)
  have hdtp : 0 < c.density_truck := lt_of_le_of_ne hdt (Ne.symm hdt0)
  have htc : c.m_wave_speed_car ≤ c.tmp_car := by
    unfold tmp_car
    rw [le_div_iff₀ hdcp]
    nlinarith
  have htt : c.m_wave_speed_truck ≤ c.tmp_truck := by
    unfold tmp_truck
    rw [le_div_iff₀ hdtp]
    nlinarith
  have hsum : 0 < c.tmp_car + c.tmp_truck := by linarith
  rw [e1, e2]
  refine ⟨⟨div_pos (by linarith) hsum, ?_⟩, ⟨div_pos (by linarith) hsum, ?_⟩⟩
  · rw [div_le_one hsum]; linarith
  · rw [div_le_one hsum]; linarith

/-- On a cell with positive calibration parameters and non-negative volumes on
which no quotient up to the space fractions has a zero divisor, both space
fractions lie in `[0,1]` in the free-flow regime; in the semi-congested regime
when the truck density is at most the truck critical density, as the comment of
that branch says it is; and in the fully-congested regime when the car density
is at most the car jam density and the truck critical density is at most the
truck jam density. -/
theorem space_fraction_range (c : Ctm_Cell_Multiclass) (hp : c.positive_parameters)
    (hvc : 0 ≤ c.m_volume_car) (hvt : 0 ≤ c.m_volume_truck)
    (h0 : ¬ c.space_fraction_divides_by_zero) :
    (c.regime = Regime.free_flow →
      (0 ≤ c.update_perceived_density.m_space_fraction_car
        ∧ c.update_perceived_density.m_space_fraction_car ≤ 1)
      ∧ (0 ≤ c.update_perceived_density.m_space_fraction_truck
        ∧ c.update_perceived_density.m_space_fraction_truck ≤ 1))
    ∧ (c.regime = Regime.semi_congested →
      c.density_truck ≤ c.m_critical_density_truck →
      (0 ≤ c.update_perceived_density.m_space_fraction_car
        ∧ c.update_perceived_density.m_space_fraction_car ≤ 1)
      ∧ (0 ≤ c.update_perceived_density.m_space_fraction_truck
        ∧ c.update_perceived_density.m_space_fraction_truck ≤ 1))
    ∧ (c.regime = Regime.fully_congested →
      c.density_car ≤ c.m_hold_cap_car →
      c.m_critical_density_truck ≤ c.m_hold_cap_truck →
      (0 ≤ c.update_perceived_density.m_space_fraction_car
        ∧ c.update_perceived_density.m_space_fraction_car ≤ 1)
      ∧ (0 ≤ c.update_perceived_density.m_space_fraction_truck
        ∧ c.update_perceived_density.m_space_fraction_truck ≤ 1)) := by
  refine ⟨?_, ?_, ?_⟩
  · intro hr
    exact free_flow_fractions hp hvc hvt ((regime_free_flow_iff c).mp hr)
  · intro hr hle
    obtain ⟨h1, h2⟩ := (regime_semi_congested_iff c).mp hr
    exact semi_congested_fractions hp hvt h1 h2 hle
  · intro hr hjam hcrit
    obtain ⟨h1, h2⟩ := (regime_fully_congested_iff c).mp hr
    obtain ⟨⟨a, b⟩, ⟨a2, b2⟩⟩ := fully_congested_fractions hp hvc hvt h0 h1 h2 hjam hcrit
    exact ⟨⟨le_of_lt a, b⟩, ⟨le_of_lt a2, b2⟩⟩

/-- Claim C4, evaluated at `example_cell 0 10` (a standard cell of the link built
from `example_args`, holding no car and ten truck units): the cell has positive
calibration parameters and non-negative volumes and nothing is divided by zero
on it; its truck density `1/10` is above the truck critical density `1/16`, yet
the guard of the branch commented "truck free-flow but car not" holds (its
left-hand side is `0`), the branch is taken, and the stored space fractions are
`-3/5` for cars and `8/5` for trucks, outside `[0,1]`. -/
theorem space_fraction_out_of_range :
    (example_cell 0 10).positive_parameters
    ∧ 0 ≤ (example_cell 0 10).m_volume_car ∧ 0 ≤ (example_cell 0 10).m_volume_truck
    ∧ ¬ (example_cell 0 10).update_perceived_density_divides_by_zero
    ∧ (example_cell 0 10).m_critical_density_truck < (example_cell 0 10).density_truck
    ∧ (example_cell 0 10).density_car
        / (1 - (example_cell 0 10).density_truck
            / (example_cell 0 10).m_critical_density_truck) = 0
    ∧ (example_cell 0 10).regime = Regime.semi_congested
    ∧ (example_cell 0 10).update_perceived_density.m_space_fraction_car = -3 / 5
    ∧ (example_cell 0 10).update_perceived_density.m_space_fraction_truck = 8 / 5
    ∧ ¬ ((0 ≤ (example_cell 0 10).update_perceived_density.m_space_fraction_car
          ∧ (example_cell 0 10).update_perceived_density.m_space_fraction_car ≤ 1)
        ∧ (0 ≤ (example_cell 0 10).update_perceived_density.m_space_fraction_truck
          ∧ (example_cell 0 10).update_perceived_density.m_space_fraction_truck ≤ 1)) := by
  rw [example_cell_values]
  norm_num [positive_parameters, regime, update_perceived_density_divides_by_zero,
    space_fraction_divides_by_zero, update_perceived_density, free_flow_cond,
    semi_congested_cond, density_car, density_truck, Ctm_Cell_Multiclass.init]

theorem space_fraction_range_witness :
    ((0 ≤ (example_cell 7 2).update_perceived_density.m_space_fraction_car
        ∧ (example_cell 7 2).update_perceived_density.m_space_fraction_car ≤ 1)
      ∧ (0 ≤ (example_cell 7 2).update_perceived_density.m_space_fraction_truck
        ∧ (example_cell 7 2).update_perceived_density.m_space_fraction_truck ≤ 1))
    ∧ ((0 ≤ (example_cell 9 2).update_perceived_density.m_space_fraction_car
        ∧ (example_cell 9 2).update_perceived_density.m_space_fraction_car ≤ 1)
      ∧ (0 ≤ (example_cell 9 2).update_perceived_density.m_space_fraction_truck
        ∧ (example_cell 9 2).update_perceived_density.m_space_fraction_truck ≤ 1)) := by
  have p7 : (example_cell 7 2).positive_parameters := by
    rw [example_cell_values]; norm_num [positive_parameters, Ctm_Cell_Multiclass.init]
  have p9 : (example_cell 9 2).positive_parameters := by
    rw [example_cell_values]; norm_num [positive_parameters, Ctm_Cell_Multiclass.init]
  have h7 : (example_cell 7 2).regime = Regime.semi_congested := by
    rw [example_cell_values]
    norm_num [regime, free_flow_cond, semi_congested_cond, density_car, density_truck,
      Ctm_Cell_Multiclass.init]
  have h9 : (example_cell 9 2).regime = Regime.fully_congested := by
    rw [example_cell_values]
    norm_num [regime, free_flow_cond, semi_congested_cond, density_car, density_truck,
      Ctm_Cell_Multiclass.init]
  have z7 : ¬ (example_cell 7 2).space_fraction_divides_by_zero := by
    rw [example_cell_values]
    norm_num [space_fraction_divides_by_zero, free_flow_cond, semi_congested_cond,
      density_car, density_truck, tmp_car, tmp_truck, Ctm_Cell_Multiclass.init]
  have z9 : ¬ (example_cell 9 2).space_fraction_divides_by_zero := by
    rw [example_cell_values]
    norm_num [space_fraction_divides_by_zero, free_flow_cond, semi_congested_cond,
      density_car, density_truck, tmp_car, tmp_truck, Ctm_Cell_Multiclass.init]
  have d7 : (example_cell 7 2).density_truck ≤ (example_cell 7 2).m_critical_density_truck := by
    rw [example_cell_values]; norm_num [density_truck, Ctm_Cell_Multiclass.init]
  have d9 : (example_cell 9 2).density_car ≤ (example_cell 9 2).m_hold_cap_car := by
    rw [example_cell_values]; norm_num [density_car, Ctm_Cell_Multiclass.init]
  have c9 : (example_cell 9 2).m_critical_density_truck
      ≤ (example_cell 9 2).m_hold_cap_truck := by
    rw [example_cell_values]; norm_num [Ctm_Cell_Multiclass.init]
  exact ⟨(space_fraction_range (example_cell 7 2) p7 (by decide) (by decide) z7).2.1 h7 d7,
    (space_fraction_range (example_cell 9 2) p9 (by decide) (by decide) z9).2.2 h9 d9 c9⟩

/-! ### Demand and supply -/

theorem supply_nonneg (c : Ctm_Cell_Multiclass) (veh_type : ℤ) :
    0 ≤ c.get_perceived_supply veh_type := by
  unfold get_perceived_supply
  exact le_max_left 0 _

/-- The demand of either class is non-negative on a cell whose flow capacities
and free-flow speeds are positive and whose perceived densities are
non-negative. -/
theorem demand_nonneg_of_perceived_density_nonneg {c : Ctm_Cell_Multiclass}
    (hfc : 0 < c.m_flow_cap_car) (hft : 0 < c.m_flow_cap_truck)
    (hsc : 0 < c.m_ffs_car) (hst : 0 < c.m_ffs_truck)
    (hc : 0 ≤ c.m_perceived_density_car) (ht : 0 ≤ c.m_perceived_density_truck) :
    0 ≤ c.get_perceived_demand 1 ∧ 0 ≤ c.get_perceived_demand 2 := by
  unfold get_perceived_demand
  rw [if_pos rfl, if_neg (by decide)]
  exact ⟨le_min (le_of_lt hfc) (mul_nonneg (le_of_lt hsc) hc),
    le_min (le_of_lt hft) (mul_nonneg (le_of_lt hst) ht)⟩

theorem update_positive_parameters {c : Ctm_Cell_Multiclass} (hp : c.positive_parameters) :
    c.update_perceived_density.positive_parameters := by
  have h := update_same_calibration c
  unfold same_calibration at h
  unfold positive_parameters at hp ⊢
  obtain ⟨e1, e2, e3, e4, e5, e6, e7, e8, e9, e10, e11, e12, e13, e14⟩ := h
  rw [e1, e2, e3, e4, e5, e6, e7, e8, e9, e10, e11, e12, e13, e14]
  exact hp

/-- On a cell with positive calibration parameters and non-negative volumes on
which no quotient up to the space fractions has a zero divisor, the supply of
both classes is non-negative in every regime, and the demand of both classes is
non-negative in the free-flow regime, in the semi-congested regime when the
truck density is at most the truck critical density, as the comment of that
branch says it is, and in the fully-congested regime when the car density is at
most the car jam density and the truck critical density is at most the truck
jam density. -/
theorem demand_supply_nonneg (c : Ctm_Cell_Multiclass) (hp : c.positive_parameters)
    (hvc : 0 ≤ c.m_volume_car) (hvt : 0 ≤ c.m_volume_truck)
    (hs0 : ¬ c.space_fraction_divides_by_zero) :
    (0 ≤ c.update_perceived_density.get_perceived_supply 1
      ∧ 0 ≤ c.update_perceived_density.get_perceived_supply 2)
    ∧ (c.regime = Regime.free_flow →
        0 ≤ c.update_perceived_density.get_perceived_demand 1
          ∧ 0 ≤ c.update_perceived_density.get_perceived_demand 2)
    ∧ (c.regime = Regime.semi_congested →
        c.density_truck ≤ c.m_critical_density_truck →
        0 ≤ c.update_perceived_density.get_perceived_demand 1
          ∧ 0 ≤ c.update_perceived_density.get_perceived_demand 2)
    ∧ (c.regime = Regime.fully_congested →
        c.density_car ≤ c.m_hold_cap_car →
        c.m_critical_density_truck ≤ c.m_hold_cap_truck →
        0 ≤ c.update_perceived_density.get_perceived_demand 1
          ∧ 0 ≤ c.update_perceived_density.get_perceived_demand 2) := by
  have hp' := update_positive_parameters hp
  have hfc : 0 < c.update_perceived_density.m_flow_cap_car := hp'.2.2.2.2.2.2.2.2.1
  have hft : 0 < c.update_perceived_density.m_flow_cap_truck := hp'.2.2.2.2.2.2.2.2.2.1
  have hsc : 0 < c.update_perceived_density.m_ffs_car := hp'.2.2.2.2.2.2.2.2.2.2.1
  have hst : 0 < c.update_perceived_density.m_ffs_truck := hp'.2.2.2.2.2.2.2.2.2.2.2.1
  have hdc := density_car_nonneg hp hvc
  have hdt := density_truck_nonneg hp hvt
  have hcc : 0 < c.m_critical_density_car := hp.2.2.2.2.2.1
  have hct : 0 < c.m_critical_density_truck := hp.2.2.2.2.2.2.1
  refine ⟨⟨supply_nonneg _ 1, supply_nonneg _ 2⟩, ?_, ?_, ?_⟩
  · intro hr
    have h := (regime_free_flow_iff c).mp hr
    obtain ⟨-, -, e3, e4⟩ := update_free_flow h
    apply demand_nonneg_of_perceived_density_nonneg hfc hft hsc hst
    · rw [e3]
      exact add_nonneg hdc (mul_nonneg (le_of_lt hcc) (div_nonneg hdt (le_of_lt hct)))
    · rw [e4]
      exact add_nonneg hdt (mul_nonneg (le_of_lt hct) (div_nonneg hdc (le_of_lt hcc)))
  · intro hr hle
    obtain ⟨h1, h2⟩ := (regime_semi_congested_iff c).mp hr
    obtain ⟨e1, e2, e3, e4⟩ := update_semi_congested h1 h2
    obtain ⟨⟨a, -⟩, ⟨b, -⟩⟩ := semi_congested_fractions hp hvt h1 h2 hle
    rw [e1] at a
    rw [e2] at b
    apply demand_nonneg_of_perceived_density_nonneg hfc hft hsc hst
    · rw [e3]; exact div_nonneg hdc a
    · rw [e4]; exact div_nonneg hdt b
  · intro hr hjam hcrit
    obtain ⟨h1, h2⟩ := (regime_fully_congested_iff c).mp hr
    obtain ⟨e1, e2, e3, e4⟩ := update_fully_congested h1 h2
    obtain ⟨⟨a, -⟩, ⟨b, -⟩⟩ := fully_congested_fractions hp hvc hvt hs0 h1 h2 hjam hcrit
    rw [e1] at a
    rw [e2] at b
    apply demand_nonneg_of_perceived_density_nonneg hfc hft hsc hst
    · rw [e3]; exact div_nonneg hdc (le_of_lt a)
    · rw [e4]; exact div_nonneg hdt (le_of_lt b)

/-- Claim C10, evaluated at `example_cell 10 10` (a standard cell of the link
built from `example_args`, holding ten car units and ten truck units): the cell
has positive calibration parameters and non-negative volumes and nothing is
divided by zero on it; its truck density `1/10` is above the truck critical
density `1/16`, yet the guard of the branch commented "truck free-flow but car
not" holds (its left-hand side is `-1/6`), the branch is taken with a car space
fraction of `-3/5`, the perceived car density is `-1/6`, and
`get_perceived_demand`, which has no floor at zero, returns `-5/3` for cars. -/
theorem car_demand_negative :
    (example_cell 10 10).positive_parameters
    ∧ 0 ≤ (example_cell 10 10).m_volume_car ∧ 0 ≤ (example_cell 10 10).m_volume_truck
    ∧ ¬ (example_cell 10 10).update_perceived_density_divides_by_zero
    ∧ (example_cell 10 10).m_critical_density_truck < (example_cell 10 10).density_truck
    ∧ (example_cell 10 10).density_car
        / (1 - (example_cell 10 10).density_truck
            / (example_cell 10 10).m_critical_density_truck) = -1 / 6
    ∧ (example_cell 10 10).regime = Regime.semi_congested
    ∧ (example_cell 10 10).update_perceived_density.m_space_fraction_car = -3 / 5
    ∧ (example_cell 10 10).update_perceived_density.m_perceived_density_car = -1 / 6
    ∧ (example_cell 10 10).update_perceived_density.get_perceived_demand 1 = -5 / 3
    ∧ ¬ (0 ≤ (example_cell 10 10).update_perceived_density.get_perceived_demand 1) := by
  rw [example_cell_values]
  norm_num [positive_parameters, regime, update_perceived_density_divides_by_zero,
    space_fraction_divides_by_zero, update_perceived_density, free_flow_cond,
    semi_congested_cond, density_car, density_truck, get_perceived_demand,
    Ctm_Cell_Multiclass.init]

theorem demand_supply_nonneg_witness :
    (0 ≤ (example_cell 7 2).update_perceived_density.get_perceived_supply 1
      ∧ 0 ≤ (example_cell 7 2).update_perceived_density.get_perceived_supply 2)
    ∧ (0 ≤ (example_cell 7 2).update_perceived_density.get_perceived_demand 1
      ∧ 0 ≤ (example_cell 7 2).update_perceived_density.get_perceived_demand 2)
    ∧ (0 ≤ (example_cell 9 2).update_perceived_density.get_perceived_demand 1
      ∧ 0 ≤ (example_cell 9 2).update_perceived_density.get_perceived_demand 2) := by
  have p7 : (example_cell 7 2).positive_parameters := by
    rw [example_cell_values]; norm_num [positive_parameters, Ctm_Cell_Multiclass.init]
  have p9 : (example_cell 9 2).positive_parameters := by
    rw [example_cell_values]; norm_num [positive_parameters, Ctm_Cell_Multiclass.init]
  have h7 : (example_cell 7 2).regime = Regime.semi_congested := by
    rw [example_cell_values]
    norm_num [regime, free_flow_cond, semi_congested_cond, density_car, density_truck,
      Ctm_Cell_Multiclass.init]
  have h9 : (example_cell 9 2).regime = Regime.fully_congested := by
    rw [example_cell_values]
    norm_num [regime, free_flow_cond, semi_congested_cond, density_car, density_truck,
      Ctm_Cell_Multiclass.init]
  have z7 : ¬ (example_cell 7 2).space_fraction_divides_by_zero := by
    rw [example_cell_values]
    norm_num [space_fraction_divides_by_zero, free_flow_cond, semi_congested_cond,
      density_car, density_truck, tmp_car, tmp_truck, Ctm_Cell_Multiclass.init]
  have z9 : ¬ (example_cell 9 2).space_fraction_divides_by_zero := by
    rw [example_cell_values]
    norm_num [space_fraction_divides_by_zero, free_flow_cond, semi_congested_cond,
      density_car, density_truck, tmp_car, tmp_truck, Ctm_Cell_Multiclass.init]
  have d7 : (example_cell 7 2).density_truck ≤ (example_cell 7 2).m_critical_density_truck := by
    rw [example_cell_values]; norm_num [density_truck, Ctm_Cell_Multiclass.init]
  have d9 : (example_cell 9 2).density_car ≤ (example_cell 9 2).m_hold_cap_car := by
    rw [example_cell_values]; norm_num [density_car, Ctm_Cell_Multiclass.init]
  have c9 : (example_cell 9 2).m_critical_density_truck
      ≤ (example_cell 9 2).m_hold_cap_truck := by
    rw [example_cell_values]; norm_num [Ctm_Cell_Multiclass.init]
  exact ⟨(demand_supply_nonneg (example_cell 7 2) p7 (by decide) (by decide) z7).1,
    (demand_supply_nonneg (example_cell 7 2) p7 (by decide) (by decide) z7).2.2.1 h7 d7,
    (demand_supply_nonneg (example_cell 9 2) p9 (by decide) (by decide) z9).2.2.2 h9 d9 c9⟩

/-! ### Scheduled outflow -/

/-- The loop body of `update_out_veh` on cells `i` and `i + 1` that exist. -/
theorem update_out_veh_body_eq (round : ℚ → ℤ) (unit_time flow_scalar : ℚ) (i : ℕ)
    (cells : List Ctm_Cell_Multiclass) (c n : Ctm_Cell_Multiclass)
    (hc : cells.get? i = some c) (hn : cells.get? (i + 1) = some n) :
    update_out_veh_body round unit_time flow_scalar (i : ℤ) cells
      = Step.ok (cells.set i (schedule_out_veh round unit_time flow_scalar c n)) := by
  have h1 : cell_at cells (i : ℤ) = Step.ok c := by
    unfold cell_at
    rw [if_neg (by omega), Int.toNat_ofNat, hc]
  have h2 : cell_at cells ((i : ℤ) + 1) = Step.ok n := by
    unfold cell_at
    have : ((i : ℤ) + 1).toNat = i + 1 := by omega
    rw [if_neg (by omega), this, hn]
  unfold update_out_veh_body
  rw [h1, h2]
  simp only [Step.bind, set_cell, Int.toNat_ofNat]


theorem single_cell_num_cells : single_cell_link.m_num_cells = 1 := by
  norm_num [single_cell_link, init_cell_array, members, num_cells, std_cell_length,
    single_cell_args, example_args]

/-- Every cell that `init_cell_array` adds to an empty cell array is a `new_cell` of
the link. -/
theorem init_cell_array_mem (l : MNM_Dlink_Ctm_Multiclass)
    {unit_time std_cell_length last_cell_length : ℚ} {c : Ctm_Cell_Multiclass}
    (hl : l.m_cell_array = [])
    (hc : c ∈ (init_cell_array l unit_time std_cell_length last_cell_length).m_cell_array) :
    ∃ cell_length, c = new_cell l cell_length unit_time := by
  simp only [init_cell_array, hl, List.nil_append, List.mem_append] at hc
  rcases hc with hc | hc
  · exact ⟨std_cell_length, List.eq_of_mem_replicate hc⟩
  · split_ifs at hc
    · rw [List.mem_singleton] at hc
      exact ⟨last_cell_length, hc⟩
    · simp at hc

/-- Claim C1 fails as stated: `finished_state` is the one-cell link built by the
constructor with nothing in its cell and one vehicle waiting in the finished
array; its volumes are the lengths of its queues and every `m_veh_queue` is
empty, and the quantity of the claim is `1`.  The call `evolve`, which moves no
vehicle and takes none from the incoming queue, succeeds and leaves a car
volume of `1` and a truck volume of `1` in the cell, so that the quantity
becomes `3`. -/
theorem flow_conservation_counterexample :
    construct single_cell_args example_unassigned = Outcome.ok single_cell_link
    ∧ finished_state.volumes_agree
    ∧ (∀ c ∈ finished_state.m_cell_array, c.m_veh_queue = [])
    ∧ finished_state.m_finished_array.length = 1
    ∧ conserved_quantity finished_state 0 = 1
    ∧ (evolve round_half_up 0 finished_state).toOption.map
        (fun l => (l.m_cell_array.map fun c => (c.m_volume_car, c.m_volume_truck),
          l.m_finished_array.length, l.m_incoming_array.length, conserved_quantity l 0))
      = some ([(1, 1)], 1, 0, 3) := by
  refine ⟨?_, ?_, ?_, rfl, ?_, ?_⟩
  · norm_num [construct, single_cell_args, example_args, single_cell_link]
  · intro c hc
    obtain ⟨x, hx⟩ := init_cell_array_mem (members single_cell_args example_unassigned)
      rfl hc
    rw [hx]
    exact ⟨rfl, rfl⟩
  · intro c hc
    obtain ⟨x, hx⟩ := init_cell_array_mem (members single_cell_args example_unassigned)
      rfl hc
    rw [hx]
    rfl
  · norm_num [conserved_quantity, total_volume, finished_state, single_cell_link,
      init_cell_array, members, num_cells, std_cell_length, single_cell_args, example_args,
      new_cell, Ctm_Cell_Multiclass.init]
  · unfold evolve update_out_veh move_last_cell
    simp only [finished_state, single_cell_num_cells]
    norm_num [for_loop, cell_at, set_cell, Step.bind, Step.toOption, move_last_cell_loop,
      conserved_quantity, total_volume, single_cell_link, init_cell_array, members,
      num_cells, std_cell_length, last_cell_length, single_cell_args, example_args,
      new_cell, Ctm_Cell_Multiclass.init, update_perceived_density, free_flow_cond,
      semi_congested_cond, density_car, density_truck, clamped_hold_cap_car,
      clamped_hold_cap_truck, clamped_flow_cap_car, clamped_flow_cap_truck]

/-! ### Vehicles are neither created nor destroyed -/

theorem Step.bind_eq_ok {α β : Type} {x : Step α} {f : α → Step β} {b : β}
    (h : x.bind f = Step.ok b) : ∃ a, x = Step.ok a ∧ f a = Step.ok b := by
  cases x with
  | ok a => exact ⟨a, rfl, h⟩
  | exit => simp [Step.bind] at h
  | undefined => simp [Step.bind] at h

/-- A loop whose body keeps a quantity keeps it. -/
theorem for_loop_invariant {σ β : Type} (body : ℤ → σ → Step σ) (q : σ → β)
    (hbody : ∀ i s s', body i s = Step.ok s' → q s' = q s) :
    ∀ (count : ℕ) (i : ℤ) (s s' : σ), for_loop body count i s = Step.ok s' → q s' = q s := by
  intro count
  induction count with
  | zero =>
    intro i s s' h
    simp only [for_loop] at h
    injection h with h
    rw [h]
  | succ k ih =>
    intro i s s' h
    simp only [for_loop] at h
    obtain ⟨s1, h1, h2⟩ := Step.bind_eq_ok h
    rw [ih (i + 1) s1 s' h2, hbody i s s1 h1]

theorem cell_at_eq_ok {cells : List Ctm_Cell_Multiclass} {i : ℤ} {c : Ctm_Cell_Multiclass}
    (h : cell_at cells i = Step.ok c) : 0 ≤ i ∧ cells.get? i.toNat = some c := by
  unfold cell_at at h
  split_ifs at h with hneg
  refine ⟨not_lt.mp hneg, ?_⟩
  cases hg : cells.get? i.toNat with
  | none => rw [hg] at h; simp at h
  | some d =>
    rw [hg] at h
    injection h with h
    rw [h]

/-- Replacing an element of a list changes the sum of a function over the list by
the difference of its values. -/
theorem sum_map_set {α : Type} (f : α → ℤ) :
    ∀ (xs : List α) (k : ℕ) (x y : α), xs.get? k = some x →
      ((xs.set k y).map f).sum = (xs.map f).sum - f x + f y := by
  intro xs
  induction xs with
  | nil => intro k x y h; simp at h
  | cons a as ih =>
    intro k x y h
    cases k with
    | zero =>
      simp only [List.get?_cons_zero, Option.some.injEq] at h
      subst h
      simp only [List.set_cons_zero, List.map_cons, List.sum_cons]
      ring
    | succ k =>
      simp only [List.get?_cons_succ] at h
      simp only [List.set_cons_succ, List.map_cons, List.sum_cons]
      rw [ih k x y h]
      ring

theorem queued_sum_set_cell {cells : List Ctm_Cell_Multiclass} {i : ℤ}
    {c d : Ctm_Cell_Multiclass} (h : cell_at cells i = Step.ok c) :
    ((set_cell cells i d).map queued).sum = (cells.map queued).sum - c.queued + d.queued :=
  sum_map_set queued cells i.toNat c d (cell_at_eq_ok h).2

theorem update_queued (c : Ctm_Cell_Multiclass) :
    c.update_perceived_density.queued = c.queued := by
  unfold update_perceived_density queued
  split_ifs <;> rfl

theorem update_out_veh_body_queued (round : ℚ → ℤ) (unit_time flow_scalar : ℚ) (i : ℤ)
    (cells cells' : List Ctm_Cell_Multiclass)
    (h : update_out_veh_body round unit_time flow_scalar i cells = Step.ok cells') :
    (cells'.map queued).sum = (cells.map queued).sum := by
  unfold update_out_veh_body at h
  obtain ⟨c, hc, h⟩ := Step.bind_eq_ok h
  obtain ⟨n, -, h⟩ := Step.bind_eq_ok h
  injection h with h
  rw [← h, queued_sum_set_cell hc]
  have : (schedule_out_veh round unit_time flow_scalar c n).queued = c.queued := rfl
  rw [this]
  ring

theorem update_volume_body_queued (i : ℤ) (cells cells' : List Ctm_Cell_Multiclass)
    (h : update_volume_body i cells = Step.ok cells') :
    (cells'.map queued).sum = (cells.map queued).sum := by
  unfold update_volume_body at h
  obtain ⟨c, hc, h⟩ := Step.bind_eq_ok h
  injection h with h
  rw [← h, queued_sum_set_cell hc, update_queued]
  have : ({ c with
      m_volume_car := (c.m_veh_queue_car.length : ℤ)
      m_volume_truck := (c.m_veh_queue_truck.length : ℤ) } : Ctm_Cell_Multiclass).queued
      = c.queued := rfl
  rw [this]
  ring

theorem move_veh_queue_length {from_queue to_queue : List MNM_Veh} {k : ℤ}
    {r : List MNM_Veh × List MNM_Veh}
    (h : move_veh_queue from_queue to_queue k = Step.ok r) :
    (r.1.length : ℤ) + (r.2.length : ℤ) = (from_queue.length : ℤ) + (to_queue.length : ℤ) := by
  unfold move_veh_queue at h
  split_ifs at h with hle
  injection h with h
  rw [← h]
  simp only [List.length_drop, List.length_append, List.length_take]
  rw [min_eq_left hle]
  push_cast
  omega

theorem move_body_queued (i : ℤ) (cells cells' : List Ctm_Cell_Multiclass)
    (h : move_body i cells = Step.ok cells') :
    (cells'.map queued).sum = (cells.map queued).sum := by
  unfold move_body at h
  obtain ⟨c, hc, h⟩ := Step.bind_eq_ok h
  obtain ⟨n, hn, h⟩ := Step.bind_eq_ok h
  obtain ⟨qc, hqc, h⟩ := Step.bind_eq_ok h
  obtain ⟨qt, hqt, h⟩ := Step.bind_eq_ok h
  injection h with h
  have hi := cell_at_eq_ok hc
  have hn' := cell_at_eq_ok hn
  have hne : i.toNat ≠ (i + 1).toNat := by omega
  have hn2 : cell_at (set_cell cells i
      { c with m_veh_queue_car := qc.1, m_veh_queue_truck := qt.1 }) (i + 1) = Step.ok n := by
    unfold cell_at set_cell
    rw [if_neg (by omega), List.get?_eq_getElem?, List.getElem?_set_ne hne,
      ← List.get?_eq_getElem?, hn'.2]
  rw [← h, queued_sum_set_cell hn2, queued_sum_set_cell hc]
  have e1 := move_veh_queue_length hqc
  have e2 := move_veh_queue_length hqt
  simp only [queued]
  linarith

theorem update_out_veh_queued (round : ℚ → ℤ) (l l' : MNM_Dlink_Ctm_Multiclass)
    (h : update_out_veh round l = Step.ok l') :
    (l'.m_cell_array.map queued).sum = (l.m_cell_array.map queued).sum
    ∧ l'.m_finished_array = l.m_finished_array
    ∧ l'.m_incoming_array = l.m_incoming_array
    ∧ l'.m_num_cells = l.m_num_cells := by
  unfold update_out_veh at h
  obtain ⟨cells, hcells, h⟩ := Step.bind_eq_ok h
  obtain ⟨last, hlast, h⟩ := Step.bind_eq_ok h
  injection h with h
  have hsum : (cells.map queued).sum = (l.m_cell_array.map queued).sum := by
    split_ifs at hcells
    · exact for_loop_invariant _ (fun cs => (cs.map queued).sum)
        (update_out_veh_body_queued round l.m_unit_time l.m_flow_scalar) _ _ _ _ hcells
    · injection hcells with hcells
      rw [hcells]
  rw [← h]
  refine ⟨?_, rfl, rfl, rfl⟩
  show ((set_cell cells (l.m_num_cells - 1) _).map queued).sum = _
  rw [queued_sum_set_cell hlast, ← hsum]
  have : ({ last with
      m_out_veh_car := (last.m_veh_queue_car.length : ℤ)
      m_out_veh_truck := (last.m_veh_queue_truck.length : ℤ) } : Ctm_Cell_Multiclass).queued
      = last.queued := rfl
  rw [this]
  ring

theorem move_last_cell_loop_length :
    ∀ (k : ℕ) (queue finished : List MNM_Veh) (r : List MNM_Veh × List MNM_Veh),
      move_last_cell_loop k queue finished = Step.ok r →
      (r.1.length : ℤ) + (r.2.length : ℤ) = (queue.length : ℤ) + (finished.length : ℤ) := by
  intro k
  induction k with
  | zero =>
    intro queue finished r h
    simp only [move_last_cell_loop] at h
    injection h with h
    rw [← h]
  | succ k ih =>
    intro queue finished r h
    cases queue with
    | nil => simp [move_last_cell_loop] at h
    | cons veh queue =>
      simp only [move_last_cell_loop] at h
      split_ifs at h
      rw [ih queue (finished ++ [veh]) r h]
      simp only [List.length_append, List.length_cons, List.length_nil]
      push_cast
      ring

theorem move_last_cell_held (k : ℤ) (l l' : MNM_Dlink_Ctm_Multiclass)
    (h : move_last_cell k l = Step.ok l') :
    l'.vehicles_held = l.vehicles_held
    ∧ l'.m_incoming_array = l.m_incoming_array
    ∧ l'.m_num_cells = l.m_num_cells := by
  unfold move_last_cell at h
  obtain ⟨last, hlast, h⟩ := Step.bind_eq_ok h
  obtain ⟨r, hr, h⟩ := Step.bind_eq_ok h
  injection h with h
  rw [← h]
  refine ⟨?_, rfl, rfl⟩
  have e := move_last_cell_loop_length _ _ _ _ hr
  unfold vehicles_held
  show ((set_cell l.m_cell_array (l.m_num_cells - 1) _).map queued).sum + (r.2.length : ℤ) = _
  rw [queued_sum_set_cell hlast]
  simp only [queued]
  linarith

/-- One call of `evolve` that succeeds keeps the vehicles held by the link and
does not touch the incoming queue. -/
theorem evolve_held (round : ℚ → ℤ) (k : ℤ) (l l' : MNM_Dlink_Ctm_Multiclass)
    (h : evolve round k l = Step.ok l') :
    l'.vehicles_held = l.vehicles_held ∧ l'.m_incoming_array = l.m_incoming_array := by
  unfold evolve at h
  obtain ⟨l1, h1, h⟩ := Step.bind_eq_ok h
  obtain ⟨cells2, h2, h⟩ := Step.bind_eq_ok h
  obtain ⟨l3, h3, h⟩ := Step.bind_eq_ok h
  obtain ⟨cells4, h4, h⟩ := Step.bind_eq_ok h
  obtain ⟨last, hlast, h⟩ := Step.bind_eq_ok h
  injection h with h
  obtain ⟨a1, b1, c1, -⟩ := update_out_veh_queued round l l1 h1
  have a2 : (cells2.map queued).sum = (l1.m_cell_array.map queued).sum := by
    split_ifs at h2
    · exact for_loop_invariant _ (fun cs => (cs.map queued).sum) move_body_queued _ _ _ _ h2
    · injection h2 with h2
      rw [h2]
  obtain ⟨a3, c3, -⟩ := move_last_cell_held k _ l3 h3
  have a4 : (cells4.map queued).sum = (l3.m_cell_array.map queued).sum := by
    split_ifs at h4
    · exact for_loop_invariant _ (fun cs => (cs.map queued).sum) update_volume_body_queued
        _ _ _ _ h4
    · injection h4 with h4
      rw [h4]
  rw [← h]
  refine ⟨?_, ?_⟩
  · unfold vehicles_held at a3 ⊢
    show ((set_cell cells4 (l3.m_num_cells - 1) _).map queued).sum
      + (l3.m_finished_array.length : ℤ) = _
    rw [queued_sum_set_cell hlast, update_queued]
    have : ({ last with
        m_volume_car :=
          (last.m_veh_queue_car.length : ℤ) + (l3.m_finished_array.length : ℤ)
        m_volume_truck :=
          (last.m_veh_queue_truck.length : ℤ) + (l3.m_finished_array.length : ℤ) }
          : Ctm_Cell_Multiclass).queued = last.queued := rfl
    rw [this, a4]
    simp only at a3
    rw [b1] at a3
    linarith
  · show l3.m_incoming_array = _
    rw [c3]
    exact c1

/-- One call of `clear_incoming_array` that succeeds adds to the vehicles held by
the link those that it takes from the incoming queue. -/
theorem clear_incoming_array_held (l l' : MNM_Dlink_Ctm_Multiclass)
    (h : clear_incoming_array l = Step.ok l') :
    l'.vehicles_held + (l'.m_incoming_array.length : ℤ)
      = l.vehicles_held + (l.m_incoming_array.length : ℤ) := by
  unfold clear_incoming_array at h
  split_ifs at h
  obtain ⟨c0, hc0, h⟩ := Step.bind_eq_ok h
  obtain ⟨q, hq, h⟩ := Step.bind_eq_ok h
  injection h with h
  have e := move_veh_queue_length hq
  rw [← h]
  unfold vehicles_held
  show ((set_cell l.m_cell_array 0 _).map queued).sum + (l.m_finished_array.length : ℤ)
    + (q.1.length : ℤ) = _
  rw [queued_sum_set_cell hc0]
  simp only [queued]
  linarith


/-! ### The branches of `update_perceived_density` -/

/-- The method `update_perceived_density` is the choice among its three
branches. -/
theorem update_eq_branches (c : Ctm_Cell_Multiclass) :
    c.update_perceived_density =
      if c.free_flow_cond then c.free_flow_branch
      else if c.semi_congested_cond then c.semi_congested_branch
      else c.fully_congested_branch := by
  unfold update_perceived_density free_flow_branch semi_congested_branch
    fully_congested_branch
  split_ifs <;> rfl

/-- Claim C11, amended: on a cell whose critical densities are not zero and whose
two real densities are not zero and lie on the free-flow boundary
`density_car/critical_density_car + density_truck/critical_density_truck = 1`,
the free-flow branch and the semi-congested branch give the same perceived
density for each class (the critical density of the class) and the same space
fractions. -/
theorem regime_continuity (c : Ctm_Cell_Multiclass)
    (hcc : c.m_critical_density_car ≠ 0) (hct : c.m_critical_density_truck ≠ 0)
    (hdc : c.density_car ≠ 0) (hdt : c.density_truck ≠ 0)
    (hb : c.density_car / c.m_critical_density_car
      + c.density_truck / c.m_critical_density_truck = 1) :
    c.free_flow_branch.m_perceived_density_car
        = c.semi_congested_branch.m_perceived_density_car
    ∧ c.free_flow_branch.m_perceived_density_truck
        = c.semi_congested_branch.m_perceived_density_truck
    ∧ c.free_flow_branch.m_perceived_density_car = c.m_critical_density_car
    ∧ c.free_flow_branch.m_perceived_density_truck = c.m_critical_density_truck
    ∧ c.free_flow_branch.m_space_fraction_car = c.semi_congested_branch.m_space_fraction_car
    ∧ c.free_flow_branch.m_space_fraction_truck
        = c.semi_congested_branch.m_space_fraction_truck := by
  have hcar : 1 - c.density_truck / c.m_critical_density_truck
      = c.density_car / c.m_critical_density_car := by linarith
  have htruck : c.density_truck / c.m_critical_density_truck
      = 1 - c.density_car / c.m_critical_density_car := by linarith
  have f1 : c.free_flow_branch.m_perceived_density_car = c.m_critical_density_car := by
    show c.density_car + c.m_critical_density_car
      * (c.density_truck / c.m_critical_density_truck) = c.m_critical_density_car
    rw [htruck]
    field_simp
  have f2 : c.free_flow_branch.m_perceived_density_truck = c.m_critical_density_truck := by
    show c.density_truck + c.m_critical_density_truck
      * (c.density_car / c.m_critical_density_car) = c.m_critical_density_truck
    rw [← hcar]
    field_simp
  have s1 : c.semi_congested_branch.m_perceived_density_car = c.m_critical_density_car := by
    show c.density_car / (1 - c.density_truck / c.m_critical_density_truck)
      = c.m_critical_density_car
    rw [hcar]
    field_simp
  have s2 : c.semi_congested_branch.m_perceived_density_truck
      = c.m_critical_density_truck := by
    show c.density_truck / (c.density_truck / c.m_critical_density_truck)
      = c.m_critical_density_truck
    field_simp
  refine ⟨by rw [f1, s1], by rw [f2, s2], f1, f2, ?_, rfl⟩
  show c.density_car / c.m_critical_density_car
    = 1 - c.density_truck / c.m_critical_density_truck
  rw [hcar]

/-- Claim C11 fails as stated: `example_cell 10 0` (one car, no truck) has
positive calibration parameters and lies on the free-flow boundary; the
free-flow branch gives a perceived truck density of `1/16`, whereas the
semi-congested branch divides the truck density `0` by the truck space fraction
`0`, which is not `1/16` (it is `0` in the embedding and not a number in the
program). -/
theorem regime_continuity_counterexample :
    (example_cell 10 0).positive_parameters
    ∧ (example_cell 10 0).density_car / (example_cell 10 0).m_critical_density_car
        + (example_cell 10 0).density_truck / (example_cell 10 0).m_critical_density_truck
      = 1
    ∧ (example_cell 10 0).free_flow_branch.m_perceived_density_truck = 1 / 16
    ∧ (example_cell 10 0).density_truck = 0
    ∧ (example_cell 10 0).semi_congested_branch.m_space_fraction_truck = 0
    ∧ (example_cell 10 0).free_flow_branch.m_perceived_density_truck
        ≠ (example_cell 10 0).semi_congested_branch.m_perceived_density_truck := by
  rw [example_cell_values]
  norm_num [positive_parameters, free_flow_branch, semi_congested_branch, density_car,
    density_truck, Ctm_Cell_Multiclass.init]

theorem regime_continuity_witness :
    (example_cell 2 5).free_flow_branch.m_perceived_density_car
        = (example_cell 2 5).semi_congested_branch.m_perceived_density_car
    ∧ (example_cell 2 5).free_flow_branch.m_perceived_density_truck
        = (example_cell 2 5).semi_congested_branch.m_perceived_density_truck :=
  ⟨(regime_continuity (example_cell 2 5)
      (by rw [example_cell_values]; norm_num [Ctm_Cell_Multiclass.init])
      (by rw [example_cell_values]; norm_num [Ctm_Cell_Multiclass.init])
      (by rw [example_cell_values]; norm_num [density_car, Ctm_Cell_Multiclass.init])
      (by rw [example_cell_values]; norm_num [density_truck, Ctm_Cell_Multiclass.init])
      (by
        rw [example_cell_values]
        norm_num [density_car, density_truck, Ctm_Cell_Multiclass.init])).1,
    (regime_continuity (example_cell 2 5)
      (by rw [example_cell_values]; norm_num [Ctm_Cell_Multiclass.init])
      (by rw [example_cell_values]; norm_num [Ctm_Cell_Multiclass.init])
      (by rw [example_cell_values]; norm_num [density_car, Ctm_Cell_Multiclass.init])
      (by rw [example_cell_values]; norm_num [density_truck, Ctm_Cell_Multiclass.init])
      (by
        rw [example_cell_values]
        norm_num [density_car, density_truck, Ctm_Cell_Multiclass.init])).2.1⟩

/-- Claim C12, evaluated at two cells of the link built from `example_args` that
hold cars only.  On `example_cell 11 0` the semi-congested branch is taken with
a truck density of zero: the truck space fraction is `0` and the perceived
truck density is assigned the quotient of the truck density `0` by that `0`.
On `example_cell 12 0` the fully-congested branch is taken with a truck density
of zero: `_tmp_truck` is the quotient of the non-zero product
`m_hold_cap_truck * m_wave_speed_truck` by that `0`, and both space fractions
are computed from it.  Neither branch has a special case for a zero density. -/
theorem zero_density_divides_by_zero :
    (example_cell 11 0).positive_parameters
    ∧ (example_cell 11 0).regime = Regime.semi_congested
    ∧ (example_cell 11 0).update_perceived_density = (example_cell 11 0).semi_congested_branch
    ∧ (example_cell 11 0).density_truck = 0
    ∧ (example_cell 11 0).semi_congested_branch.m_space_fraction_truck = 0
    ∧ (example_cell 11 0).semi_congested_branch.m_perceived_density_truck
        = (example_cell 11 0).density_truck
          / (example_cell 11 0).semi_congested_branch.m_space_fraction_truck
    ∧ (example_cell 11 0).update_perceived_density_divides_by_zero
    ∧ (example_cell 12 0).regime = Regime.fully_congested
    ∧ (example_cell 12 0).update_perceived_density = (example_cell 12 0).fully_congested_branch
    ∧ (example_cell 12 0).density_truck = 0
    ∧ (example_cell 12 0).m_hold_cap_truck * (example_cell 12 0).m_wave_speed_truck ≠ 0
    ∧ (example_cell 12 0).tmp_truck
        = (example_cell 12 0).m_hold_cap_truck * (example_cell 12 0).m_wave_speed_truck
          / (example_cell 12 0).density_truck
    ∧ (example_cell 12 0).fully_congested_branch.m_space_fraction_car
        = ((example_cell 12 0).m_wave_speed_car - (example_cell 12 0).m_wave_speed_truck
            + (example_cell 12 0).tmp_truck)
          / ((example_cell 12 0).tmp_car + (example_cell 12 0).tmp_truck)
    ∧ (example_cell 12 0).fully_congested_branch.m_space_fraction_truck
        = ((example_cell 12 0).m_wave_speed_truck - (example_cell 12 0).m_wave_speed_car
            + (example_cell 12 0).tmp_car)
          / ((example_cell 12 0).tmp_car + (example_cell 12 0).tmp_truck)
    ∧ (example_cell 12 0).update_perceived_density_divides_by_zero := by
  have r11 : (example_cell 11 0).regime = Regime.semi_congested := by
    rw [example_cell_values]
    norm_num [regime, free_flow_cond, semi_congested_cond, density_car, density_truck,
      Ctm_Cell_Multiclass.init]
  have r12 : (example_cell 12 0).regime = Regime.fully_congested := by
    rw [example_cell_values]
    norm_num [regime, free_flow_cond, semi_congested_cond, density_car, density_truck,
      Ctm_Cell_Multiclass.init]
  obtain ⟨a1, a2⟩ := (regime_semi_congested_iff _).mp r11
  obtain ⟨b1, b2⟩ := (regime_fully_congested_iff _).mp r12
  have d11 : (example_cell 11 0).density_truck = 0 := by
    rw [example_cell_values]; norm_num [density_truck, Ctm_Cell_Multiclass.init]
  have d12 : (example_cell 12 0).density_truck = 0 := by
    rw [example_cell_values]; norm_num [density_truck, Ctm_Cell_Multiclass.init]
  have u11 : (example_cell 11 0).update_perceived_density
      = (example_cell 11 0).semi_congested_branch := by
    rw [update_eq_branches, if_neg a1, if_pos a2]
  have u12 : (example_cell 12 0).update_perceived_density
      = (example_cell 12 0).fully_congested_branch := by
    rw [update_eq_branches, if_neg b1, if_neg b2]
  have s11 : (example_cell 11 0).semi_congested_branch.m_space_fraction_truck = 0 := by
    show (example_cell 11 0).density_truck / _ = 0
    rw [d11, zero_div]
  refine ⟨?_, r11, u11, d11, s11, rfl, ?_, r12, u12, d12, ?_, rfl, rfl, rfl, ?_⟩
  · rw [example_cell_values]; norm_num [positive_parameters, Ctm_Cell_Multiclass.init]
  · refine Or.inr ⟨a1, Or.inr ?_⟩
    rw [u11]
    exact s11
  · rw [example_cell_values]; norm_num [Ctm_Cell_Multiclass.init]
  · exact Or.inl (Or.inr (Or.inr (Or.inr (Or.inr ⟨b1, Or.inr ⟨b2, Or.inr (Or.inl d12)⟩⟩))))

/-! ### The single-cell scenario and the terminal cell -/

/-- Since `get_link_supply` returns `0`, `clear_incoming_array` exits on every link
whose incoming queue is not empty. -/
theorem clear_incoming_array_exit_of_nonempty (l : MNM_Dlink_Ctm_Multiclass)
    (h : l.m_incoming_array ≠ []) : clear_incoming_array l = Step.exit := by
  unfold clear_incoming_array get_link_supply
  have hpos : 0 < l.m_incoming_array.length := List.length_pos.mpr h
  have : (0 : ℚ) * l.m_flow_scalar < (l.m_incoming_array.length : ℚ) := by
    rw [zero_mul]
    exact_mod_cast hpos
  rw [if_pos this]

/-- Claim C13, evaluated at `incoming_state` (the one-cell link built from
`single_cell_args`, whose length is the standard cell length, with empty queues
and one car in the incoming queue): `get_link_supply` is `0`,
`clear_incoming_array` ends in `exit(-1)`, and so does the sequence
`clear_incoming_array`, `evolve`. -/
theorem single_cell_scenario_exits :
    construct single_cell_args example_unassigned = Outcome.ok single_cell_link
    ∧ single_cell_args.length = std_cell_length single_cell_args
    ∧ single_cell_link.m_num_cells = 1
    ∧ incoming_state.m_incoming_array.length = 1
    ∧ incoming_state.get_link_supply = 0
    ∧ clear_incoming_array incoming_state = Step.exit
    ∧ run round_half_up [Call.clear_incoming_array, Call.evolve 0] incoming_state
        = Step.exit := by
  have hexit : clear_incoming_array incoming_state = Step.exit := by
    apply clear_incoming_array_exit_of_nonempty
    simp [incoming_state]
  refine ⟨?_, ?_, single_cell_num_cells, rfl, rfl, hexit, ?_⟩
  · norm_num [construct, single_cell_args, example_args, single_cell_link]
  · norm_num [single_cell_args, example_args, std_cell_length]
  · simp only [run, hexit, Step.bind]

theorem terminal_car_num_cells (veh : MNM_Veh) : (terminal_car_state veh).m_num_cells = 1 := by
  norm_num [terminal_car_state, single_cell_link, init_cell_array, members, num_cells,
    std_cell_length, single_cell_args, example_args]

/-- The loop of `move_last_cell` cannot exit on an empty queue. -/
theorem move_last_cell_loop_nil (k : ℕ) (finished : List MNM_Veh) :
    move_last_cell_loop k [] finished = Step.ok ([], finished)
      ∨ move_last_cell_loop k [] finished = Step.undefined := by
  cases k with
  | zero => left; rfl
  | succ k => right; rfl

/-- Whatever the value of `_num_veh_tomove`, `evolve` does not exit on a link
whose terminal cell has a vehicle in its car queue and an empty `m_veh_queue`. -/
theorem evolve_terminal_car_no_exit (veh : MNM_Veh) (k : ℤ) :
    evolve round_half_up k (terminal_car_state veh) ≠ Step.exit := by
  unfold evolve update_out_veh move_last_cell
  simp only [terminal_car_num_cells]
  rcases move_last_cell_loop_nil k.toNat [] with h | h
  · norm_num [for_loop, cell_at, set_cell, Step.bind, terminal_car_state, example_cell,
      new_cell, Ctm_Cell_Multiclass.init, single_cell_link, init_cell_array, members, h]
    intro hexit
    cases hexit
  · norm_num [for_loop, cell_at, set_cell, Step.bind, terminal_car_state, example_cell,
      new_cell, Ctm_Cell_Multiclass.init, single_cell_link, init_cell_array, members, h]
    intro hexit
    cases hexit

/-- The state of the only cell and of the finished array after `evolve`: the
scheduled car outflow, the car queue, and the finished array. -/
theorem evolve_terminal_car (veh : MNM_Veh) :
    (evolve round_half_up 0 (terminal_car_state veh)).toOption.map
        (fun l => (l.m_cell_array.map fun c => (c.m_out_veh_car, c.m_veh_queue_car),
          l.m_finished_array))
      = some ([(1, [veh])], []) := by
  unfold evolve update_out_veh move_last_cell
  simp only [terminal_car_num_cells]
  norm_num [for_loop, cell_at, set_cell, Step.bind, Step.toOption, move_last_cell_loop,
    terminal_car_state, example_cell, new_cell, Ctm_Cell_Multiclass.init, single_cell_link,
    init_cell_array, members, update_perceived_density]
  split_ifs <;> simp

/-- Claim C14, evaluated at `terminal_car_state`: with a car that has no next
link in the car queue of the terminal cell, `evolve` schedules that car
(`m_out_veh_car = 1`) but does not exit, whatever `_num_veh_tomove` is, and the
car stays in the queue; with a car that has a next link, the car stays in the
queue as well and the finished array stays empty. -/
theorem terminal_car_not_drained :
    (∀ k : ℤ, evolve round_half_up k
        (terminal_car_state { m_veh_ID := 1, m_has_next_link := false }) ≠ Step.exit)
    ∧ (evolve round_half_up 0
          (terminal_car_state { m_veh_ID := 1, m_has_next_link := false })).toOption.map
        (fun l => (l.m_cell_array.map fun c => (c.m_out_veh_car, c.m_veh_queue_car),
          l.m_finished_array))
      = some ([(1, [{ m_veh_ID := 1, m_has_next_link := false }])], [])
    ∧ (evolve round_half_up 0
          (terminal_car_state { m_veh_ID := 2, m_has_next_link := true })).toOption.map
        (fun l => (l.m_cell_array.map fun c => (c.m_out_veh_car, c.m_veh_queue_car),
          l.m_finished_array))
      = some ([(1, [{ m_veh_ID := 2, m_has_next_link := true }])], []) :=
  ⟨fun k => evolve_terminal_car_no_exit _ k, evolve_terminal_car _, evolve_terminal_car _⟩

/-! ### Travel time -/

/-- On every link that the constructor builds, the member `m_ffs` is `0`. -/
theorem construct_ffs_zero {a : Args} {u : Unassigned} {l : MNM_Dlink_Ctm_Multiclass}
    (h : construct a u = Outcome.ok l) : l.m_ffs = 0 := by
  rw [construct_eq_ok h]
  rfl

/-- With `m_ffs = 0`, as on every link that the constructor builds, the first case
of `get_link_tt` is taken exactly when `m_lane_flow_cap` is positive, and the
speed is `0` in both cases: it is `m_ffs` in the first, and in the second the
floor `0.001 * m_ffs` and the other argument of the maximum are both `0`. -/
theorem link_tt_spd_of_ffs_zero (l : MNM_Dlink_Ctm_Multiclass) (h : l.m_ffs = 0) :
    (l.link_tt_rho_le_rhok ↔ 0 < l.m_lane_flow_cap)
    ∧ (1 : ℚ) / 1000 * l.m_ffs = 0
    ∧ l.link_tt_spd = 0 := by
  refine ⟨?_, ?_, ?_⟩
  · unfold link_tt_rho_le_rhok
    rw [if_pos h]
  · rw [h, mul_zero]
  · unfold link_tt_spd link_tt_congested_spd
    split_ifs
    · exact h
    · rw [h, mul_zero, max_self]

/-- Claim C16, evaluated at `tt_link` (the link built from `example_args`, all
cells empty, with `m_lane_hold_cap = 3/16` and `m_lane_flow_cap = 1/2`): the
constructor stores `m_ffs = 0`, the aggregate density `0` is below the jam
density `3/16`, the comparison `_rho <= _rhok` holds, the first case of
`get_link_tt` is taken, the speed is `m_ffs = 0`, which is not strictly
positive, and the value returned is the quotient of the length by that zero
speed. -/
theorem link_tt_speed_zero :
    construct example_args tt_unassigned = Outcome.ok tt_link
    ∧ tt_link.m_ffs = 0
    ∧ tt_link.link_tt_rho = 0
    ∧ tt_link.link_tt_rho < tt_link.link_tt_rhoj
    ∧ tt_link.link_tt_rho_le_rhok
    ∧ tt_link.link_tt_spd = 0
    ∧ ¬ (0 < tt_link.link_tt_spd)
    ∧ (∀ max_link_cost : ℚ,
        tt_link.get_link_tt max_link_cost = tt_link.m_length / tt_link.link_tt_spd) := by
  have hc : construct example_args tt_unassigned = Outcome.ok tt_link := by
    norm_num [construct, example_args, tt_link]
  have hffs : tt_link.m_ffs = 0 := construct_ffs_zero hc
  have hrho : tt_link.link_tt_rho = 0 := by
    have hv : tt_link.total_volume = 0 := by
      norm_num [total_volume, tt_link, init_cell_array, members, num_cells, std_cell_length,
        last_cell_length, example_args, List.replicate, new_cell, Ctm_Cell_Multiclass.init]
    unfold link_tt_rho get_link_flow
    rw [hv]
    norm_num
  have hrhoj : tt_link.link_tt_rhoj = 3 / 16 := rfl
  have hflow : tt_link.m_lane_flow_cap = 1 / 2 := rfl
  have hle : tt_link.link_tt_rho_le_rhok := by
    rw [(link_tt_spd_of_ffs_zero tt_link hffs).1, hflow]
    norm_num
  have hspd : tt_link.link_tt_spd = 0 := by
    unfold link_tt_spd
    rw [if_pos hle, hffs]
  refine ⟨hc, hffs, hrho, ?_, hle, hspd, ?_, ?_⟩
  · rw [hrho, hrhoj]; norm_num
  · rw [hspd]; exact lt_irrefl 0
  · intro max_link_cost
    unfold get_link_tt
    rw [if_neg]
    rw [hrho, hrhoj]
    norm_num

/-- On every link that the constructor builds, whatever the values of the members
that it leaves unassigned and whatever the cells hold, the speed that
`get_link_tt` uses is `0`, so that below the jam density the value returned is
the quotient of the length by zero. -/
theorem link_tt_spd_of_construct {a : Args} {u : Unassigned} {l : MNM_Dlink_Ctm_Multiclass}
    (h : construct a u = Outcome.ok l) (cells : List Ctm_Cell_Multiclass) :
    ({ l with m_cell_array := cells } : MNM_Dlink_Ctm_Multiclass).link_tt_spd = 0 :=
  (link_tt_spd_of_ffs_zero { l with m_cell_array := cells }
    (show l.m_ffs = 0 from construct_ffs_zero h)).2.2

/-! ### Perceived density against real density -/

/-- A non-negative density divided by a space fraction in `(0, 1]` does not
decrease. -/
theorem le_div_space_fraction {d sf : ℚ} (hd : 0 ≤ d) (hpos : 0 < sf) (hle : sf ≤ 1) :
    d ≤ d / sf := by
  rw [le_div_iff₀ hpos]
  nlinarith

/-- On a cell with positive calibration parameters and non-negative volumes on
which `update_perceived_density` divides by nothing zero, in the free-flow
regime each perceived density is the real density plus
the own critical density times the other class's stored space fraction; each
perceived density is at least the real density in the semi-congested regime
when the truck density is at most the truck critical density, as the comment of
that branch says it is, and in the
fully-congested regime when the car density is at most the car jam density and
the truck critical density is at most the truck jam density. -/
theorem perceived_density_vs_density (c : Ctm_Cell_Multiclass) (hp : c.positive_parameters)
    (hvc : 0 ≤ c.m_volume_car) (hvt : 0 ≤ c.m_volume_truck)
    (h0 : ¬ c.update_perceived_density_divides_by_zero) :
    (c.regime = Regime.free_flow →
      c.update_perceived_density.m_perceived_density_car
          = c.density_car + c.m_critical_density_car
              * c.update_perceived_density.m_space_fraction_truck
        ∧ c.update_perceived_density.m_perceived_density_truck
          = c.density_truck + c.m_critical_density_truck
              * c.update_perceived_density.m_space_fraction_car)
    ∧ (c.regime = Regime.semi_congested →
        c.density_truck ≤ c.m_critical_density_truck →
        c.density_car ≤ c.update_perceived_density.m_perceived_density_car
          ∧ c.density_truck ≤ c.update_perceived_density.m_perceived_density_truck)
    ∧ (c.regime = Regime.fully_congested →
        c.density_car ≤ c.m_hold_cap_car →
        c.m_critical_density_truck ≤ c.m_hold_cap_truck →
        c.density_car ≤ c.update_perceived_density.m_perceived_density_car
          ∧ c.density_truck ≤ c.update_perceived_density.m_perceived_density_truck) := by
  have hdc := density_car_nonneg hp hvc
  have hdt := density_truck_nonneg hp hvt
  have hs0 : ¬ c.space_fraction_divides_by_zero := fun hz => h0 (Or.inl hz)
  refine ⟨?_, ?_, ?_⟩
  · intro hr
    have h := (regime_free_flow_iff c).mp hr
    obtain ⟨e1, e2, e3, e4⟩ := update_free_flow h
    rw [e1, e2, e3, e4]
    exact ⟨rfl, rfl⟩
  · intro hr hle
    obtain ⟨h1, h2⟩ := (regime_semi_congested_iff c).mp hr
    obtain ⟨e1, e2, e3, e4⟩ := update_semi_congested h1 h2
    obtain ⟨⟨a, a'⟩, ⟨b, b'⟩⟩ := semi_congested_fractions hp hvt h1 h2 hle
    have hne : c.update_perceived_density.m_space_fraction_car ≠ 0
        ∧ c.update_perceived_density.m_space_fraction_truck ≠ 0 := by
      constructor
      · intro hz; exact h0 (Or.inr ⟨h1, Or.inl hz⟩)
      · intro hz; exact h0 (Or.inr ⟨h1, Or.inr hz⟩)
    rw [e1] at a a' hne
    rw [e2] at b b' hne
    rw [e3, e4]
    exact ⟨le_div_space_fraction hdc (lt_of_le_of_ne a (Ne.symm hne.1)) a',
      le_div_space_fraction hdt (lt_of_le_of_ne b (Ne.symm hne.2)) b'⟩
  · intro hr hjam hcrit
    obtain ⟨h1, h2⟩ := (regime_fully_congested_iff c).mp hr
    obtain ⟨e1, e2, e3, e4⟩ := update_fully_congested h1 h2
    obtain ⟨⟨a, a'⟩, ⟨b, b'⟩⟩ := fully_congested_fractions hp hvc hvt hs0 h1 h2 hjam hcrit
    rw [e1] at a a'
    rw [e2] at b b'
    rw [e3, e4]
    exact ⟨le_div_space_fraction hdc a a', le_div_space_fraction hdt b b'⟩

/-- Claim C15, evaluated at `example_cell 0 10` (a standard cell of the link built
from `example_args`, holding no car and ten truck units): the cell has positive
calibration parameters and non-negative volumes and nothing is divided by zero
on it; its truck density `1/10` is above the truck critical density `1/16`, yet
the branch commented "truck free-flow but car not" is taken, the truck space
fraction is `8/5`, and the perceived truck density `1/16` is below the real
truck density `1/10`. -/
theorem perceived_density_below_density :
    (example_cell 0 10).positive_parameters
    ∧ 0 ≤ (example_cell 0 10).m_volume_car ∧ 0 ≤ (example_cell 0 10).m_volume_truck
    ∧ ¬ (example_cell 0 10).update_perceived_density_divides_by_zero
    ∧ (example_cell 0 10).m_critical_density_truck < (example_cell 0 10).density_truck
    ∧ (example_cell 0 10).regime = Regime.semi_congested
    ∧ (example_cell 0 10).update_perceived_density.m_space_fraction_truck = 8 / 5
    ∧ (example_cell 0 10).density_truck = 1 / 10
    ∧ (example_cell 0 10).update_perceived_density.m_perceived_density_truck = 1 / 16
    ∧ ¬ ((example_cell 0 10).density_truck
        ≤ (example_cell 0 10).update_perceived_density.m_perceived_density_truck) := by
  rw [example_cell_values]
  norm_num [positive_parameters, regime, update_perceived_density_divides_by_zero,
    space_fraction_divides_by_zero, update_perceived_density, free_flow_cond,
    semi_congested_cond, density_car, density_truck, Ctm_Cell_Multiclass.init]

theorem perceived_density_vs_density_witness :
    ((example_cell 7 2).density_car
        ≤ (example_cell 7 2).update_perceived_density.m_perceived_density_car
      ∧ (example_cell 7 2).density_truck
        ≤ (example_cell 7 2).update_perceived_density.m_perceived_density_truck)
    ∧ ((example_cell 9 2).density_car
        ≤ (example_cell 9 2).update_perceived_density.m_perceived_density_car
      ∧ (example_cell 9 2).density_truck
        ≤ (example_cell 9 2).update_perceived_density.m_perceived_density_truck) := by
  have p7 : (example_cell 7 2).positive_parameters := by
    rw [example_cell_values]; norm_num [positive_parameters, Ctm_Cell_Multiclass.init]
  have p9 : (example_cell 9 2).positive_parameters := by
    rw [example_cell_values]; norm_num [positive_parameters, Ctm_Cell_Multiclass.init]
  have h7 : (example_cell 7 2).regime = Regime.semi_congested := by
    rw [example_cell_values]
    norm_num [regime, free_flow_cond, semi_congested_cond, density_car, density_truck,
      Ctm_Cell_Multiclass.init]
  have h9 : (example_cell 9 2).regime = Regime.fully_congested := by
    rw [example_cell_values]
    norm_num [regime, free_flow_cond, semi_congested_cond, density_car, density_truck,
      Ctm_Cell_Multiclass.init]
  have z7 : ¬ (example_cell 7 2).update_perceived_density_divides_by_zero := by
    rw [example_cell_values]
    norm_num [update_perceived_density_divides_by_zero, space_fraction_divides_by_zero,
      update_perceived_density, free_flow_cond, semi_congested_cond,
      density_car, density_truck, tmp_car, tmp_truck, Ctm_Cell_Multiclass.init]
  have z9 : ¬ (example_cell 9 2).update_perceived_density_divides_by_zero := by
    rw [example_cell_values]
    norm_num [update_perceived_density_divides_by_zero, space_fraction_divides_by_zero,
      update_perceived_density, free_flow_cond, semi_congested_cond,
      density_car, density_truck, tmp_car, tmp_truck, Ctm_Cell_Multiclass.init]
  have d7 : (example_cell 7 2).density_truck ≤ (example_cell 7 2).m_critical_density_truck := by
    rw [example_cell_values]; norm_num [density_truck, Ctm_Cell_Multiclass.init]
  have d9 : (example_cell 9 2).density_car ≤ (example_cell 9 2).m_hold_cap_car := by
    rw [example_cell_values]; norm_num [density_car, Ctm_Cell_Multiclass.init]
  have c9 : (example_cell 9 2).m_critical_density_truck
      ≤ (example_cell 9 2).m_hold_cap_truck := by
    rw [example_cell_values]; norm_num [Ctm_Cell_Multiclass.init]
  exact ⟨(perceived_density_vs_density (example_cell 7 2) p7 (by decide) (by decide) z7).2.1
      h7 d7,
    (perceived_density_vs_density (example_cell 9 2) p9 (by decide) (by decide) z9).2.2
      h9 d9 c9⟩

/-- The congested speed of a class whose perceived density is `d / sf`. -/
theorem congested_speed_eq (w h d sf : ℚ) (hd : d ≠ 0) :
    w * (h / (d / sf) - 1) = h * w / d * sf - w := by
  rw [div_div_eq_mul_div]
  field_simp
  ring

/-- Claim C18: on every cell with positive calibration parameters and positive
real densities of both classes, the space fractions and perceived densities of
the fully-congested branch give both classes the same congested speed
`wave_speed * (hold_cap / perceived_density - 1)`.  (When a space fraction is
zero the perceived density is a quotient by zero, and the side of that class is
minus its wave speed in the embedding as it is with an infinite perceived
density.) -/
theorem equal_congested_speeds (c : Ctm_Cell_Multiclass) (hp : c.positive_parameters)
    (hdc : 0 < c.density_car) (hdt : 0 < c.density_truck) :
    c.fully_congested_branch.m_wave_speed_car
        * (c.fully_congested_branch.m_hold_cap_car
            / c.fully_congested_branch.m_perceived_density_car - 1)
      = c.fully_congested_branch.m_wave_speed_truck
        * (c.fully_congested_branch.m_hold_cap_truck
            / c.fully_congested_branch.m_perceived_density_truck - 1) := by
  obtain ⟨-, -, -, hhc, hht, -, -, -, -, -, -, -, hwc, hwt⟩ := hp
  have htc : 0 < c.tmp_car := by unfold tmp_car; positivity
  have htt : 0 < c.tmp_truck := by unfold tmp_truck; positivity
  have hsum : c.tmp_car + c.tmp_truck ≠ 0 := ne_of_gt (add_pos htc htt)
  have hc : c.m_wave_speed_car * (c.m_hold_cap_car
      / (c.density_car / ((c.m_wave_speed_car - c.m_wave_speed_truck + c.tmp_truck)
          / (c.tmp_car + c.tmp_truck))) - 1)
      = c.tmp_car * ((c.m_wave_speed_car - c.m_wave_speed_truck + c.tmp_truck)
          / (c.tmp_car + c.tmp_truck)) - c.m_wave_speed_car := by
    rw [congested_speed_eq _ _ _ _ (ne_of_gt hdc)]
    rfl
  have ht : c.m_wave_speed_truck * (c.m_hold_cap_truck
      / (c.density_truck / ((c.m_wave_speed_truck - c.m_wave_speed_car + c.tmp_car)
          / (c.tmp_car + c.tmp_truck))) - 1)
      = c.tmp_truck * ((c.m_wave_speed_truck - c.m_wave_speed_car + c.tmp_car)
          / (c.tmp_car + c.tmp_truck)) - c.m_wave_speed_truck := by
    rw [congested_speed_eq _ _ _ _ (ne_of_gt hdt)]
    rfl
  show c.m_wave_speed_car * (c.m_hold_cap_car
      / (c.density_car / ((c.m_wave_speed_car - c.m_wave_speed_truck + c.tmp_truck)
          / (c.tmp_car + c.tmp_truck))) - 1)
    = c.m_wave_speed_truck * (c.m_hold_cap_truck
      / (c.density_truck / ((c.m_wave_speed_truck - c.m_wave_speed_car + c.tmp_car)
          / (c.tmp_car + c.tmp_truck))) - 1)
  rw [hc, ht]
  field_simp
  ring

theorem equal_congested_speeds_witness :
    (example_cell 9 2).regime = Regime.fully_congested
    ∧ (example_cell 9 2).update_perceived_density = (example_cell 9 2).fully_congested_branch
    ∧ (example_cell 9 2).fully_congested_branch.m_wave_speed_car
        * ((example_cell 9 2).fully_congested_branch.m_hold_cap_car
            / (example_cell 9 2).fully_congested_branch.m_perceived_density_car - 1)
      = (example_cell 9 2).fully_congested_branch.m_wave_speed_truck
        * ((example_cell 9 2).fully_congested_branch.m_hold_cap_truck
            / (example_cell 9 2).fully_congested_branch.m_perceived_density_truck - 1) := by
  have h9 : (example_cell 9 2).regime = Regime.fully_congested := by
    rw [example_cell_values]
    norm_num [regime, free_flow_cond, semi_congested_cond, density_car, density_truck,
      Ctm_Cell_Multiclass.init]
  obtain ⟨h1, h2⟩ := (regime_fully_congested_iff _).mp h9
  refine ⟨h9, ?_, equal_congested_speeds (example_cell 9 2)
    (by rw [example_cell_values]; norm_num [positive_parameters, Ctm_Cell_Multiclass.init])
    (by rw [example_cell_values]; norm_num [density_car, Ctm_Cell_Multiclass.init])
    (by rw [example_cell_values]; norm_num [density_truck, Ctm_Cell_Multiclass.init])⟩
  rw [update_eq_branches, if_neg h1, if_neg h2]

/-! ### The triangular fundamental diagram -/

/-- The calibration members of a cell that `init_cell_array` builds, in terms of
the constructor arguments. -/
theorem new_cell_members (a : Args) (u : Unassigned) (cell_length unit_time : ℚ) :
    (new_cell (members a u) cell_length unit_time).m_hold_cap_car
        = (a.number_of_lane : ℚ) * clamped_hold_cap_car a
    ∧ (new_cell (members a u) cell_length unit_time).m_hold_cap_truck
        = (a.number_of_lane : ℚ) * clamped_hold_cap_truck a
    ∧ (new_cell (members a u) cell_length unit_time).m_critical_density_car
        = (a.number_of_lane : ℚ) * (clamped_flow_cap_car a / a.ffs_car)
    ∧ (new_cell (members a u) cell_length unit_time).m_critical_density_truck
        = (a.number_of_lane : ℚ) * (clamped_flow_cap_truck a / a.ffs_truck)
    ∧ (new_cell (members a u) cell_length unit_time).m_flow_cap_car
        = (a.number_of_lane : ℚ) * clamped_flow_cap_car a
    ∧ (new_cell (members a u) cell_length unit_time).m_flow_cap_truck
        = (a.number_of_lane : ℚ) * clamped_flow_cap_truck a
    ∧ (new_cell (members a u) cell_length unit_time).m_ffs_car = a.ffs_car
    ∧ (new_cell (members a u) cell_length unit_time).m_ffs_truck = a.ffs_truck
    ∧ (new_cell (members a u) cell_length unit_time).m_wave_speed_car
        = clamped_flow_cap_car a / (clamped_hold_cap_car a - clamped_flow_cap_car a / a.ffs_car)
    ∧ (new_cell (members a u) cell_length unit_time).m_wave_speed_truck
        = clamped_flow_cap_truck a
            / (clamped_hold_cap_truck a - clamped_flow_cap_truck a / a.ffs_truck) :=
  ⟨rfl, rfl, rfl, rfl, rfl, rfl, rfl, rfl, rfl, rfl⟩

/-- On a cell with positive critical densities for which
`update_perceived_density` selects the free-flow regime, each perceived density
divided by its critical density is the sum of the two density ratios, which is
at most `1`, so each perceived density is at most its critical density; and for
a class whose free-flow speed is non-negative and whose flow capacity is at
least its critical density times its free-flow speed, `get_perceived_demand`
returns the free-flow speed times the perceived density. -/
theorem free_flow_branch_bounds (c : Ctm_Cell_Multiclass)
    (hcc : 0 < c.m_critical_density_car) (hct : 0 < c.m_critical_density_truck)
    (hr : c.regime = Regime.free_flow) :
    c.update_perceived_density.m_perceived_density_car / c.m_critical_density_car
        = c.density_car / c.m_critical_density_car
          + c.density_truck / c.m_critical_density_truck
    ∧ c.update_perceived_density.m_perceived_density_truck / c.m_critical_density_truck
        = c.density_car / c.m_critical_density_car
          + c.density_truck / c.m_critical_density_truck
    ∧ c.density_car / c.m_critical_density_car
          + c.density_truck / c.m_critical_density_truck ≤ 1
    ∧ c.update_perceived_density.m_perceived_density_car ≤ c.m_critical_density_car
    ∧ c.update_perceived_density.m_perceived_density_truck ≤ c.m_critical_density_truck
    ∧ (0 ≤ c.m_ffs_car → c.m_critical_density_car * c.m_ffs_car ≤ c.m_flow_cap_car →
        c.update_perceived_density.get_perceived_demand 1
          = c.m_ffs_car * c.update_perceived_density.m_perceived_density_car)
    ∧ (0 ≤ c.m_ffs_truck → c.m_critical_density_truck * c.m_ffs_truck ≤ c.m_flow_cap_truck →
        c.update_perceived_density.get_perceived_demand 2
          = c.m_ffs_truck * c.update_perceived_density.m_perceived_density_truck) := by
  have h := (regime_free_flow_iff c).mp hr
  obtain ⟨-, -, e3, e4⟩ := update_free_flow h
  obtain ⟨-, -, -, -, -, -, -, -, efc, eft, esc, est, -, -⟩ := update_same_calibration c
  have r1 : c.update_perceived_density.m_perceived_density_car / c.m_critical_density_car
      = c.density_car / c.m_critical_density_car
        + c.density_truck / c.m_critical_density_truck := by
    rw [e3]
    field_simp
    ring
  have r2 : c.update_perceived_density.m_perceived_density_truck / c.m_critical_density_truck
      = c.density_car / c.m_critical_density_car
        + c.density_truck / c.m_critical_density_truck := by
    rw [e4]
    field_simp
    ring
  have hle : c.density_car / c.m_critical_density_car
      + c.density_truck / c.m_critical_density_truck ≤ 1 := h
  have p1 : c.update_perceived_density.m_perceived_density_car ≤ c.m_critical_density_car := by
    have := r1 ▸ hle
    exact (div_le_one hcc).mp this
  have p2 : c.update_perceived_density.m_perceived_density_truck
      ≤ c.m_critical_density_truck := by
    have := r2 ▸ hle
    exact (div_le_one hct).mp this
  refine ⟨r1, r2, hle, p1, p2, ?_, ?_⟩
  · intro hffs hcap
    unfold get_perceived_demand
    rw [if_pos rfl, efc, esc]
    apply min_eq_right
    have := mul_le_mul_of_nonneg_left p1 hffs
    linarith
  · intro hffs hcap
    unfold get_perceived_demand
    rw [if_neg (by decide), eft, est]
    apply min_eq_right
    have := mul_le_mul_of_nonneg_left p2 hffs
    linarith

theorem clamped_flow_cap_car_nonneg {a : Args} (h : 0 ≤ a.lane_flow_cap_car) :
    0 ≤ clamped_flow_cap_car a := by
  unfold clamped_flow_cap_car
  simp only
  split_ifs <;> first | assumption | norm_num

/-- The arguments of a construction that succeeds have non-negative flow
capacities. -/
theorem construct_ok_flow_cap_nonneg {a : Args} {u : Unassigned}
    {l : MNM_Dlink_Ctm_Multiclass} (h : construct a u = Outcome.ok l) :
    0 ≤ a.lane_flow_cap_car ∧ 0 ≤ a.lane_flow_cap_truck := by
  unfold construct at h
  split_ifs at h with h1 h2
  push_neg at h2
  exact h2

/-- Every cell of a constructed link is a `new_cell` of the members of the link. -/
theorem cells_of_construct {a : Args} {u : Unassigned} {l : MNM_Dlink_Ctm_Multiclass}
    (h : construct a u = Outcome.ok l) (c : Ctm_Cell_Multiclass)
    (hc : c ∈ l.m_cell_array) :
    ∃ cell_length, c = new_cell (members a u) cell_length a.unit_time := by
  rw [construct_eq_ok h] at hc
  simp only [init_cell_array, members, List.nil_append, List.mem_append] at hc
  rcases hc with hc | hc
  · exact ⟨std_cell_length a, List.eq_of_mem_replicate hc⟩
  · split_ifs at hc
    · rw [List.mem_singleton] at hc
      exact ⟨last_cell_length a, hc⟩
    · simp at hc

/-- A quotient of a non-negative number that is positive has a positive numerator
and a positive denominator. -/
theorem pos_of_div_pos {x y : ℚ} (hx : 0 ≤ x) (h : 0 < x / y) : 0 < x ∧ 0 < y := by
  rcases div_pos_iff.mp h with h1 | h1
  · exact h1
  · exact absurd h1.1 (not_lt.mpr hx)

/-- Claim C19: let a link be built from accepted arguments with a positive lane
count, and let a cell with the calibration of a cell of that link (in any
state) have positive critical densities and be in the free-flow regime of
`update_perceived_density`.  Then each perceived density divided by its
critical density is the sum of the two density ratios, which is at most `1`,
each perceived density is at most its critical density, and
`get_perceived_demand` returns the free-flow speed times the perceived density
for both classes. -/
theorem free_flow_perceived_density (a : Args) (u : Unassigned)
    (l : MNM_Dlink_Ctm_Multiclass) (c : Ctm_Cell_Multiclass) (cell_length : ℚ)
    (hl : construct a u = Outcome.ok l) (hlane : 0 < a.number_of_lane)
    (hcal : c.same_calibration (new_cell (members a u) cell_length a.unit_time))
    (hcc : 0 < c.m_critical_density_car) (hct : 0 < c.m_critical_density_truck)
    (hr : c.regime = Regime.free_flow) :
    c.update_perceived_density.m_perceived_density_car / c.m_critical_density_car
        = c.density_car / c.m_critical_density_car
          + c.density_truck / c.m_critical_density_truck
    ∧ c.update_perceived_density.m_perceived_density_truck / c.m_critical_density_truck
        = c.density_car / c.m_critical_density_car
          + c.density_truck / c.m_critical_density_truck
    ∧ c.density_car / c.m_critical_density_car
          + c.density_truck / c.m_critical_density_truck ≤ 1
    ∧ c.update_perceived_density.m_perceived_density_car ≤ c.m_critical_density_car
    ∧ c.update_perceived_density.m_perceived_density_truck ≤ c.m_critical_density_truck
    ∧ c.update_perceived_density.get_perceived_demand 1
        = c.m_ffs_car * c.update_perceived_density.m_perceived_density_car
    ∧ c.update_perceived_density.get_perceived_demand 2
        = c.m_ffs_truck * c.update_perceived_density.m_perceived_density_truck := by
  obtain ⟨r1, r2, hle, p1, p2, d1, d2⟩ := free_flow_branch_bounds c hcc hct hr
  obtain ⟨hfc0, hft0⟩ := construct_ok_flow_cap_nonneg hl
  have hN : (0 : ℚ) < (a.number_of_lane : ℚ) := by exact_mod_cast hlane
  obtain ⟨-, -, -, -, -, ecc, ect, -, efc, eft, esc, est, -, -⟩ := hcal
  obtain ⟨-, -, ncc, nct, nfc, nft, nsc, nst, -, -⟩ :=
    new_cell_members a u cell_length a.unit_time
  rw [ncc] at ecc
  rw [nct] at ect
  rw [nfc] at efc
  rw [nft] at eft
  rw [nsc] at esc
  rw [nst] at est
  have hqc : 0 < clamped_flow_cap_car a / a.ffs_car := by
    rw [ecc] at hcc
    exact (mul_pos_iff_of_pos_left hN).mp hcc
  have hqt : 0 < clamped_flow_cap_truck a / a.ffs_truck := by
    rw [ect] at hct
    exact (mul_pos_iff_of_pos_left hN).mp hct
  obtain ⟨-, hsc⟩ := pos_of_div_pos (clamped_flow_cap_car_nonneg hfc0) hqc
  have hft0' : 0 ≤ clamped_flow_cap_truck a := hft0
  obtain ⟨-, hst⟩ := pos_of_div_pos hft0' hqt
  refine ⟨r1, r2, hle, p1, p2, d1 ?_ ?_, d2 ?_ ?_⟩
  · rw [esc]; exact le_of_lt hsc
  · rw [ecc, efc, esc]
    apply le_of_eq
    field_simp
  · rw [est]; exact le_of_lt hst
  · rw [ect, eft, est]
    apply le_of_eq
    field_simp

theorem free_flow_perceived_density_witness :
    (example_cell 2 3).update_perceived_density.m_perceived_density_car
        ≤ (example_cell 2 3).m_critical_density_car
    ∧ (example_cell 2 3).update_perceived_density.get_perceived_demand 1
        = (example_cell 2 3).m_ffs_car
            * (example_cell 2 3).update_perceived_density.m_perceived_density_car
    ∧ (example_cell 2 3).update_perceived_density.get_perceived_demand 2
        = (example_cell 2 3).m_ffs_truck
            * (example_cell 2 3).update_perceived_density.m_perceived_density_truck := by
  have h := free_flow_perceived_density example_args example_unassigned example_link
    (example_cell 2 3) (std_cell_length example_args)
    (by norm_num [construct, example_args, example_link])
    (by norm_num [example_args])
    (by simp [same_calibration, example_cell])
    (by rw [example_cell_values]; norm_num [Ctm_Cell_Multiclass.init])
    (by rw [example_cell_values]; norm_num [Ctm_Cell_Multiclass.init])
    (by
      rw [example_cell_values]
      norm_num [regime, free_flow_cond, density_car, density_truck, Ctm_Cell_Multiclass.init])
  exact ⟨h.2.2.2.1, h.2.2.2.2.2.1, h.2.2.2.2.2.2⟩

/-- Claim C20: let a link be built from accepted arguments with, for each class,
a stored per-lane jam density strictly above the stored per-lane critical
density `flow_cap / ffs`, itself positive, and let a cell have the calibration
of a cell of that link (in any state).  Then for each class
`wave_speed * (hold_cap - critical_density) = flow_cap` at cell level,
`get_perceived_demand` returns exactly the flow capacity whenever the perceived
density is at least the critical density, and, the lane count being
non-negative as it is for every link of the data model,
`get_perceived_supply` returns exactly the flow capacity whenever the perceived
density is at most the critical density. -/
theorem triangular_diagram (a : Args) (u : Unassigned) (l : MNM_Dlink_Ctm_Multiclass)
    (c : Ctm_Cell_Multiclass) (cell_length : ℚ)
    (hl : construct a u = Outcome.ok l)
    (hjc : l.m_lane_critical_density_car < l.m_lane_hold_cap_car)
    (hcc : 0 < l.m_lane_critical_density_car)
    (hjt : l.m_lane_critical_density_truck < l.m_lane_hold_cap_truck)
    (hct : 0 < l.m_lane_critical_density_truck)
    (hcal : c.same_calibration (new_cell (members a u) cell_length a.unit_time)) :
    c.m_wave_speed_car * (c.m_hold_cap_car - c.m_critical_density_car) = c.m_flow_cap_car
    ∧ c.m_wave_speed_truck * (c.m_hold_cap_truck - c.m_critical_density_truck)
        = c.m_flow_cap_truck
    ∧ (c.m_critical_density_car ≤ c.m_perceived_density_car →
        c.get_perceived_demand 1 = c.m_flow_cap_car)
    ∧ (c.m_critical_density_truck ≤ c.m_perceived_density_truck →
        c.get_perceived_demand 2 = c.m_flow_cap_truck)
    ∧ (0 ≤ a.number_of_lane → c.m_perceived_density_car ≤ c.m_critical_density_car →
        c.get_perceived_supply 1 = c.m_flow_cap_car)
    ∧ (0 ≤ a.number_of_lane → c.m_perceived_density_truck ≤ c.m_critical_density_truck →
        c.get_perceived_supply 2 = c.m_flow_cap_truck) := by
  have hlm := construct_eq_ok hl
  have e1 : l.m_lane_critical_density_car = clamped_flow_cap_car a / a.ffs_car := by
    rw [hlm]; rfl
  have e2 : l.m_lane_critical_density_truck = clamped_flow_cap_truck a / a.ffs_truck := by
    rw [hlm]; rfl
  have e3 : l.m_lane_hold_cap_car = clamped_hold_cap_car a := by rw [hlm]; rfl
  have e4 : l.m_lane_hold_cap_truck = clamped_hold_cap_truck a := by rw [hlm]; rfl
  rw [e1] at hcc
  rw [e1, e3] at hjc
  rw [e2] at hct
  rw [e2, e4] at hjt
  obtain ⟨hfc0, hft0⟩ := construct_ok_flow_cap_nonneg hl
  obtain ⟨hFc, hsc⟩ := pos_of_div_pos (clamped_flow_cap_car_nonneg hfc0) hcc
  have hft0' : 0 ≤ clamped_flow_cap_truck a := hft0
  obtain ⟨hFt, hst⟩ := pos_of_div_pos hft0' hct
  obtain ⟨-, -, -, ehc, eht, ecc, ect, -, efc, eft, esc, est, ewc, ewt⟩ := hcal
  obtain ⟨nhc, nht, ncc, nct, nfc, nft, nsc, nst, nwc, nwt⟩ :=
    new_cell_members a u cell_length a.unit_time
  rw [nhc] at ehc
  rw [nht] at eht
  rw [ncc] at ecc
  rw [nct] at ect
  rw [nfc] at efc
  rw [nft] at eft
  rw [nsc] at esc
  rw [nst] at est
  rw [nwc] at ewc
  rw [nwt] at ewt
  have hgc : clamped_hold_cap_car a - clamped_flow_cap_car a / a.ffs_car ≠ 0 :=
    ne_of_gt (sub_pos.mpr hjc)
  have hgt : clamped_hold_cap_truck a - clamped_flow_cap_truck a / a.ffs_truck ≠ 0 :=
    ne_of_gt (sub_pos.mpr hjt)
  have hwc : 0 < c.m_wave_speed_car := by
    rw [ewc]; exact div_pos hFc (sub_pos.mpr hjc)
  have hwt : 0 < c.m_wave_speed_truck := by
    rw [ewt]; exact div_pos hFt (sub_pos.mpr hjt)
  have i1 : c.m_wave_speed_car * (c.m_hold_cap_car - c.m_critical_density_car)
      = c.m_flow_cap_car := by
    rw [ewc, ehc, ecc, efc, ← mul_sub, ← mul_assoc, mul_comm _ (a.number_of_lane : ℚ),
      mul_assoc, div_mul_cancel₀ _ hgc]
  have i2 : c.m_wave_speed_truck * (c.m_hold_cap_truck - c.m_critical_density_truck)
      = c.m_flow_cap_truck := by
    rw [ewt, eht, ect, eft, ← mul_sub, ← mul_assoc, mul_comm _ (a.number_of_lane : ℚ),
      mul_assoc, div_mul_cancel₀ _ hgt]
  have k1 : c.m_ffs_car * c.m_critical_density_car = c.m_flow_cap_car := by
    rw [esc, ecc, efc]
    field_simp
  have k2 : c.m_ffs_truck * c.m_critical_density_truck = c.m_flow_cap_truck := by
    rw [est, ect, eft]
    field_simp
  have hsc' : 0 < c.m_ffs_car := by rw [esc]; exact hsc
  have hst' : 0 < c.m_ffs_truck := by rw [est]; exact hst
  refine ⟨i1, i2, ?_, ?_, ?_, ?_⟩
  · intro hge
    unfold get_perceived_demand
    rw [if_pos rfl]
    apply min_eq_left
    rw [← k1]
    exact mul_le_mul_of_nonneg_left hge (le_of_lt hsc')
  · intro hge
    unfold get_perceived_demand
    rw [if_neg (by decide)]
    apply min_eq_left
    rw [← k2]
    exact mul_le_mul_of_nonneg_left hge (le_of_lt hst')
  · intro hN hle
    have hN' : (0 : ℚ) ≤ (a.number_of_lane : ℚ) := by exact_mod_cast hN
    have hfc : 0 ≤ c.m_flow_cap_car := by
      rw [efc]; exact mul_nonneg hN' (le_of_lt hFc)
    unfold get_perceived_supply
    simp only [if_pos]
    have hmin : min c.m_flow_cap_car
        (c.m_wave_speed_car * (c.m_hold_cap_car - c.m_perceived_density_car))
        = c.m_flow_cap_car := by
      apply min_eq_left
      rw [← i1]
      apply mul_le_mul_of_nonneg_left _ (le_of_lt hwc)
      linarith
    rw [hmin]
    exact max_eq_right hfc
  · intro hN hle
    have hN' : (0 : ℚ) ≤ (a.number_of_lane : ℚ) := by exact_mod_cast hN
    have hfc : 0 ≤ c.m_flow_cap_truck := by
      rw [eft]; exact mul_nonneg hN' (le_of_lt hFt)
    unfold get_perceived_supply
    simp only [show ¬ ((2 : ℤ) = 1) by decide, if_false]
    have hmin : min c.m_flow_cap_truck
        (c.m_wave_speed_truck * (c.m_hold_cap_truck - c.m_perceived_density_truck))
        = c.m_flow_cap_truck := by
      apply min_eq_left
      rw [← i2]
      apply mul_le_mul_of_nonneg_left _ (le_of_lt hwt)
      linarith
    rw [hmin]
    exact max_eq_right hfc

theorem triangular_diagram_witness :
    (example_cell 7 2).update_perceived_density.m_wave_speed_car
        * ((example_cell 7 2).update_perceived_density.m_hold_cap_car
            - (example_cell 7 2).update_perceived_density.m_critical_density_car)
      = (example_cell 7 2).update_perceived_density.m_flow_cap_car
    ∧ (example_cell 7 2).update_perceived_density.get_perceived_demand 1
      = (example_cell 7 2).update_perceived_density.m_flow_cap_car
    ∧ (example_cell 7 2).update_perceived_density.get_perceived_supply 2
      = (example_cell 7 2).update_perceived_density.m_flow_cap_truck := by
  have h := triangular_diagram example_args example_unassigned example_link
    (example_cell 7 2).update_perceived_density (std_cell_length example_args)
    (by norm_num [construct, example_args, example_link])
    (by
      norm_num [example_link, init_cell_array, members, example_args,
        clamped_hold_cap_car, clamped_flow_cap_car])
    (by
      norm_num [example_link, init_cell_array, members, example_args,
        clamped_flow_cap_car])
    (by
      norm_num [example_link, init_cell_array, members, example_args,
        clamped_hold_cap_truck, clamped_flow_cap_truck])
    (by
      norm_num [example_link, init_cell_array, members, example_args,
        clamped_flow_cap_truck])
    (update_same_calibration (example_cell 7 2))
  have hpd : (example_cell 7 2).update_perceived_density.m_critical_density_car
        ≤ (example_cell 7 2).update_perceived_density.m_perceived_density_car
      ∧ (example_cell 7 2).update_perceived_density.m_perceived_density_truck
        ≤ (example_cell 7 2).update_perceived_density.m_critical_density_truck := by
    rw [example_cell_values]
    norm_num [update_perceived_density, free_flow_cond, semi_congested_cond, density_car,
      density_truck, Ctm_Cell_Multiclass.init]
  exact ⟨h.1, h.2.2.1 hpd.1, h.2.2.2.2.2 (by norm_num [example_args]) hpd.2⟩

/-! ### The car queues and the truck queues during `evolve` -/

/-- Replacing a cell by one with the same queue keeps the sequence of queued
vehicles. -/
theorem queue_line_set (queue : Ctm_Cell_Multiclass → List MNM_Veh) :
    ∀ (cells : List Ctm_Cell_Multiclass) (k : ℕ) (c d : Ctm_Cell_Multiclass),
      cells.get? k = some c → queue d = queue c →
      queue_line queue (cells.set k d) = queue_line queue cells := by
  intro cells
  induction cells with
  | nil => intro k c d h; simp at h
  | cons x xs ih =>
    intro k c d h hq
    cases k with
    | zero =>
      simp only [List.get?_cons_zero, Option.some.injEq] at h
      subst h
      simp only [List.set_cons_zero, queue_line, hq]
    | succ k =>
      simp only [List.get?_cons_succ] at h
      simp only [List.set_cons_succ, queue_line]
      rw [ih k c d h hq]

/-- Moving vehicles from the front of the queue of cell `k` to the back of the
queue of cell `k + 1` keeps the sequence of queued vehicles. -/
theorem queue_line_set_pair (queue : Ctm_Cell_Multiclass → List MNM_Veh) :
    ∀ (cells : List Ctm_Cell_Multiclass) (k : ℕ) (c n c' n' : Ctm_Cell_Multiclass),
      cells.get? k = some c → cells.get? (k + 1) = some n →
      queue n' ++ queue c' = queue n ++ queue c →
      queue_line queue ((cells.set k c').set (k + 1) n') = queue_line queue cells := by
  intro cells
  induction cells with
  | nil => intro k c n c' n' h; simp at h
  | cons x xs ih =>
    intro k c n c' n' h hn hq
    cases k with
    | zero =>
      simp only [List.get?_cons_zero, Option.some.injEq] at h
      subst h
      cases xs with
      | nil => simp at hn
      | cons y ys =>
        simp only [zero_add, List.get?_cons_succ, List.get?_cons_zero,
          Option.some.injEq] at hn
        subst hn
        simp only [List.set_cons_zero, zero_add, List.set_cons_succ, queue_line,
          List.append_assoc, hq]
    | succ k =>
      simp only [List.get?_cons_succ] at h hn
      simp only [List.set_cons_succ, queue_line]
      rw [ih k c n c' n' h hn hq]

theorem queue_line_set_cell (queue : Ctm_Cell_Multiclass → List MNM_Veh)
    {cells : List Ctm_Cell_Multiclass} {i : ℤ} {c d : Ctm_Cell_Multiclass}
    (h : cell_at cells i = Step.ok c) (hq : queue d = queue c) :
    queue_line queue (set_cell cells i d) = queue_line queue cells :=
  queue_line_set queue cells i.toNat c d (cell_at_eq_ok h).2 hq

theorem move_veh_queue_append {from_queue to_queue : List MNM_Veh} {k : ℤ}
    {r : List MNM_Veh × List MNM_Veh}
    (h : move_veh_queue from_queue to_queue k = Step.ok r) :
    r.2 ++ r.1 = to_queue ++ from_queue := by
  unfold move_veh_queue at h
  split_ifs at h with hle
  injection h with h
  rw [← h]
  simp only [List.append_assoc, List.take_append_drop]

theorem update_queues (c : Ctm_Cell_Multiclass) :
    c.update_perceived_density.m_veh_queue_car = c.m_veh_queue_car
    ∧ c.update_perceived_density.m_veh_queue_truck = c.m_veh_queue_truck := by
  unfold update_perceived_density
  split_ifs <;> exact ⟨rfl, rfl⟩

/-- The first loop body of `evolve` keeps the sequence of queued cars and the
sequence of queued trucks. -/
theorem move_body_lines (i : ℤ) (cells cells' : List Ctm_Cell_Multiclass)
    (h : move_body i cells = Step.ok cells') :
    queue_line (fun c => c.m_veh_queue_car) cells'
        = queue_line (fun c => c.m_veh_queue_car) cells
    ∧ queue_line (fun c => c.m_veh_queue_truck) cells'
        = queue_line (fun c => c.m_veh_queue_truck) cells := by
  unfold move_body at h
  obtain ⟨c, hc, h⟩ := Step.bind_eq_ok h
  obtain ⟨n, hn, h⟩ := Step.bind_eq_ok h
  obtain ⟨qc, hqc, h⟩ := Step.bind_eq_ok h
  obtain ⟨qt, hqt, h⟩ := Step.bind_eq_ok h
  injection h with h
  obtain ⟨hi0, hi⟩ := cell_at_eq_ok hc
  obtain ⟨-, hn'⟩ := cell_at_eq_ok hn
  have hidx : (i + 1).toNat = i.toNat + 1 := by omega
  rw [hidx] at hn'
  rw [← h]
  unfold set_cell
  rw [hidx]
  exact ⟨queue_line_set_pair _ cells i.toNat c n _ _ hi hn' (move_veh_queue_append hqc),
    queue_line_set_pair _ cells i.toNat c n _ _ hi hn' (move_veh_queue_append hqt)⟩

/-- One call of `evolve` that succeeds keeps, exactly and in order, the sequence
of vehicles in the car queues and the sequence of vehicles in the truck queues:
no vehicle leaves them or changes class, also in the terminal cell. -/
theorem evolve_lines (round : ℚ → ℤ) (k : ℤ) (l l' : MNM_Dlink_Ctm_Multiclass)
    (h : evolve round k l = Step.ok l') :
    queue_line (fun c => c.m_veh_queue_car) l'.m_cell_array
        = queue_line (fun c => c.m_veh_queue_car) l.m_cell_array
    ∧ queue_line (fun c => c.m_veh_queue_truck) l'.m_cell_array
        = queue_line (fun c => c.m_veh_queue_truck) l.m_cell_array := by
  unfold evolve at h
  obtain ⟨l1, h1, h⟩ := Step.bind_eq_ok h
  obtain ⟨cells2, h2, h⟩ := Step.bind_eq_ok h
  obtain ⟨l3, h3, h⟩ := Step.bind_eq_ok h
  obtain ⟨cells4, h4, h⟩ := Step.bind_eq_ok h
  obtain ⟨last4, hlast4, h⟩ := Step.bind_eq_ok h
  injection h with h
  -- `update_out_veh`
  unfold update_out_veh at h1
  obtain ⟨cells1, hcells1, h1⟩ := Step.bind_eq_ok h1
  obtain ⟨last1, hlast1, h1⟩ := Step.bind_eq_ok h1
  injection h1 with h1
  have body1 : ∀ (q : Ctm_Cell_Multiclass → List MNM_Veh),
      (∀ c n, q (schedule_out_veh round l.m_unit_time l.m_flow_scalar c n) = q c) →
      ∀ i s s', update_out_veh_body round l.m_unit_time l.m_flow_scalar i s = Step.ok s' →
        queue_line q s' = queue_line q s := by
    intro q hq i s s' hb
    unfold update_out_veh_body at hb
    obtain ⟨c, hc, hb⟩ := Step.bind_eq_ok hb
    obtain ⟨n, -, hb⟩ := Step.bind_eq_ok hb
    injection hb with hb
    rw [← hb]
    exact queue_line_set_cell q hc (hq c n)
  have a1 : ∀ (q : Ctm_Cell_Multiclass → List MNM_Veh),
      (∀ c n, q (schedule_out_veh round l.m_unit_time l.m_flow_scalar c n) = q c) →
      queue_line q cells1 = queue_line q l.m_cell_array := by
    intro q hq
    split_ifs at hcells1
    · exact for_loop_invariant _ (queue_line q) (body1 q hq) _ _ _ _ hcells1
    · injection hcells1 with hcells1
      rw [hcells1]
  have b1 : ∀ (q : Ctm_Cell_Multiclass → List MNM_Veh),
      (∀ c n, q (schedule_out_veh round l.m_unit_time l.m_flow_scalar c n) = q c) →
      (∀ (c : Ctm_Cell_Multiclass) (x y : ℤ),
        q { c with m_out_veh_car := x, m_out_veh_truck := y } = q c) →
      queue_line q l1.m_cell_array = queue_line q l.m_cell_array := by
    intro q hq hq'
    rw [← h1]
    show queue_line q (set_cell cells1 (l.m_num_cells - 1) _) = _
    rw [queue_line_set_cell q hlast1 (hq' last1 _ _), a1 q hq]
  -- the first loop
  have a2 : queue_line (fun c => c.m_veh_queue_car) cells2
        = queue_line (fun c => c.m_veh_queue_car) l1.m_cell_array
      ∧ queue_line (fun c => c.m_veh_queue_truck) cells2
        = queue_line (fun c => c.m_veh_queue_truck) l1.m_cell_array := by
    split_ifs at h2
    · exact ⟨for_loop_invariant _ (queue_line fun c => c.m_veh_queue_car)
          (fun i s s' hb => (move_body_lines i s s' hb).1) _ _ _ _ h2,
        for_loop_invariant _ (queue_line fun c => c.m_veh_queue_truck)
          (fun i s s' hb => (move_body_lines i s s' hb).2) _ _ _ _ h2⟩
    · injection h2 with h2
      rw [h2]
      exact ⟨rfl, rfl⟩
  -- `move_last_cell`
  unfold move_last_cell at h3
  obtain ⟨last3, hlast3, h3⟩ := Step.bind_eq_ok h3
  obtain ⟨r, -, h3⟩ := Step.bind_eq_ok h3
  injection h3 with h3
  have a3 : ∀ (q : Ctm_Cell_Multiclass → List MNM_Veh),
      (∀ (c : Ctm_Cell_Multiclass) (x : List MNM_Veh), q { c with m_veh_queue := x } = q c) →
      queue_line q l3.m_cell_array = queue_line q cells2 := by
    intro q hq
    rw [← h3]
    show queue_line q (set_cell cells2 (l1.m_num_cells - 1) _) = _
    exact queue_line_set_cell q hlast3 (hq last3 _)
  -- the second loop
  have body4 : ∀ (q : Ctm_Cell_Multiclass → List MNM_Veh),
      (∀ (c : Ctm_Cell_Multiclass) (x y : ℤ),
        q ({ c with m_volume_car := x, m_volume_truck := y }).update_perceived_density
          = q c) →
      ∀ i s s', update_volume_body i s = Step.ok s' → queue_line q s' = queue_line q s := by
    intro q hq i s s' hb
    unfold update_volume_body at hb
    obtain ⟨c, hc, hb⟩ := Step.bind_eq_ok hb
    injection hb with hb
    rw [← hb]
    exact queue_line_set_cell q hc (hq c _ _)
  have a4 : ∀ (q : Ctm_Cell_Multiclass → List MNM_Veh),
      (∀ (c : Ctm_Cell_Multiclass) (x y : ℤ),
        q ({ c with m_volume_car := x, m_volume_truck := y }).update_perceived_density
          = q c) →
      queue_line q cells4 = queue_line q l3.m_cell_array := by
    intro q hq
    split_ifs at h4
    · exact for_loop_invariant _ (queue_line q) (body4 q hq) _ _ _ _ h4
    · injection h4 with h4
      rw [h4]
  have a5 : ∀ (q : Ctm_Cell_Multiclass → List MNM_Veh),
      (∀ (c : Ctm_Cell_Multiclass) (x y : ℤ),
        q ({ c with m_volume_car := x, m_volume_truck := y }).update_perceived_density
          = q c) →
      queue_line q l'.m_cell_array = queue_line q cells4 := by
    intro q hq
    rw [← h]
    show queue_line q (set_cell cells4 (l3.m_num_cells - 1) _) = _
    exact queue_line_set_cell q hlast4 (hq last4 _ _)
  have car_upd : ∀ (c : Ctm_Cell_Multiclass) (x y : ℤ),
      (fun c : Ctm_Cell_Multiclass => c.m_veh_queue_car)
        ({ c with m_volume_car := x, m_volume_truck := y }).update_perceived_density
        = (fun c : Ctm_Cell_Multiclass => c.m_veh_queue_car) c :=
    fun c x y => (update_queues _).1
  have truck_upd : ∀ (c : Ctm_Cell_Multiclass) (x y : ℤ),
      (fun c : Ctm_Cell_Multiclass => c.m_veh_queue_truck)
        ({ c with m_volume_car := x, m_volume_truck := y }).update_perceived_density
        = (fun c : Ctm_Cell_Multiclass => c.m_veh_queue_truck) c :=
    fun c x y => (update_queues _).2
  constructor
  · rw [a5 (fun c => c.m_veh_queue_car) car_upd, a4 (fun c => c.m_veh_queue_car) car_upd,
      a3 (fun c => c.m_veh_queue_car) (fun _ _ => rfl), a2.1,
      b1 (fun c => c.m_veh_queue_car) (fun _ _ => rfl) (fun _ _ _ => rfl)]
  · rw [a5 (fun c => c.m_veh_queue_truck) truck_upd,
      a4 (fun c => c.m_veh_queue_truck) truck_upd,
      a3 (fun c => c.m_veh_queue_truck) (fun _ _ => rfl), a2.2,
      b1 (fun c => c.m_veh_queue_truck) (fun _ _ => rfl) (fun _ _ _ => rfl)]

/-! ### Sequences of calls on a link whose cells have an empty `m_veh_queue` -/

/-- Replacing an element of a list by one with the same image keeps the list of
images. -/
theorem map_set_same {α β : Type} (f : α → β) :
    ∀ (xs : List α) (k : ℕ) (x y : α), xs.get? k = some x → f y = f x →
      (xs.set k y).map f = xs.map f := by
  intro xs
  induction xs with
  | nil => intro k x y h; simp at h
  | cons a as ih =>
    intro k x y h hf
    cases k with
    | zero =>
      simp only [List.get?_cons_zero, Option.some.injEq] at h
      subst h
      simp only [List.set_cons_zero, List.map_cons, hf]
    | succ k =>
      simp only [List.get?_cons_succ] at h
      simp only [List.set_cons_succ, List.map_cons]
      rw [ih k x y h hf]

theorem map_set_cell {β : Type} (f : Ctm_Cell_Multiclass → β)
    {cells : List Ctm_Cell_Multiclass} {i : ℤ} {c d : Ctm_Cell_Multiclass}
    (h : cell_at cells i = Step.ok c) (hf : f d = f c) :
    (set_cell cells i d).map f = cells.map f :=
  map_set_same f cells i.toNat c d (cell_at_eq_ok h).2 hf

theorem update_veh_queue (c : Ctm_Cell_Multiclass) :
    c.update_perceived_density.m_veh_queue = c.m_veh_queue := by
  unfold update_perceived_density
  split_ifs <;> rfl

/-- The method `update_out_veh` keeps the member `m_veh_queue` of every cell, the
number of cells, and the link members other than the cell array. -/
theorem update_out_veh_veh_queue (round : ℚ → ℤ) (l l' : MNM_Dlink_Ctm_Multiclass)
    (h : update_out_veh round l = Step.ok l') :
    l'.m_cell_array.map (fun c => c.m_veh_queue) = l.m_cell_array.map (fun c => c.m_veh_queue)
    ∧ l'.m_cell_array.length = l.m_cell_array.length := by
  unfold update_out_veh at h
  obtain ⟨cells, hcells, h⟩ := Step.bind_eq_ok h
  obtain ⟨last, hlast, h⟩ := Step.bind_eq_ok h
  injection h with h
  have body : ∀ {β : Type} (f : Ctm_Cell_Multiclass → β),
      (∀ c n, f (schedule_out_veh round l.m_unit_time l.m_flow_scalar c n) = f c) →
      ∀ i s s', update_out_veh_body round l.m_unit_time l.m_flow_scalar i s = Step.ok s' →
        s'.map f = s.map f := by
    intro β f hf i s s' hb
    unfold update_out_veh_body at hb
    obtain ⟨c, hc, hb⟩ := Step.bind_eq_ok hb
    obtain ⟨n, -, hb⟩ := Step.bind_eq_ok hb
    injection hb with hb
    rw [← hb]
    exact map_set_cell f hc (hf c n)
  have hmap : ∀ {β : Type} (f : Ctm_Cell_Multiclass → β),
      (∀ c n, f (schedule_out_veh round l.m_unit_time l.m_flow_scalar c n) = f c) →
      cells.map f = l.m_cell_array.map f := by
    intro β f hf
    split_ifs at hcells
    · exact for_loop_invariant _ (fun cs => cs.map f) (body f hf) _ _ _ _ hcells
    · injection hcells with hcells
      rw [hcells]
  have e1 := hmap (fun c => c.m_veh_queue) (fun _ _ => rfl)
  have e2 := congrArg List.length (hmap (fun _ => ()) (fun _ _ => rfl))
  simp only [List.length_map] at e2
  rw [← h]
  constructor
  · show (set_cell cells (l.m_num_cells - 1) _).map (fun c => c.m_veh_queue) = _
    exact (map_set_cell (fun c => c.m_veh_queue) hlast (by rfl)).trans e1
  · show (set_cell cells (l.m_num_cells - 1) _).length = _
    unfold set_cell
    rw [List.length_set, e2]

theorem move_body_veh_queue (i : ℤ) (cells cells' : List Ctm_Cell_Multiclass)
    (h : move_body i cells = Step.ok cells') :
    cells'.map (fun c => c.m_veh_queue) = cells.map (fun c => c.m_veh_queue)
    ∧ cells'.length = cells.length := by
  unfold move_body at h
  obtain ⟨c, hc, h⟩ := Step.bind_eq_ok h
  obtain ⟨n, hn, h⟩ := Step.bind_eq_ok h
  obtain ⟨qc, hqc, h⟩ := Step.bind_eq_ok h
  obtain ⟨qt, hqt, h⟩ := Step.bind_eq_ok h
  injection h with h
  have hi := cell_at_eq_ok hc
  have hn' := cell_at_eq_ok hn
  have hne : i.toNat ≠ (i + 1).toNat := by omega
  have hn2 : cell_at (set_cell cells i
      { c with m_veh_queue_car := qc.1, m_veh_queue_truck := qt.1 }) (i + 1) = Step.ok n := by
    unfold cell_at set_cell
    rw [if_neg (by omega), List.get?_eq_getElem?, List.getElem?_set_ne hne,
      ← List.get?_eq_getElem?, hn'.2]
  rw [← h]
  constructor
  · exact (map_set_cell (fun c => c.m_veh_queue) hn2 (by rfl)).trans
      (map_set_cell (fun c => c.m_veh_queue) hc (by rfl))
  · unfold set_cell
    rw [List.length_set, List.length_set]

theorem update_volume_body_veh_queue (i : ℤ) (cells cells' : List Ctm_Cell_Multiclass)
    (h : update_volume_body i cells = Step.ok cells') :
    cells'.map (fun c => c.m_veh_queue) = cells.map (fun c => c.m_veh_queue)
    ∧ cells'.length = cells.length := by
  unfold update_volume_body at h
  obtain ⟨c, hc, h⟩ := Step.bind_eq_ok h
  injection h with h
  rw [← h]
  constructor
  · exact map_set_cell (fun c => c.m_veh_queue) hc (update_veh_queue _)
  · unfold set_cell
    rw [List.length_set]

/-- The loop of `move_last_cell` returns from an empty queue only when it has
nothing to move, and changes nothing then. -/
theorem move_last_cell_loop_nil_ok {k : ℕ} {finished : List MNM_Veh}
    {r : List MNM_Veh × List MNM_Veh}
    (h : move_last_cell_loop k [] finished = Step.ok r) : k = 0 ∧ r = ([], finished) := by
  cases k with
  | zero =>
    simp only [move_last_cell_loop] at h
    injection h with h
    exact ⟨rfl, h.symm⟩
  | succ k => simp [move_last_cell_loop] at h

/-- Every cell has an empty `m_veh_queue`, as the cell constructor leaves it. -/
theorem veh_queue_empty_of_map {cells cells' : List Ctm_Cell_Multiclass}
    (h : cells'.map (fun c => c.m_veh_queue) = cells.map (fun c => c.m_veh_queue))
    (hmq : ∀ c ∈ cells, c.m_veh_queue = []) : ∀ c ∈ cells', c.m_veh_queue = [] := by
  intro c hc
  have hm : c.m_veh_queue ∈ cells'.map (fun c => c.m_veh_queue) :=
    List.mem_map_of_mem (fun c => c.m_veh_queue) hc
  rw [h] at hm
  obtain ⟨d, hd, hdc⟩ := List.mem_map.mp hm
  rw [← hdc]
  exact hmq d hd

/-- One call of `evolve` that succeeds on a link whose cells have an empty
`m_veh_queue` has moved nothing into the finished array, and leaves every
`m_veh_queue` empty, the number of cells and the link members other than the
cell array. -/
theorem evolve_finished (round : ℚ → ℤ) (k : ℤ) (l l' : MNM_Dlink_Ctm_Multiclass)
    (hmq : ∀ c ∈ l.m_cell_array, c.m_veh_queue = [])
    (h : evolve round k l = Step.ok l') :
    l'.m_finished_array = l.m_finished_array
    ∧ (∀ c ∈ l'.m_cell_array, c.m_veh_queue = [])
    ∧ l'.m_cell_array.length = l.m_cell_array.length
    ∧ l'.m_num_cells = l.m_num_cells := by
  unfold evolve at h
  obtain ⟨l1, h1, h⟩ := Step.bind_eq_ok h
  obtain ⟨cells2, h2, h⟩ := Step.bind_eq_ok h
  obtain ⟨l3, h3, h⟩ := Step.bind_eq_ok h
  obtain ⟨cells4, h4, h⟩ := Step.bind_eq_ok h
  obtain ⟨last4, hlast4, h⟩ := Step.bind_eq_ok h
  injection h with h
  obtain ⟨a1, n1⟩ := update_out_veh_veh_queue round l l1 h1
  obtain ⟨-, f1, -, c1⟩ := update_out_veh_queued round l l1 h1
  have a2 : cells2.map (fun c => c.m_veh_queue) = l1.m_cell_array.map (fun c => c.m_veh_queue)
      ∧ cells2.length = l1.m_cell_array.length := by
    split_ifs at h2
    · exact ⟨for_loop_invariant _ (fun cs => cs.map fun c => c.m_veh_queue)
          (fun i s s' hb => (move_body_veh_queue i s s' hb).1) _ _ _ _ h2,
        for_loop_invariant _ (fun cs => cs.length)
          (fun i s s' hb => (move_body_veh_queue i s s' hb).2) _ _ _ _ h2⟩
    · injection h2 with h2
      rw [h2]
      exact ⟨rfl, rfl⟩
  have hmq2 : ∀ c ∈ cells2, c.m_veh_queue = [] :=
    veh_queue_empty_of_map (a2.1.trans a1) hmq
  unfold move_last_cell at h3
  obtain ⟨last3, hlast3, h3⟩ := Step.bind_eq_ok h3
  obtain ⟨r, hr, h3⟩ := Step.bind_eq_ok h3
  injection h3 with h3
  have hl3 : last3.m_veh_queue = [] :=
    hmq2 last3 (List.get?_mem (cell_at_eq_ok hlast3).2)
  rw [hl3] at hr
  obtain ⟨-, hr⟩ := move_last_cell_loop_nil_ok hr
  have f3 : l3.m_finished_array = l.m_finished_array := by
    rw [← h3, hr]
    exact f1
  have a3 : l3.m_cell_array.map (fun c => c.m_veh_queue)
        = cells2.map (fun c => c.m_veh_queue)
      ∧ l3.m_cell_array.length = cells2.length := by
    rw [← h3, hr]
    constructor
    · exact map_set_cell (fun c => c.m_veh_queue) hlast3 (by exact hl3.symm)
    · show (set_cell cells2 _ _).length = _
      unfold set_cell
      rw [List.length_set]
  have c3 : l3.m_num_cells = l.m_num_cells := by
    rw [← h3]
    exact c1
  have a4 : cells4.map (fun c => c.m_veh_queue) = l3.m_cell_array.map (fun c => c.m_veh_queue)
      ∧ cells4.length = l3.m_cell_array.length := by
    split_ifs at h4
    · exact ⟨for_loop_invariant _ (fun cs => cs.map fun c => c.m_veh_queue)
          (fun i s s' hb => (update_volume_body_veh_queue i s s' hb).1) _ _ _ _ h4,
        for_loop_invariant _ (fun cs => cs.length)
          (fun i s s' hb => (update_volume_body_veh_queue i s s' hb).2) _ _ _ _ h4⟩
    · injection h4 with h4
      rw [h4]
      exact ⟨rfl, rfl⟩
  have a5 : l'.m_cell_array.map (fun c => c.m_veh_queue)
        = cells4.map (fun c => c.m_veh_queue)
      ∧ l'.m_cell_array.length = cells4.length := by
    rw [← h]
    constructor
    · exact map_set_cell (fun c => c.m_veh_queue) hlast4 (by exact update_veh_queue _)
    · show (set_cell cells4 _ _).length = _
      unfold set_cell
      rw [List.length_set]
  refine ⟨?_, ?_, ?_, ?_⟩
  · rw [← h]
    exact f3
  · exact veh_queue_empty_of_map
      (a5.1.trans (a4.1.trans (a3.1.trans (a2.1.trans a1)))) hmq
  · rw [a5.2, a4.2, a3.2, a2.2, n1]
  · rw [← h]
    exact c3

/-- On a link whose cells have an empty `m_veh_queue`, the vehicles held are those
of the car queues, of the truck queues and of the finished array. -/
theorem vehicles_held_eq_per_class (l : MNM_Dlink_Ctm_Multiclass)
    (hmq : ∀ c ∈ l.m_cell_array, c.m_veh_queue = []) :
    l.vehicles_held = l.per_class_held := by
  unfold vehicles_held per_class_held
  congr 2
  apply List.map_congr_left
  intro c hc
  unfold queued
  rw [hmq c hc]
  simp

/-- One call of `clear_incoming_array` returns only on an empty incoming queue,
and changes neither a car queue, a truck queue, a per-class volume, the
finished array, nor the contents of a `m_veh_queue`. -/
theorem clear_incoming_array_ok (l l' : MNM_Dlink_Ctm_Multiclass)
    (h : clear_incoming_array l = Step.ok l') :
    l.m_incoming_array = [] ∧ l'.m_incoming_array = []
    ∧ l'.m_finished_array = l.m_finished_array
    ∧ l'.per_class_held = l.per_class_held
    ∧ l'.m_cell_array.map (fun c => c.m_veh_queue)
        = l.m_cell_array.map (fun c => c.m_veh_queue)
    ∧ l'.m_num_cells = l.m_num_cells
    ∧ l'.m_cell_array.length = l.m_cell_array.length
    ∧ (l.volumes_agree → l'.volumes_agree) := by
  have hin : l.m_incoming_array = [] := by
    by_contra hne
    rw [clear_incoming_array_exit_of_nonempty l hne] at h
    cases h
  unfold clear_incoming_array at h
  split_ifs at h
  obtain ⟨c0, hc0, h⟩ := Step.bind_eq_ok h
  obtain ⟨q, hq, h⟩ := Step.bind_eq_ok h
  injection h with h
  rw [hin] at hq
  have hq' : q = ([], c0.m_veh_queue) := by
    unfold move_veh_queue at hq
    simp at hq
    exact hq.symm
  rw [← h, hq']
  refine ⟨hin, rfl, rfl, ?_, ?_, rfl, ?_, ?_⟩
  · unfold per_class_held
    congr 2
    exact map_set_cell
      (fun c : Ctm_Cell_Multiclass =>
        (c.m_veh_queue_car.length : ℤ) + (c.m_veh_queue_truck.length : ℤ)) hc0 (by rfl)
  · exact map_set_cell (fun c => c.m_veh_queue) hc0 (by rfl)
  · show (set_cell l.m_cell_array 0 _).length = _
    unfold set_cell
    rw [List.length_set]
  · intro hv c hc
    have hc' : c ∈ l.m_cell_array.set (0 : ℤ).toNat
        { c0 with m_veh_queue := c0.m_veh_queue, m_volume := (c0.m_veh_queue.length : ℤ) } := hc
    rcases List.mem_or_eq_of_mem_set hc' with hm | he
    · exact hv c hm
    · rw [he]
      exact hv c0 (List.get?_mem (cell_at_eq_ok hc0).2)

/-- A loop whose body returns on every state that satisfies an invariant, and
keeps the invariant, returns. -/
theorem for_loop_ok {σ : Type} (body : ℤ → σ → Step σ) (P : ℕ → σ → Prop) (hi : ℕ)
    (hstep : ∀ (i : ℕ) (s : σ), i < hi → P i s →
      ∃ s', body (i : ℤ) s = Step.ok s' ∧ P (i + 1) s') :
    ∀ (count start : ℕ) (s : σ), start + count ≤ hi → P start s →
      ∃ s', for_loop body count (start : ℤ) s = Step.ok s' ∧ P (start + count) s' := by
  intro count
  induction count with
  | zero =>
    intro start s _ hP
    exact ⟨s, rfl, hP⟩
  | succ k ih =>
    intro start s hle hP
    obtain ⟨s1, h1, hP1⟩ := hstep start s (by omega) hP
    obtain ⟨s2, h2, hP2⟩ := ih (start + 1) s1 (by omega) hP1
    refine ⟨s2, ?_, ?_⟩
    · simp only [for_loop, h1, Step.bind]
      have hc : ((start : ℤ) + 1) = ((start + 1 : ℕ) : ℤ) := by push_cast; ring
      rw [hc]
      exact h2
    · have : start + (k + 1) = start + 1 + k := by omega
      rw [this]
      exact hP2

theorem cell_at_ok {cells : List Ctm_Cell_Multiclass} {i : ℕ} (h : i < cells.length) :
    ∃ c, cell_at cells (i : ℤ) = Step.ok c ∧ cells.get? i = some c := by
  refine ⟨cells.get ⟨i, h⟩, ?_, List.get?_eq_get h⟩
  unfold cell_at
  rw [if_neg (by omega), Int.toNat_ofNat, List.get?_eq_get h]

theorem cell_at_last_ok {cells : List Ctm_Cell_Multiclass} {n : ℤ} (hn : 1 ≤ n)
    (hlen : (cells.length : ℤ) = n) : ∃ c, cell_at cells (n - 1) = Step.ok c := by
  have h : (n - 1).toNat < cells.length := by omega
  obtain ⟨c, hc, -⟩ := cell_at_ok h
  have e : (((n - 1).toNat : ℕ) : ℤ) = n - 1 := Int.toNat_of_nonneg (by omega)
  rw [e] at hc
  exact ⟨c, hc⟩

/-- On a link whose cell array holds `m_num_cells ≥ 1` cells, `update_out_veh`
returns. -/
theorem update_out_veh_ok (round : ℚ → ℤ) (l : MNM_Dlink_Ctm_Multiclass)
    (hn : 1 ≤ l.m_num_cells) (hlen : (l.m_cell_array.length : ℤ) = l.m_num_cells) :
    ∃ l1, update_out_veh round l = Step.ok l1 := by
  have hloop : ∃ cells,
      (if l.m_num_cells > 1 then
        for_loop (update_out_veh_body round l.m_unit_time l.m_flow_scalar)
          (l.m_num_cells - 1).toNat 0 l.m_cell_array
       else Step.ok l.m_cell_array) = Step.ok cells
      ∧ cells.length = l.m_cell_array.length := by
    split_ifs with hgt
    · have := for_loop_ok (update_out_veh_body round l.m_unit_time l.m_flow_scalar)
        (fun _ cells => cells.length = l.m_cell_array.length) (l.m_num_cells - 1).toNat
        (by
          intro i s hi hs
          obtain ⟨c, hc, hc'⟩ := cell_at_ok (show i < s.length by omega)
          obtain ⟨n, hn', hn''⟩ := cell_at_ok (show i + 1 < s.length by omega)
          refine ⟨_, update_out_veh_body_eq round _ _ i s c n hc' hn'', ?_⟩
          show (s.set i _).length = _
          rw [List.length_set]
          exact hs)
        (l.m_num_cells - 1).toNat 0 l.m_cell_array (by omega) rfl
      obtain ⟨cells, h1, h2⟩ := this
      exact ⟨cells, h1, h2⟩
    · exact ⟨_, rfl, rfl⟩
  obtain ⟨cells, h1, h2⟩ := hloop
  obtain ⟨last, hlast⟩ := cell_at_last_ok hn (show (cells.length : ℤ) = l.m_num_cells by
    rw [h2]; exact hlen)
  unfold update_out_veh
  rw [h1]
  simp only [Step.bind, hlast]
  exact ⟨_, rfl⟩

theorem move_veh_queue_ok {from_queue to_queue : List MNM_Veh} {k : ℤ}
    (h : k ≤ (from_queue.length : ℤ)) :
    move_veh_queue from_queue to_queue k
      = Step.ok (from_queue.drop k.toNat, to_queue ++ from_queue.take k.toNat) := by
  unfold move_veh_queue
  rw [if_pos (by omega)]

/-- The first loop body of `evolve` on cells `i` and `i + 1` that exist, when the
scheduled outflows of cell `i` do not exceed its queues. -/
theorem move_body_eq (i : ℕ) (cells : List Ctm_Cell_Multiclass) (c n : Ctm_Cell_Multiclass)
    (hc : cells.get? i = some c) (hn : cells.get? (i + 1) = some n)
    (hout : c.out_veh_within_queue) :
    move_body (i : ℤ) cells
      = Step.ok ((cells.set i
          { c with
            m_veh_queue_car := c.m_veh_queue_car.drop c.m_out_veh_car.toNat
            m_veh_queue_truck := c.m_veh_queue_truck.drop c.m_out_veh_truck.toNat }).set (i + 1)
          { n with
            m_veh_queue_car := n.m_veh_queue_car ++ c.m_veh_queue_car.take c.m_out_veh_car.toNat
            m_veh_queue_truck :=
              n.m_veh_queue_truck ++ c.m_veh_queue_truck.take c.m_out_veh_truck.toNat }) := by
  have h1 : cell_at cells (i : ℤ) = Step.ok c := by
    unfold cell_at
    rw [if_neg (by omega), Int.toNat_ofNat, hc]
  have h2 : cell_at cells ((i : ℤ) + 1) = Step.ok n := by
    unfold cell_at
    have : ((i : ℤ) + 1).toNat = i + 1 := by omega
    rw [if_neg (by omega), this, hn]
  have e : ((i : ℤ) + 1).toNat = i + 1 := by omega
  unfold move_body
  rw [h1, h2]
  simp only [Step.bind, move_veh_queue_ok hout.1, move_veh_queue_ok hout.2, set_cell,
    Int.toNat_ofNat, e]

/-- The first loop of `evolve` returns when the cell array holds one cell more
than the loop count and the scheduled outflows of the cells that the loop
empties do not exceed their queues. -/
theorem move_loop_ok (cells : List Ctm_Cell_Multiclass) (m : ℕ)
    (hlen : cells.length = m + 1)
    (hout : ∀ c ∈ cells.take m, c.out_veh_within_queue) :
    ∃ cells', for_loop move_body m 0 cells = Step.ok cells' ∧ cells'.length = m + 1 := by
  have := for_loop_ok move_body
    (fun i (s : List Ctm_Cell_Multiclass) => s.length = m + 1
      ∧ ∀ (j : ℕ) (c : Ctm_Cell_Multiclass), i ≤ j → j < m → s.get? j = some c →
          c.out_veh_within_queue) m
    (by
      intro i s hi hs
      obtain ⟨hl, hq⟩ := hs
      obtain ⟨c, -, hc⟩ := cell_at_ok (show i < s.length by omega)
      obtain ⟨n, -, hn⟩ := cell_at_ok (show i + 1 < s.length by omega)
      have hcq := hq i c (le_refl i) hi hc
      refine ⟨_, move_body_eq i s c n hc hn hcq, ?_, ?_⟩
      · show ((s.set i _).set (i + 1) _).length = m + 1
        rw [List.length_set, List.length_set]
        exact hl
      · intro j d hij hjm hd
        show d.out_veh_within_queue
        by_cases hj : j = i + 1
        · subst hj
          rw [List.get?_eq_getElem?, List.getElem?_set_self (by
            rw [List.length_set]; omega)] at hd
          injection hd with hd
          have hnq := hq (i + 1) n (by omega) hjm hn
          rw [← hd]
          unfold out_veh_within_queue at hnq ⊢
          simp only [List.length_append]
          push_cast
          constructor
          · have := hnq.1; omega
          · have := hnq.2; omega
        · rw [List.get?_eq_getElem?, List.getElem?_set_ne (by omega),
            List.getElem?_set_ne (by omega), ← List.get?_eq_getElem?] at hd
          exact hq j d (by omega) hjm hd)
    m 0 cells (by omega)
    ⟨hlen, by
      intro j c _ hjm hc
      apply hout
      have : (cells.take m).get? j = some c := by
        rw [List.get?_eq_getElem?, List.getElem?_take_of_lt hjm, ← List.get?_eq_getElem?, hc]
      exact List.get?_mem this⟩
  obtain ⟨cells', h1, h2, -⟩ := this
  refine ⟨cells', ?_, ?_⟩
  · simpa using h1
  · simpa using h2

theorem update_volume_body_eq (i : ℕ) (cells : List Ctm_Cell_Multiclass)
    (c : Ctm_Cell_Multiclass) (hc : cells.get? i = some c) :
    update_volume_body (i : ℤ) cells
      = Step.ok (cells.set i
          ({ c with
              m_volume_car := (c.m_veh_queue_car.length : ℤ)
              m_volume_truck := (c.m_veh_queue_truck.length : ℤ) }
            ).update_perceived_density) := by
  have h1 : cell_at cells (i : ℤ) = Step.ok c := by
    unfold cell_at
    rw [if_neg (by omega), Int.toNat_ofNat, hc]
  unfold update_volume_body
  rw [h1]
  simp only [Step.bind, set_cell, Int.toNat_ofNat]

/-- After its perceived densities are recomputed, a cell whose volumes were set to
the lengths of its queues still has them so. -/
theorem update_volumes_agree (c : Ctm_Cell_Multiclass) (x y : ℤ)
    (hx : x = (c.m_veh_queue_car.length : ℤ)) (hy : y = (c.m_veh_queue_truck.length : ℤ)) :
    ({ c with m_volume_car := x, m_volume_truck := y }).update_perceived_density.m_volume_car
        = (({ c with m_volume_car := x, m_volume_truck := y }
            ).update_perceived_density.m_veh_queue_car.length : ℤ)
    ∧ ({ c with m_volume_car := x, m_volume_truck := y }
          ).update_perceived_density.m_volume_truck
        = (({ c with m_volume_car := x, m_volume_truck := y }
            ).update_perceived_density.m_veh_queue_truck.length : ℤ) := by
  rw [(update_volume _).1, (update_volume _).2, (update_queues _).1, (update_queues _).2]
  exact ⟨hx, hy⟩

/-- The second loop of `evolve` returns when the cell array holds at least as many
cells as the loop count; the cells that it has visited have volumes equal to
the lengths of their queues, and the others are untouched. -/
theorem update_volume_loop_ok (cells : List Ctm_Cell_Multiclass) (m : ℕ)
    (hlen : m ≤ cells.length) :
    ∃ cells', for_loop update_volume_body m 0 cells = Step.ok cells'
      ∧ cells'.length = cells.length
      ∧ (∀ (j : ℕ) (c : Ctm_Cell_Multiclass), j < m → cells'.get? j = some c →
          c.m_volume_car = (c.m_veh_queue_car.length : ℤ)
            ∧ c.m_volume_truck = (c.m_veh_queue_truck.length : ℤ))
      ∧ (∀ j : ℕ, m ≤ j → cells'.get? j = cells.get? j) := by
  have := for_loop_ok update_volume_body
    (fun i (s : List Ctm_Cell_Multiclass) => s.length = cells.length
      ∧ (∀ (j : ℕ) (c : Ctm_Cell_Multiclass), j < i → s.get? j = some c →
          c.m_volume_car = (c.m_veh_queue_car.length : ℤ)
            ∧ c.m_volume_truck = (c.m_veh_queue_truck.length : ℤ))
      ∧ (∀ j : ℕ, i ≤ j → s.get? j = cells.get? j)) m
    (by
      intro i s hi hs
      obtain ⟨hl, hdone, hrest⟩ := hs
      obtain ⟨c, -, hc⟩ := cell_at_ok (show i < s.length by omega)
      refine ⟨_, update_volume_body_eq i s c hc, ?_, ?_, ?_⟩
      · show (s.set i _).length = cells.length
        rw [List.length_set]
        exact hl
      · intro j d hj hd
        by_cases hji : j = i
        · subst hji
          rw [List.get?_eq_getElem?, List.getElem?_set_self (by omega)] at hd
          injection hd with hd
          rw [← hd]
          exact update_volumes_agree c _ _ rfl rfl
        · rw [List.get?_eq_getElem?, List.getElem?_set_ne (by omega),
            ← List.get?_eq_getElem?] at hd
          exact hdone j d (by omega) hd
      · intro j hj
        show (s.set i _).get? j = cells.get? j
        rw [List.get?_eq_getElem?, List.getElem?_set_ne (by omega), ← List.get?_eq_getElem?]
        exact hrest j (by omega))
    m 0 cells (by omega) ⟨rfl, fun j c hj => absurd hj (by omega), fun j _ => rfl⟩
  obtain ⟨cells', h1, h2, h3, h4⟩ := this
  refine ⟨cells', by simpa using h1, h2, ?_, ?_⟩
  · intro j c hj hc
    exact h3 j c (by omega) hc
  · intro j hj
    exact h4 j (by omega)

/-- On a link whose cell array holds `m_num_cells ≥ 1` cells and on which the
scheduled outflows of the cells but the last do not exceed the queues, `evolve`
returns when `_num_veh_tomove` is zero. -/
theorem evolve_ok (round : ℚ → ℤ) (l : MNM_Dlink_Ctm_Multiclass)
    (hn : 1 ≤ l.m_num_cells) (hlen : (l.m_cell_array.length : ℤ) = l.m_num_cells)
    (hout : scheduled_within_queues round l) :
    ∃ l', evolve round 0 l = Step.ok l' := by
  obtain ⟨l1, h1⟩ := update_out_veh_ok round l hn hlen
  unfold scheduled_within_queues at hout
  rw [h1] at hout
  simp only at hout
  obtain ⟨-, n1⟩ := update_out_veh_veh_queue round l l1 h1
  obtain ⟨-, -, -, c1⟩ := update_out_veh_queued round l l1 h1
  have hlen1 : (l1.m_cell_array.length : ℤ) = l1.m_num_cells := by rw [n1, c1]; exact hlen
  have hn1 : 1 ≤ l1.m_num_cells := by rw [c1]; exact hn
  have h2 : ∃ cells2,
      (if l1.m_num_cells > 1 then
        for_loop move_body (l1.m_num_cells - 1).toNat 0 l1.m_cell_array
       else Step.ok l1.m_cell_array) = Step.ok cells2
      ∧ (cells2.length : ℤ) = l1.m_num_cells := by
    split_ifs with hgt
    · obtain ⟨cells2, e1, e2⟩ := move_loop_ok l1.m_cell_array (l1.m_num_cells - 1).toNat
        (by omega) hout
      exact ⟨cells2, e1, by omega⟩
    · exact ⟨_, rfl, hlen1⟩
  obtain ⟨cells2, h2, hlen2⟩ := h2
  obtain ⟨last3, hlast3⟩ := cell_at_last_ok hn1 hlen2
  have h4 : ∃ cells4,
      (if l1.m_num_cells > 1 then
        for_loop update_volume_body (l1.m_num_cells - 1).toNat 0
          (set_cell cells2 (l1.m_num_cells - 1) { last3 with m_veh_queue := last3.m_veh_queue })
       else Step.ok
          (set_cell cells2 (l1.m_num_cells - 1)
            { last3 with m_veh_queue := last3.m_veh_queue })) = Step.ok cells4
      ∧ (cells4.length : ℤ) = l1.m_num_cells := by
    have hl : (set_cell cells2 (l1.m_num_cells - 1)
        { last3 with m_veh_queue := last3.m_veh_queue }).length = cells2.length := by
      unfold set_cell
      rw [List.length_set]
    split_ifs with hgt
    · obtain ⟨cells4, e1, e2, -, -⟩ := update_volume_loop_ok
        (set_cell cells2 (l1.m_num_cells - 1) { last3 with m_veh_queue := last3.m_veh_queue })
        (l1.m_num_cells - 1).toNat (by omega)
      exact ⟨cells4, e1, by omega⟩
    · exact ⟨_, rfl, by omega⟩
  obtain ⟨cells4, h4, hlen4⟩ := h4
  obtain ⟨last5, hlast5⟩ := cell_at_last_ok hn1 hlen4
  unfold evolve
  rw [h1]
  simp only [Step.bind, h2, move_last_cell, hlast3, Int.toNat_zero, move_last_cell_loop, h4,
    hlast5]
  exact ⟨_, rfl⟩

/-- One call of `evolve` that succeeds on a link whose cell array holds
`m_num_cells ≥ 1` cells, whose cells have an empty `m_veh_queue` and whose
finished array is empty leaves in every cell volumes equal to the lengths of
the queues. -/
theorem evolve_volumes_agree (round : ℚ → ℤ) (k : ℤ) (l l' : MNM_Dlink_Ctm_Multiclass)
    (hn : 1 ≤ l.m_num_cells) (hlen : (l.m_cell_array.length : ℤ) = l.m_num_cells)
    (hmq : ∀ c ∈ l.m_cell_array, c.m_veh_queue = [])
    (hfin : l.m_finished_array = [])
    (h : evolve round k l = Step.ok l') : l'.volumes_agree := by
  obtain ⟨f', -, len', n'⟩ := evolve_finished round k l l' hmq h
  unfold evolve at h
  obtain ⟨l1, h1, h⟩ := Step.bind_eq_ok h
  obtain ⟨cells2, h2, h⟩ := Step.bind_eq_ok h
  obtain ⟨l3, h3, h⟩ := Step.bind_eq_ok h
  obtain ⟨cells4, h4, h⟩ := Step.bind_eq_ok h
  obtain ⟨last4, hlast4, h⟩ := Step.bind_eq_ok h
  injection h with h
  have hn3 : l'.m_num_cells = l3.m_num_cells := by rw [← h]
  have hf3 : l'.m_finished_array = l3.m_finished_array := by rw [← h]
  have hlen4 : l'.m_cell_array.length = cells4.length := by
    rw [← h]
    show (set_cell cells4 _ _).length = _
    unfold set_cell
    rw [List.length_set]
  have hlen4' : (cells4.length : ℤ) = l3.m_num_cells := by
    rw [← hlen4, len', ← hn3, n']
    exact hlen
  have hn3' : 1 ≤ l3.m_num_cells := by rw [← hn3, n']; exact hn
  have hdone : ∀ (j : ℕ) (c : Ctm_Cell_Multiclass), j < (l3.m_num_cells - 1).toNat →
      cells4.get? j = some c →
      c.m_volume_car = (c.m_veh_queue_car.length : ℤ)
        ∧ c.m_volume_truck = (c.m_veh_queue_truck.length : ℤ) := by
    split_ifs at h4 with hgt
    · have hl3 : l3.m_cell_array.length = cells4.length :=
        (for_loop_invariant _ (fun cs => cs.length)
          (fun i s s' hb => (update_volume_body_veh_queue i s s' hb).2) _ _ _ _ h4).symm
      obtain ⟨cells', e1, -, e3, -⟩ := update_volume_loop_ok l3.m_cell_array
        (l3.m_num_cells - 1).toNat (by omega)
      rw [h4] at e1
      injection e1 with e1
      rw [e1]
      exact e3
    · intro j c hj
      omega
  have hfin3 : l3.m_finished_array = [] := by rw [← hf3, f', hfin]
  intro c hc
  rw [← h] at hc
  have hc' : c ∈ cells4.set (l3.m_num_cells - 1).toNat
      ({ last4 with
          m_volume_car :=
            (last4.m_veh_queue_car.length : ℤ) + (l3.m_finished_array.length : ℤ)
          m_volume_truck :=
            (last4.m_veh_queue_truck.length : ℤ) + (l3.m_finished_array.length : ℤ) }
        ).update_perceived_density := hc
  obtain ⟨j, hj⟩ := List.get?_of_mem hc'
  by_cases hjl : j = (l3.m_num_cells - 1).toNat
  · subst hjl
    rw [List.get?_eq_getElem?, List.getElem?_set_self (by omega)] at hj
    injection hj with hj
    rw [← hj]
    apply update_volumes_agree
    · rw [hfin3]; simp
    · rw [hfin3]; simp
  · rw [List.get?_eq_getElem?, List.getElem?_set_ne (by omega), ← List.get?_eq_getElem?] at hj
    have hjlt : j < cells4.length := by
      by_contra hge
      rw [List.get?_eq_none.mpr (by omega)] at hj
      cases hj
    exact hdone j c (by omega) hj

/-- On a link whose volumes are the lengths of the queues, the sum of the volumes
and of the finished count is the number of vehicles in the car queues, the
truck queues and the finished array. -/
theorem conserved_quantity_of_agree (l : MNM_Dlink_Ctm_Multiclass) (h : l.volumes_agree) :
    conserved_quantity l 0 = l.per_class_held := by
  unfold conserved_quantity total_volume per_class_held
  rw [sub_zero]
  congr 2
  apply List.map_congr_left
  intro c hc
  rw [(h c hc).1, (h c hc).2]

theorem two_cell_num_cells : two_cell_link.m_num_cells = 2 := by
  norm_num [two_cell_link, init_cell_array, members, num_cells, std_cell_length,
    two_cell_args, example_args]

theorem moving_state_evolve :
    evolve round_half_up 0 moving_state = Step.ok moving_state_evolved := by
  unfold evolve update_out_veh move_last_cell
  simp only [moving_state, moving_state_evolved, two_cell_num_cells]
  simp only [example_cell_values]
  norm_num [for_loop, update_out_veh_body, schedule_out_veh, move_body, move_veh_queue,
    update_volume_body, cell_at, set_cell, Step.bind, move_last_cell_loop,
    moving_state_evolved, two_cell_link, init_cell_array, members, num_cells,
    std_cell_length, last_cell_length, two_cell_args, example_args, example_unassigned,
    new_cell, Ctm_Cell_Multiclass.init, update_perceived_density, free_flow_cond,
    semi_congested_cond, density_car, density_truck, get_perceived_demand,
    get_perceived_supply, round_half_up, clamped_hold_cap_car, clamped_hold_cap_truck,
    clamped_flow_cap_car, clamped_flow_cap_truck]
  exact ⟨⟨rfl, rfl⟩, rfl, rfl⟩

theorem moving_state_clear_incoming :
    clear_incoming_array moving_state = Step.ok moving_state := by
  unfold clear_incoming_array
  simp only [moving_state]
  simp only [example_cell_values]
  norm_num [get_link_supply, move_veh_queue, cell_at, set_cell, Step.bind,
    two_cell_link, init_cell_array, members, num_cells, std_cell_length,
    two_cell_args, example_args, Ctm_Cell_Multiclass.init, update_perceived_density,
    free_flow_cond, semi_congested_cond, density_car, density_truck]

theorem moving_state_veh_queue :
    ∀ c ∈ moving_state.m_cell_array, c.m_veh_queue = [] := by
  simp [moving_state, update_veh_queue, example_cell, new_cell, Ctm_Cell_Multiclass.init]

theorem moving_state_length :
    1 ≤ moving_state.m_num_cells
    ∧ (moving_state.m_cell_array.length : ℤ) = moving_state.m_num_cells := by
  have h : moving_state.m_num_cells = 2 := two_cell_num_cells
  rw [h]
  exact ⟨by norm_num, rfl⟩

theorem moving_state_scheduled : scheduled_within_queues round_half_up moving_state := by
  unfold scheduled_within_queues update_out_veh
  simp only [moving_state, two_cell_num_cells]
  simp only [example_cell_values]
  norm_num [for_loop, update_out_veh_body, schedule_out_veh, cell_at, set_cell, Step.bind,
    out_veh_within_queue, two_cell_link, init_cell_array, members, num_cells,
    std_cell_length, last_cell_length, two_cell_args, example_args, example_unassigned,
    new_cell, Ctm_Cell_Multiclass.init, update_perceived_density, free_flow_cond,
    semi_congested_cond, density_car, density_truck, get_perceived_demand,
    get_perceived_supply, round_half_up, clamped_hold_cap_car, clamped_hold_cap_truck,
    clamped_flow_cap_car, clamped_flow_cap_truck]

/-- The hypotheses that the conservation theorems below make on the state are
needed.  With a vehicle in `m_veh_queue` and the value `1` for
`_num_veh_tomove`, `evolve` moves that vehicle into the finished array, so that
the car queues, the truck queues and the finished array hold one vehicle more
than before.  With a car in a car queue that the car volume does not count,
`evolve` sets the volume to the length of the queue, so that the sum of the
volumes and of the finished count changes. -/
theorem conservation_hypotheses_needed :
    (terminal_queue_state.per_class_held = 0
      ∧ (evolve round_half_up 1 terminal_queue_state).toOption.map
          (fun l => l.per_class_held) = some 1)
    ∧ (conserved_quantity uncounted_car_state 0 = 0
      ∧ (evolve round_half_up 0 uncounted_car_state).toOption.map
          (fun l => conserved_quantity l 0) = some 1) := by
  have n1 : terminal_queue_state.m_num_cells = 1 := single_cell_num_cells
  have n2 : uncounted_car_state.m_num_cells = 1 := single_cell_num_cells
  refine ⟨⟨?_, ?_⟩, ⟨?_, ?_⟩⟩
  · norm_num [per_class_held, terminal_queue_state, example_cell, new_cell,
      Ctm_Cell_Multiclass.init, single_cell_link, init_cell_array, members]
  · unfold evolve update_out_veh move_last_cell
    simp only [n1]
    norm_num [for_loop, cell_at, set_cell, Step.bind, Step.toOption, move_last_cell_loop,
      MNM_Veh.has_next_link, per_class_held, terminal_queue_state, example_cell, new_cell,
      Ctm_Cell_Multiclass.init, single_cell_link, init_cell_array, members,
      update_perceived_density]
    split_ifs <;> simp
  · norm_num [conserved_quantity, total_volume, uncounted_car_state, example_cell, new_cell,
      Ctm_Cell_Multiclass.init, single_cell_link, init_cell_array, members]
  · unfold evolve update_out_veh move_last_cell
    simp only [n2]
    norm_num [for_loop, cell_at, set_cell, Step.bind, Step.toOption, move_last_cell_loop,
      conserved_quantity, total_volume, uncounted_car_state, example_cell, new_cell,
      Ctm_Cell_Multiclass.init, single_cell_link, init_cell_array, members,
      update_perceived_density]
    split_ifs <;> simp

/-- Claim C1, amended: start from a link whose cells have an empty `m_veh_queue`,
as the cell constructor leaves it, and let a sequence of `clear_incoming_array`
and `evolve` calls run to its end.  Then the number of vehicles in the car and
truck queues of all cells plus the finished count is the same at the end as at
the start, the finished array and the incoming queue are unchanged, and every
`m_veh_queue` is still empty; if the sequence contains a `clear_incoming_array`
call, the incoming queue was empty, so that no vehicle is ever taken from it.
When moreover, at the start, the cell array holds `m_num_cells ≥ 1` cells, the
finished array is empty and the volumes of every cell are the lengths of its
queues, then the same holds at the end, and the sum of all per-class volumes
plus the finished count is the same at the end as at the start. -/
theorem vehicles_conserved (round : ℚ → ℤ) (calls : List Call)
    (l l' : MNM_Dlink_Ctm_Multiclass)
    (hmq : ∀ c ∈ l.m_cell_array, c.m_veh_queue = [])
    (h : run round calls l = Step.ok l') :
    (l'.per_class_held = l.per_class_held
      ∧ l'.m_finished_array = l.m_finished_array
      ∧ l'.m_incoming_array = l.m_incoming_array
      ∧ ∀ c ∈ l'.m_cell_array, c.m_veh_queue = [])
    ∧ (Call.clear_incoming_array ∈ calls → l.m_incoming_array = [])
    ∧ (1 ≤ l.m_num_cells → (l.m_cell_array.length : ℤ) = l.m_num_cells →
        l.m_finished_array = [] → l.volumes_agree →
        l'.volumes_agree ∧ conserved_quantity l' 0 = conserved_quantity l 0) := by
  induction calls generalizing l with
  | nil =>
    simp only [run] at h
    injection h with h
    rw [← h]
    exact ⟨⟨rfl, rfl, rfl, hmq⟩, fun hm => absurd hm (List.not_mem_nil _),
      fun _ _ _ hv => ⟨hv, rfl⟩⟩
  | cons call calls ih =>
    cases call with
    | clear_incoming_array =>
      simp only [run] at h
      obtain ⟨l1, h1, h2⟩ := Step.bind_eq_ok h
      obtain ⟨i0, i1, f1, p1, q1, n1, len1, v1⟩ := clear_incoming_array_ok l l1 h1
      have hmq1 := veh_queue_empty_of_map q1 hmq
      obtain ⟨⟨p2, f2, i2, q2⟩, -, v2⟩ := ih l1 hmq1 h2
      refine ⟨⟨by rw [p2, p1], by rw [f2, f1], by rw [i2, i1, i0], q2⟩, fun _ => i0, ?_⟩
      intro hn hlen hfin hv
      obtain ⟨v3, c3⟩ := v2 (by rw [n1]; exact hn) (by rw [len1, n1]; exact hlen)
        (by rw [f1]; exact hfin) (v1 hv)
      refine ⟨v3, ?_⟩
      rw [c3, conserved_quantity_of_agree l1 (v1 hv), conserved_quantity_of_agree l hv, p1]
    | evolve k =>
      simp only [run] at h
      obtain ⟨l1, h1, h2⟩ := Step.bind_eq_ok h
      obtain ⟨f1, q1, len1, n1⟩ := evolve_finished round k l l1 hmq h1
      obtain ⟨e1, i1⟩ := evolve_held round k l l1 h1
      have p1 : l1.per_class_held = l.per_class_held := by
        rw [← vehicles_held_eq_per_class l1 q1, ← vehicles_held_eq_per_class l hmq]
        exact e1
      obtain ⟨⟨p2, f2, i2, q2⟩, c2, v2⟩ := ih l1 q1 h2
      refine ⟨⟨by rw [p2, p1], by rw [f2, f1], by rw [i2, i1], q2⟩, ?_, ?_⟩
      · intro hm
        rcases List.mem_cons.mp hm with hm | hm
        · cases hm
        · rw [← i1]
          exact c2 hm
      · intro hn hlen hfin hv
        have hv1 := evolve_volumes_agree round k l l1 hn hlen hmq hfin h1
        obtain ⟨v3, c3⟩ := v2 (by rw [n1]; exact hn) (by rw [len1, n1]; exact hlen)
          (by rw [f1]; exact hfin) hv1
        refine ⟨v3, ?_⟩
        rw [c3, conserved_quantity_of_agree l1 hv1, conserved_quantity_of_agree l hv, p1]

theorem vehicles_conserved_witness :
    run round_half_up [Call.clear_incoming_array, Call.evolve 0] moving_state
      = Step.ok moving_state_evolved
    ∧ (moving_state.m_cell_array.map fun c =>
        (c.m_veh_queue_car.length, c.m_veh_queue_truck.length)) = [(3, 3), (0, 0)]
    ∧ (moving_state_evolved.m_cell_array.map fun c =>
        (c.m_veh_queue_car.length, c.m_veh_queue_truck.length)) = [(1, 1), (2, 2)]
    ∧ moving_state_evolved.per_class_held = moving_state.per_class_held
    ∧ conserved_quantity moving_state_evolved 0 = conserved_quantity moving_state 0 := by
  have hrun : run round_half_up [Call.clear_incoming_array, Call.evolve 0] moving_state
      = Step.ok moving_state_evolved := by
    simp only [run, moving_state_clear_incoming, moving_state_evolve, Step.bind]
  have hv : moving_state.volumes_agree := by
    unfold volumes_agree
    simp [moving_state, update_volume, update_queues, example_cell, new_cell,
      Ctm_Cell_Multiclass.init]
  have h := vehicles_conserved round_half_up [Call.clear_incoming_array, Call.evolve 0]
    moving_state moving_state_evolved moving_state_veh_queue hrun
  refine ⟨hrun, ?_, ?_, h.1.1, (h.2.2 moving_state_length.1 moving_state_length.2 rfl hv).2⟩
  · simp [moving_state, update_queues, example_cell, new_cell, Ctm_Cell_Multiclass.init]
  · simp [moving_state_evolved, update_queues, example_cell, new_cell,
      Ctm_Cell_Multiclass.init]

/-- Claim C17: let the cell array of a link hold `m_num_cells ≥ 1` cells, each
with an empty `m_veh_queue` as the cell constructor leaves it, and let the
outflows that `update_out_veh` schedules in the cells but the last not exceed
the queue lengths.  Then `evolve` returns (with the value zero for
`_num_veh_tomove`, which is declared nowhere), and every call of `evolve` that
returns, whatever that value is, leaves unchanged the number of vehicles in
all car and truck queues plus the finished count, and leaves unchanged,
vehicle by vehicle and in order, the sequence of vehicles in the car queues and
the sequence of vehicles in the truck queues: no vehicle is lost, created, or
moved from the queues of one class to those of the other.  (That every vehicle
of the terminal cell has a next link is not needed.) -/
theorem queue_level_conservation (round : ℚ → ℤ) (l : MNM_Dlink_Ctm_Multiclass)
    (hn : 1 ≤ l.m_num_cells) (hlen : (l.m_cell_array.length : ℤ) = l.m_num_cells)
    (hmq : ∀ c ∈ l.m_cell_array, c.m_veh_queue = [])
    (hout : scheduled_within_queues round l) :
    (∃ l', evolve round 0 l = Step.ok l')
    ∧ ∀ (k : ℤ) (l' : MNM_Dlink_Ctm_Multiclass), evolve round k l = Step.ok l' →
        l'.per_class_held = l.per_class_held
        ∧ queue_line (fun c => c.m_veh_queue_car) l'.m_cell_array
            = queue_line (fun c => c.m_veh_queue_car) l.m_cell_array
        ∧ queue_line (fun c => c.m_veh_queue_truck) l'.m_cell_array
            = queue_line (fun c => c.m_veh_queue_truck) l.m_cell_array := by
  refine ⟨evolve_ok round l hn hlen hout, ?_⟩
  intro k l' h
  obtain ⟨-, q1, -, -⟩ := evolve_finished round k l l' hmq h
  obtain ⟨e1, -⟩ := evolve_held round k l l' h
  obtain ⟨a, b⟩ := evolve_lines round k l l' h
  refine ⟨?_, a, b⟩
  rw [← vehicles_held_eq_per_class l' q1, ← vehicles_held_eq_per_class l hmq]
  exact e1

theorem queue_level_conservation_witness :
    evolve round_half_up 0 moving_state = Step.ok moving_state_evolved
    ∧ moving_state.per_class_held = 6
    ∧ moving_state_evolved.per_class_held = moving_state.per_class_held
    ∧ queue_line (fun c => c.m_veh_queue_car) moving_state_evolved.m_cell_array
        = queue_line (fun c => c.m_veh_queue_car) moving_state.m_cell_array
    ∧ queue_line (fun c => c.m_veh_queue_truck) moving_state_evolved.m_cell_array
        = queue_line (fun c => c.m_veh_queue_truck) moving_state.m_cell_array := by
  refine ⟨moving_state_evolve, ?_,
    (queue_level_conservation round_half_up moving_state moving_state_length.1
      moving_state_length.2 moving_state_veh_queue moving_state_scheduled).2 0
      moving_state_evolved moving_state_evolve⟩
  simp [per_class_held, moving_state, update_queues, two_cell_link, init_cell_array, members,
    example_cell, new_cell, Ctm_Cell_Multiclass.init]

end Theorems

end MINAMI
